import Mathlib

/-!
Verification development for the store inventory engine
(`src/logic/inventoryEngine.ts`).

The engine is embedded shallowly: the mutable `InventoryEngine` class becomes
an explicit `EngineState` record and every method becomes a pure function from
state to state (plus a result value).  Conventions used throughout:

* ISO-8601 timestamp strings are abstracted order-isomorphically as integer
  milliseconds (`Timestamp := Int`); the code only ever compares timestamps
  through `new Date(x).getTime()`, so this preserves behaviour.
* JavaScript `Map`s are insertion-ordered association lists; `set` replaces a
  present key in place, otherwise appends, exactly as JS `Map` iteration
  order behaves.
* In-place mutation of an object found inside an array is modelled as an
  update of the first list element with the same identity key (object ids are
  unique in every reachable state; theorems that need this assume it).
* `Date.now()` (used only to build fresh identifier strings) is modelled by
  the inert state field `hostNow`; the `Math.random()` suffix of audit ids is
  modelled by the counter `auditSeq`.  Neither value influences behaviour.
* Fractional JS numbers (`rssi`, `confidence`, polygon coordinates) are
  modelled as `Rat`; they are carried verbatim and never drive control flow.
* Quantities are `Int` (JS numbers; the engine only ever works with integral
  quantities).
-/

namespace RetailSim

/-- Millisecond timestamps; stands for ISO-8601 strings compared via `getTime`. -/
abbrev Timestamp := Int

/-- Mirrors `toMs`: with the millisecond abstraction it is the identity. -/
def toMs (value : Timestamp) : Int := value

/-! ## Generic list helpers (array / `Map` semantics) -/

/-- Update the first element satisfying `p` (JS: find an object, mutate it). -/
def updateFirst (p : α → Bool) (f : α → α) : List α → List α
  | [] => []
  | x :: xs => if p x then f x :: xs else x :: updateFirst p f xs

/-- Remove the first element satisfying `p` (JS: `filter (e !== found)`). -/
def removeFirst (p : α → Bool) : List α → List α
  | [] => []
  | x :: xs => if p x then xs else x :: removeFirst p xs

/-- Stable insertion used by `sortByKey`. -/
def insertByKey (key : α → Int) (x : α) : List α → List α
  | [] => [x]
  | y :: ys => if key x ≤ key y then x :: y :: ys else y :: insertByKey key x ys

/-- Stable sort by an integer key, matching JS `Array.prototype.sort` with a
`(a, b) => key a - key b` comparator (stable since ES2019). -/
def sortByKey (key : α → Int) (l : List α) : List α :=
  l.foldr (insertByKey key) []

/-- Deduplicate keeping the first occurrence, matching JS `Set` insertion order
(later copies of an element are dropped). -/
def dedupKeepFirst [DecidableEq α] : List α → List α
  | [] => []
  | x :: xs => x :: (dedupKeepFirst xs).filter (fun y => y ≠ x)

/-- Modify the element at a position (models mutating one array cell). -/
def modifyAt (f : α → α) : Nat → List α → List α
  | _, [] => []
  | 0, x :: xs => f x :: xs
  | n + 1, x :: xs => x :: modifyAt f n xs

/-- Pair every element with its position. -/
def enumFrom (n : Nat) : List α → List (Nat × α)
  | [] => []
  | x :: xs => (n, x) :: enumFrom (n + 1) xs

/-! ### Insertion-ordered string-keyed maps (JS `Map`) -/

/-- Lookup (`Map.get`). -/
def mget (m : List (String × α)) (k : String) : Option α :=
  (m.find? (fun e => e.1 = k)).map (fun e => e.2)

/-- Insert or replace in place (`Map.set`). -/
def mset (m : List (String × α)) (k : String) (v : α) : List (String × α) :=
  if m.any (fun e => e.1 = k) then
    updateFirst (fun e => e.1 = k) (fun e => (e.1, v)) m
  else
    m ++ [(k, v)]

/-- Remove a key (`Map.delete`). -/
def mdelete (m : List (String × α)) (k : String) : List (String × α) :=
  removeFirst (fun e => e.1 = k) m

/-- Iteration over values (`Map.values()`), in insertion order. -/
def mvalues (m : List (String × α)) : List α :=
  m.map (fun e => e.2)

/-! ### Small string helpers -/

/-- Substring test on character lists, mirroring `String.prototype.includes`. -/
def charListIncludes (needle : List Char) : List Char → Bool
  | [] => needle.isEmpty
  | c :: rest => needle.isPrefixOf (c :: rest) || charListIncludes needle rest

/-- JS `hay.includes(needle)`. -/
def strIncludes (hay needle : String) : Bool :=
  charListIncludes needle.toList hay.toList

/-- JS `String.prototype.toUpperCase` (ASCII is all the code relies on). -/
def strUpper (s : String) : String :=
  String.mk (s.toList.map Char.toUpper)

/-- JS `String.prototype.toLowerCase` (ASCII is all the code relies on). -/
def strLower (s : String) : String :=
  String.mk (s.toList.map Char.toLower)

/-- Left-pad a numeral with zeros, mirroring `String(n).padStart(len, "0")`. -/
def padStartZeros (n : Nat) (len : Nat) : String :=
  let digits := toString n
  String.mk (List.replicate (len - digits.length) '0') ++ digits

/-! ## Domain model (from `src/domain/models.ts`) -/

inductive InventorySource
  | RFID
  | NON_RFID
deriving DecidableEq, Repr

inductive TaskStatus
  | CREATED
  | ASSIGNED
  | IN_PROGRESS
  | CONFIRMED
  | REJECTED
deriving DecidableEq, Repr

inductive SalesEventType
  | SALE
  | RETURN
deriving DecidableEq, Repr

inductive ReceivingStatus
  | IN_TRANSIT
  | CONFIRMED
  | CANCELLED
deriving DecidableEq, Repr

inductive StaffRole
  | ASSOCIATE
  | SUPERVISOR
deriving DecidableEq, Repr

inductive BasketStatus
  | IN_CART
  | SOLD
  | REMOVED
deriving DecidableEq, Repr

inductive PickStatus
  | IN_PROGRESS
  | COMPLETED
deriving DecidableEq, Repr

inductive AuditAction
  | CREATED
  | ASSIGNED
  | STARTED
  | CONFIRMED
  | CLOSED
  | CANCELLED
deriving DecidableEq, Repr

structure MapPoint where
  x : Rat
  y : Rat
deriving DecidableEq, Repr

structure ReplenishmentSourceRef where
  sourceZoneId : String
  sortOrder : Int
deriving DecidableEq, Repr

structure Zone where
  id : String
  name : String
  color : String
  mapPolygon : List MapPoint
  antennaIds : List String
  ruleIds : List String
  isSalesLocation : Bool
  replenishmentSources : List ReplenishmentSourceRef
  isActive : Bool
  createdAt : Timestamp
deriving DecidableEq, Repr

structure Antenna where
  id : String
  zoneId : String
  name : String
  x : Rat
  y : Rat
  isActive : Bool
  createdAt : Timestamp
deriving DecidableEq, Repr

structure RFIDReadEvent where
  id : String
  epc : String
  antennaId : String
  zoneId : String
  timestamp : Timestamp
  rssi : Option Rat
  ingestedAt : Timestamp
deriving DecidableEq, Repr

structure EPCSkuMapping where
  id : String
  epc : String
  skuId : String
  skuName : Option String
  inventorySource : InventorySource
  activeFrom : Timestamp
  activeTo : Option Timestamp
deriving DecidableEq, Repr

structure InventorySnapshotByZone where
  id : String
  zoneId : String
  skuId : String
  qty : Int
  source : InventorySource
  confidence : Option Rat
  lastCalculatedAt : Timestamp
  version : Int
deriving DecidableEq, Repr

structure ReplenishmentRule where
  id : String
  zoneId : String
  skuId : String
  source : InventorySource
  inboundSourceLocationId : Option String
  minQty : Int
  maxQty : Int
  priority : Int
  isActive : Bool
  updatedAt : Timestamp
deriving DecidableEq, Repr

structure SourceCandidate where
  sourceZoneId : String
  sortOrder : Int
  availableQty : Int
deriving DecidableEq, Repr

structure ReplenishmentTask where
  id : String
  ruleId : String
  zoneId : String
  skuId : String
  sourceZoneId : Option String
  sourceCandidates : List SourceCandidate
  assignedStaffId : Option String
  assignedAt : Option Timestamp
  status : TaskStatus
  triggerQty : Int
  deficitQty : Int
  targetQty : Int
  createdAt : Timestamp
  updatedAt : Timestamp
  closedAt : Option Timestamp
  confirmedQty : Option Int
  confirmedBy : Option String
  closeReason : Option String
deriving DecidableEq, Repr

structure SalesEvent where
  id : String
  skuId : String
  zoneId : String
  eventType : SalesEventType
  qty : Int
  timestamp : Timestamp
  posTxnId : Option String
  ingestedAt : Timestamp
deriving DecidableEq, Repr

structure EPCPresence where
  epc : String
  skuId : String
  zoneId : String
  antennaId : String
  lastSeenAt : Timestamp
  lastRssi : Option Rat
deriving DecidableEq, Repr

structure StaffMember where
  id : String
  name : String
  role : StaffRole
  activeShift : Bool
  shiftLabel : String
  scopeAllZones : Bool
  zoneScopeZoneIds : List String
deriving DecidableEq, Repr

structure TaskAuditEntry where
  id : String
  taskId : String
  action : AuditAction
  actorId : Option String
  details : String
  timestamp : Timestamp
deriving DecidableEq, Repr

structure ReceivingOrder where
  id : String
  sourceLocationId : String
  destinationZoneId : String
  skuId : String
  source : InventorySource
  assignedStaffId : Option String
  assignedAt : Option Timestamp
  requestedQty : Int
  confirmedQty : Int
  status : ReceivingStatus
  createdAt : Timestamp
  updatedAt : Timestamp
  confirmedAt : Option Timestamp
  confirmedBy : Option String
  note : Option String
deriving DecidableEq, Repr

/-! Engine-private record types (declared inside `inventoryEngine.ts`). -/

structure Customer where
  id : String
  name : String
deriving DecidableEq, Repr

structure CustomerBasketItem where
  id : String
  customerId : String
  zoneId : String
  skuId : String
  qty : Int
  pickedConfirmedQty : Int
  status : BasketStatus
  createdAt : Timestamp
deriving DecidableEq, Repr

structure PendingRFIDPick where
  basketItemId : String
  zoneId : String
  skuId : String
  qtyRemaining : Int
  consumedEpcs : List String
  status : PickStatus
deriving DecidableEq, Repr

structure ConfirmationMovement where
  zoneId : String
  skuId : String
  qty : Int
  timestamp : Timestamp
  taskId : String
deriving DecidableEq, Repr

structure TransferResult where
  movedQty : Int
  movedEpcs : List String
  sourceType : InventorySource
  destinationAntennaId : Option String
deriving DecidableEq, Repr

structure ConfirmPayload where
  confirmedQty : Int
  confirmedBy : String
  confirmedAt : Timestamp
  sourceZoneId : Option String
deriving DecidableEq, Repr

structure ConfirmReceivingPayload where
  confirmedAt : Timestamp
  confirmedBy : String
deriving DecidableEq, Repr

/-! ## Engine configuration and constants -/

def dedupWindowSec : Int := 15

def rfidPresenceTtlSec : Int := 300

def CASHIER_STORAGE_ZONE_ID : String := "zone-cashier-storage"

def PRINTING_WALL_ZONE_ID : String := "zone-printing-wall"

/-- Mirrors `taskIsOpen`. -/
def taskIsOpen (status : TaskStatus) : Bool :=
  status = TaskStatus.CREATED || status = TaskStatus.ASSIGNED ||
    status = TaskStatus.IN_PROGRESS

/-! ## Engine state (the fields of the `InventoryEngine` class) -/

structure EngineState where
  zones : List Zone
  antennas : List Antenna
  mapping : List EPCSkuMapping
  rules : List ReplenishmentRule
  skuSourceById : List (String × InventorySource)
  nonRfidBaselines : List (String × InventorySnapshotByZone)
  snapshots : List InventorySnapshotByZone
  rfidEvents : List RFIDReadEvent
  salesEvents : List SalesEvent
  tasks : List ReplenishmentTask
  epcPresence : List (String × EPCPresence)
  customers : List (String × Customer)
  customerBasketItems : List CustomerBasketItem
  pendingRFIDPicks : List PendingRFIDPick
  replenishmentConfirmations : List ConfirmationMovement
  receivingOrders : List ReceivingOrder
  staff : List StaffMember
  taskAudit : List TaskAuditEntry
  nowCursor : Timestamp
  generatedEpcSeq : Nat
  personalizableSkuIds : List String
  hostNow : Int
  auditSeq : Nat
deriving DecidableEq, Repr

/-- Render an `InventorySource` for identifier construction. -/
def sourceTag : InventorySource → String
  | InventorySource.RFID => "RFID"
  | InventorySource.NON_RFID => "NON_RFID"

/-- Millisecond value standing for the `"2026-02-10T09:00:00Z"` fallback used by
`getBaselineSnapshot` (the exact epoch value is irrelevant; only the order of
timestamps matters). -/
def baselineFallbackTimestamp : Timestamp := 1770714000000

/-- Millisecond value standing for the constructor's initial cursor
`"2026-02-10T10:00:00Z"` (one hour after the baseline fallback). -/
def initialCursorTimestamp : Timestamp := baselineFallbackTimestamp + 3600000

namespace EngineState

/-- Mirrors `this.skuSourceById.get(skuId) ?? "NON_RFID"`. -/
def skuSourceOf (s : EngineState) (skuId : String) : InventorySource :=
  (mget s.skuSourceById skuId).getD InventorySource.NON_RFID

/-- Mirrors `getBaselineKey`. -/
def getBaselineKey (zoneId skuId : String) : String :=
  zoneId ++ "::" ++ skuId

/-- Mirrors `getBaselineSnapshot`. -/
def getBaselineSnapshot (s : EngineState) (zoneId skuId : String) :
    InventorySnapshotByZone :=
  match mget s.nonRfidBaselines (getBaselineKey zoneId skuId) with
  | some exact => exact
  | none =>
      { id := "baseline-" ++ zoneId ++ "-" ++ skuId
        zoneId := zoneId
        skuId := skuId
        qty := 0
        source := InventorySource.NON_RFID
        confidence := none
        lastCalculatedAt := baselineFallbackTimestamp
        version := 1 }

/-- Mirrors `deduplicateReads`. -/
def deduplicateReads (s : EngineState) (epc antennaId : String)
    (timeWindowSec : Int) (eventTimestamp : Timestamp) : Bool :=
  let eventMs := toMs eventTimestamp
  let lowerBound := eventMs - timeWindowSec * 1000
  match (s.rfidEvents.reverse).find?
      (fun e => decide (e.epc = epc ∧ e.antennaId = antennaId)) with
  | none => false
  | some last => decide (toMs last.timestamp ≥ lowerBound)

/-- Mirrors `lookupSkuByEPC`. -/
def lookupSkuByEPC (s : EngineState) (epc : String) (at' : Timestamp) :
    Option EPCSkuMapping :=
  let atMs := toMs at'
  s.mapping.find? (fun m =>
    decide (m.epc = epc ∧ toMs m.activeFrom ≤ atMs) &&
      (match m.activeTo with
       | none => true
       | some endTs => decide (toMs endTs ≥ atMs)))

/-- Mirrors `getPresentEPCs` (fresh EPCs of a SKU in a zone, oldest seen first). -/
def getPresentEPCs (s : EngineState) (zoneId skuId : String) : List String :=
  let nowMs := toMs s.nowCursor
  let ttlMs := rfidPresenceTtlSec * 1000
  let candidates := (mvalues s.epcPresence).filter (fun p =>
    decide (p.zoneId = zoneId ∧ p.skuId = skuId ∧
      ¬ toMs p.lastSeenAt < nowMs - ttlMs))
  (sortByKey (fun p => toMs p.lastSeenAt) candidates).map (fun p => p.epc)

/-- Mirrors `getCurrentInventoryQty` (newest snapshot for the key, else 0). -/
def getCurrentInventoryQty (s : EngineState) (zoneId skuId : String)
    (source : InventorySource) : Int :=
  let matching := s.snapshots.filter (fun sn =>
    decide (sn.zoneId = zoneId ∧ sn.skuId = skuId ∧ sn.source = source))
  match sortByKey (fun sn => - toMs sn.lastCalculatedAt) matching with
  | [] => 0
  | sn :: _ => sn.qty

/-- Mirrors `calculateNonRFIDInventory`. -/
def calculateNonRFIDInventory (s : EngineState) (skuId zoneId : String) : Int :=
  let baseline := getBaselineSnapshot s zoneId skuId
  let baselineMs := toMs baseline.lastCalculatedAt
  let sold := ((s.salesEvents.filter (fun e =>
      decide (e.zoneId = zoneId ∧ e.skuId = skuId ∧
        e.eventType = SalesEventType.SALE ∧ toMs e.timestamp ≥ baselineMs))).map
      (fun e => e.qty)).sum
  let returns := ((s.salesEvents.filter (fun e =>
      decide (e.zoneId = zoneId ∧ e.skuId = skuId ∧
        e.eventType = SalesEventType.RETURN ∧ toMs e.timestamp ≥ baselineMs))).map
      (fun e => e.qty)).sum
  let confirmedReplenishment := ((s.replenishmentConfirmations.filter (fun c =>
      decide (c.zoneId = zoneId ∧ c.skuId = skuId ∧
        toMs c.timestamp ≥ baselineMs))).map (fun c => c.qty)).sum
  max 0 (baseline.qty - sold + returns + confirmedReplenishment)

/-- Key predicate of `upsertSnapshot`'s `find`. -/
def snapKey (zoneId skuId : String) (source : InventorySource)
    (sn : InventorySnapshotByZone) : Bool :=
  decide (sn.zoneId = zoneId ∧ sn.skuId = skuId ∧ sn.source = source)

/-- Mirrors `upsertSnapshot` (including the cashier-storage delete-on-zero rule). -/
def upsertSnapshot (s : EngineState) (zoneId skuId : String) (qty : Int)
    (source : InventorySource) (confidence : Option Rat) : EngineState :=
  let existing := s.snapshots.find? (snapKey zoneId skuId source)
  if zoneId = CASHIER_STORAGE_ZONE_ID ∧ qty ≤ 0 then
    match existing with
    | some _ =>
        { s with snapshots := removeFirst (snapKey zoneId skuId source) s.snapshots }
    | none => s
  else
    match existing with
    | none =>
        { s with snapshots := s.snapshots ++
          [{ id := "snap-" ++ zoneId ++ "-" ++ skuId ++ "-" ++ sourceTag source
             zoneId := zoneId
             skuId := skuId
             qty := qty
             source := source
             confidence := confidence
             lastCalculatedAt := s.nowCursor
             version := 1 }] }
    | some _ =>
        let rewrite := fun (sn : InventorySnapshotByZone) =>
          { sn with
            qty := qty
            lastCalculatedAt := s.nowCursor
            version := sn.version + 1
            confidence :=
              match confidence with
              | some c => some c
              | none => sn.confidence }
        { s with snapshots := updateFirst (snapKey zoneId skuId source) rewrite s.snapshots }

/-- Mirrors `getReservedOpenQty` (units reserved by IN_CART basket items). -/
def getReservedOpenQty (s : EngineState) (zoneId skuId : String) : Int :=
  (s.customerBasketItems.filter (fun it =>
    decide (it.status = BasketStatus.IN_CART ∧ it.zoneId = zoneId ∧
      it.skuId = skuId))).foldl
    (fun sum it =>
      match s.skuSourceOf it.skuId with
      | InventorySource.RFID => sum + max 0 (it.qty - it.pickedConfirmedQty)
      | InventorySource.NON_RFID => sum + it.qty) 0

/-- Mirrors `getAvailableQtyForCart`. -/
def getAvailableQtyForCart (s : EngineState) (zoneId skuId : String)
    (source : InventorySource) : Int :=
  let currentQty := getCurrentInventoryQty s zoneId skuId source
  let reservedQty := getReservedOpenQty s zoneId skuId
  max 0 (currentQty - reservedQty)

/-- Mirrors `getReservedTaskQtyFromSource`. -/
def getReservedTaskQtyFromSource (s : EngineState) (sourceZoneId skuId : String)
    (excludeTaskId : Option String) : Int :=
  (s.tasks.filter (fun t =>
    (match excludeTaskId with
     | some ex => decide (t.id ≠ ex)
     | none => true) &&
      taskIsOpen t.status &&
      decide (t.skuId = skuId ∧ t.sourceZoneId = some sourceZoneId))).foldl
    (fun sum t => sum + max 0 t.deficitQty) 0

/-- Mirrors `buildSourceCandidates`. -/
def buildSourceCandidates (s : EngineState) (rule : ReplenishmentRule)
    (excludeTaskId : Option String) : List SourceCandidate :=
  match s.zones.find? (fun z => decide (z.id = rule.zoneId)) with
  | none => []
  | some zone =>
      (sortByKey (fun src => src.sortOrder) zone.replenishmentSources).map
        (fun src =>
          { sourceZoneId := src.sourceZoneId
            sortOrder := src.sortOrder
            availableQty := max 0
              (getCurrentInventoryQty s src.sourceZoneId rule.skuId rule.source -
                getReservedTaskQtyFromSource s src.sourceZoneId rule.skuId
                  excludeTaskId) })

/-- Mirrors `buildManualSourceCandidates`. -/
def buildManualSourceCandidates (s : EngineState) (destinationZoneId skuId : String)
    (source : InventorySource) (preferredSourceZoneId : Option String) :
    List SourceCandidate :=
  let start : List SourceCandidate :=
    match preferredSourceZoneId with
    | some preferred =>
        [{ sourceZoneId := preferred
           sortOrder := 1
           availableQty := max 0
             (getCurrentInventoryQty s preferred skuId source -
               getReservedTaskQtyFromSource s preferred skuId none) }]
    | none => []
  match s.zones.find? (fun z => decide (z.id = destinationZoneId)) with
  | none => start
  | some destination =>
      (sortByKey (fun src => src.sortOrder) destination.replenishmentSources).foldl
        (fun candidates src =>
          if candidates.any (fun entry => decide (entry.sourceZoneId = src.sourceZoneId)) then
            candidates
          else
            candidates ++
              [{ sourceZoneId := src.sourceZoneId
                 sortOrder := src.sortOrder + 1
                 availableQty := max 0
                   (getCurrentInventoryQty s src.sourceZoneId skuId source -
                     getReservedTaskQtyFromSource s src.sourceZoneId skuId none) }])
        start

/-- Mirrors `getProjectedSupplyForOrigin`. -/
def getProjectedSupplyForOrigin (s : EngineState) (zone : Zone) (skuId : String)
    (source : InventorySource) : Int :=
  let currentInOrigin := getCurrentInventoryQty s zone.id skuId source
  let openInboundQty := ((s.tasks.filter (fun t =>
      decide (t.zoneId = zone.id ∧ t.skuId = skuId ∧
        taskIsOpen t.status = true))).map
      (fun t => max 0 t.deficitQty)).sum
  let sourcePotentialQty :=
    (sortByKey (fun src => src.sortOrder) zone.replenishmentSources).foldl
      (fun sum sourceRef =>
        sum + max 0
          (getCurrentInventoryQty s sourceRef.sourceZoneId skuId source -
            getReservedTaskQtyFromSource s sourceRef.sourceZoneId skuId none)) 0
  currentInOrigin + openInboundQty + sourcePotentialQty

/-- Mirrors `pushTaskAudit` (the `Date.now()`/`Math.random()` id is abstracted
by `hostNow` and the `auditSeq` counter; the id is never inspected). -/
def pushTaskAudit (s : EngineState) (taskId : String) (action : AuditAction)
    (actorId : Option String) (details : String) : EngineState :=
  { s with
    taskAudit :=
      { id := "audit-" ++ toString s.hostNow ++ "-" ++ toString s.auditSeq
        taskId := taskId
        action := action
        actorId := actorId
        details := details
        timestamp := s.nowCursor } :: s.taskAudit
    auditSeq := s.auditSeq + 1 }

/-- Mirrors `getAssignableActiveStaff`. -/
def getAssignableActiveStaff (s : EngineState) : List StaffMember :=
  let activeAssociates := s.staff.filter (fun m =>
    m.activeShift && decide (m.role = StaffRole.ASSOCIATE))
  if activeAssociates.length > 0 then activeAssociates
  else s.staff.filter (fun m => m.activeShift)

/-- Mirrors `hasAnyAssignableStaffInScope`. -/
def hasAnyAssignableStaffInScope (s : EngineState) (zoneId : String) : Bool :=
  (getAssignableActiveStaff s).any (fun m =>
    m.scopeAllZones || m.zoneScopeZoneIds.contains zoneId)

/-- Guarded load increment: JS `if (!load.has(id)) continue; load.set(id, get+1)`. -/
def bumpLoadIfTracked (lm : List (String × Int)) (sid : String) :
    List (String × Int) :=
  if lm.any (fun e => decide (e.1 = sid)) then
    updateFirst (fun e => decide (e.1 = sid)) (fun e => (e.1, e.2 + 1)) lm
  else lm

/-- Unguarded load increment: JS `load.set(id, (load.get(id) ?? 0) + 1)`. -/
def bumpLoad (lm : List (String × Int)) (sid : String) : List (String × Int) :=
  mset lm sid ((mget lm sid).getD 0 + 1)

/-- JS `assignPool.reduce(...)`: minimum-load member, ties by ascending id. -/
def pickMinLoadMember (lm : List (String × Int)) (first : StaffMember)
    (rest : List StaffMember) : StaffMember :=
  rest.foldl
    (fun selected candidate =>
      let selectedLoad := (mget lm selected.id).getD 0
      let candidateLoad := (mget lm candidate.id).getD 0
      if candidateLoad = selectedLoad then
        if candidate.id < selected.id then candidate else selected
      else if candidateLoad < selectedLoad then candidate else selected)
    first

/-- Mirrors `autoAssignPendingTasks`. -/
def autoAssignPendingTasks (s : EngineState) (at' : Timestamp) : EngineState :=
  let pendingTasks := sortByKey (fun t => toMs t.createdAt)
    (s.tasks.filter (fun t =>
      decide (t.status = TaskStatus.CREATED ∧ t.assignedStaffId = none)))
  if pendingTasks.length = 0 then s
  else
    let availableStaff := getAssignableActiveStaff s
    if availableStaff.length = 0 then s
    else
      let load0 : List (String × Int) := availableStaff.map (fun m => (m.id, 0))
      let load1 := s.tasks.foldl
        (fun lm t =>
          match t.assignedStaffId with
          | some sid => if taskIsOpen t.status then bumpLoadIfTracked lm sid else lm
          | none => lm) load0
      let load2 := s.receivingOrders.foldl
        (fun lm o =>
          match o.assignedStaffId with
          | some sid =>
              if decide (o.status = ReceivingStatus.IN_TRANSIT) then
                bumpLoadIfTracked lm sid
              else lm
          | none => lm) load1
      let step := fun (acc : EngineState × List (String × Int))
          (task : ReplenishmentTask) =>
        let eligibleByScope := availableStaff.filter (fun m =>
          m.scopeAllZones || m.zoneScopeZoneIds.contains task.zoneId)
        let assignPool :=
          if eligibleByScope.length > 0 then eligibleByScope else availableStaff
        match assignPool with
        | [] => acc
        | first :: restPool =>
            let member := pickMinLoadMember acc.2 first restPool
            let assign := fun (t : ReplenishmentTask) =>
              { t with
                assignedStaffId := some member.id
                assignedAt := some at'
                status := TaskStatus.ASSIGNED
                updatedAt := at' }
            let st1 := { acc.1 with
              tasks := updateFirst (fun t => decide (t.id = task.id)) assign acc.1.tasks }
            let lm1 := bumpLoad acc.2 member.id
            let st2 := { st1 with nowCursor := at' }
            let st3 := pushTaskAudit st2 task.id AuditAction.ASSIGNED (some member.id)
              (if eligibleByScope.length > 0 then
                "auto_assigned_to=" ++ member.name
              else
                "auto_assigned_fallback_to=" ++ member.name ++ " reason=no_scope_match")
            (st3, lm1)
      (pendingTasks.foldl step (s, load2)).1

/-- Mirrors `autoAssignPendingReceivingOrders`. -/
def autoAssignPendingReceivingOrders (s : EngineState) (at' : Timestamp) :
    EngineState :=
  let pendingOrders := sortByKey (fun o => toMs o.createdAt)
    (s.receivingOrders.filter (fun o =>
      decide (o.status = ReceivingStatus.IN_TRANSIT ∧ o.assignedStaffId = none)))
  if pendingOrders.length = 0 then s
  else
    let availableStaff := getAssignableActiveStaff s
    if availableStaff.length = 0 then s
    else
      let load0 : List (String × Int) := availableStaff.map (fun m => (m.id, 0))
      let load1 := s.tasks.foldl
        (fun lm t =>
          match t.assignedStaffId with
          | some sid => if taskIsOpen t.status then bumpLoadIfTracked lm sid else lm
          | none => lm) load0
      let load2 := s.receivingOrders.foldl
        (fun lm o =>
          match o.assignedStaffId with
          | some sid =>
              if decide (o.status = ReceivingStatus.IN_TRANSIT) then
                bumpLoadIfTracked lm sid
              else lm
          | none => lm) load1
      let step := fun (acc : EngineState × List (String × Int))
          (order : ReceivingOrder) =>
        let eligibleByScope := availableStaff.filter (fun m =>
          m.scopeAllZones || m.zoneScopeZoneIds.contains order.destinationZoneId)
        let assignPool :=
          if eligibleByScope.length > 0 then eligibleByScope else availableStaff
        match assignPool with
        | [] => acc
        | first :: restPool =>
            let member := pickMinLoadMember acc.2 first restPool
            let assign := fun (o : ReceivingOrder) =>
              { o with
                assignedStaffId := some member.id
                assignedAt := some at'
                updatedAt := at' }
            let st1 := { acc.1 with
              receivingOrders :=
                updateFirst (fun o => decide (o.id = order.id)) assign
                  acc.1.receivingOrders }
            let lm1 := bumpLoad acc.2 member.id
            let st2 := { st1 with nowCursor := at' }
            (st2, lm1)
      (pendingOrders.foldl step (s, load2)).1

/-- Mirrors `closeReplenishmentTask` (state effect; the returned task object is
the state's task). -/
def closeReplenishmentTask (s : EngineState) (taskId : String) (reason : String) :
    EngineState :=
  match s.tasks.find? (fun t => decide (t.id = taskId)) with
  | none => s
  | some task =>
      if ¬ taskIsOpen task.status then s
      else
        let newStatus :=
          if reason.startsWith "confirmed" then TaskStatus.CONFIRMED
          else TaskStatus.REJECTED
        let closeFn := fun (t : ReplenishmentTask) =>
          { t with
            status := newStatus
            closeReason := some reason
            closedAt := some s.nowCursor
            updatedAt := s.nowCursor }
        let s1 := { s with
          tasks := updateFirst (fun t => decide (t.id = taskId)) closeFn s.tasks }
        let s2 := pushTaskAudit s1 taskId AuditAction.CLOSED task.confirmedBy
          ("reason=" ++ reason)
        let s3 := autoAssignPendingTasks s2 s2.nowCursor
        autoAssignPendingReceivingOrders s3 s3.nowCursor

/-- The task record built by `generateReplenishmentTask`. -/
def genTaskOf (s : EngineState) (rule : ReplenishmentRule)
    (deficitQty triggerQty : Int) (selectedSource : Option String)
    (sourceCandidates : List SourceCandidate) : ReplenishmentTask :=
  { id := "task-" ++ toString (s.tasks.length + 1)
    ruleId := rule.id
    zoneId := rule.zoneId
    skuId := rule.skuId
    sourceZoneId := selectedSource
    sourceCandidates := sourceCandidates
    assignedStaffId := none
    assignedAt := none
    status := TaskStatus.CREATED
    triggerQty := triggerQty
    deficitQty := deficitQty
    targetQty := rule.maxQty
    createdAt := s.nowCursor
    updatedAt := s.nowCursor
    closedAt := none
    confirmedQty := none
    confirmedBy := none
    closeReason := none }

/-- Mirrors `generateReplenishmentTask` (state effect; returns the new state). -/
def generateReplenishmentTask (s : EngineState) (rule : ReplenishmentRule)
    (deficitQty triggerQty : Int) (sourceZoneId : Option String)
    (sourceCandidatesInput : Option (List SourceCandidate)) : EngineState :=
  let sourceCandidates :=
    match sourceCandidatesInput with
    | some cs => cs
    | none => buildSourceCandidates s rule none
  let selectedSource :=
    match sourceZoneId with
    | some z => some z
    | none =>
        match sourceCandidates.find? (fun c => decide (c.availableQty > 0)) with
        | some c => some c.sourceZoneId
        | none => sourceCandidates.head?.map (fun c => c.sourceZoneId)
  let task : ReplenishmentTask :=
    genTaskOf s rule deficitQty triggerQty selectedSource sourceCandidates
  let s1 := { s with tasks := s.tasks ++ [task] }
  let s2 := pushTaskAudit s1 task.id AuditAction.CREATED none
    ("zone=" ++ task.zoneId ++ " sku=" ++ task.skuId ++ " deficit=" ++
      toString task.deficitQty)
  autoAssignPendingTasks s2 s2.nowCursor

/-- Argument record of `createReceivingOrder`. -/
structure CreateReceivingPayload where
  sourceLocationId : String
  destinationZoneId : String
  skuId : String
  source : InventorySource
  requestedQty : Int
  note : Option String
  createdAt : Timestamp
deriving DecidableEq, Repr

/-- Mirrors `createReceivingOrder` (`Math.floor` is the identity on the integral
quantities this model works with). -/
def createReceivingOrder (s : EngineState) (payload : CreateReceivingPayload) :
    (String × Option ReceivingOrder) × EngineState :=
  let requestedQty := max 0 payload.requestedQty
  if requestedQty ≤ 0 then (("invalid_qty", none), s)
  else if ¬ s.zones.any (fun z => decide (z.id = payload.destinationZoneId)) then
    (("destination_not_found", none), s)
  else if ¬ s.skuSourceById.any (fun e => decide (e.1 = payload.skuId)) then
    (("sku_not_found", none), s)
  else if ¬ s.skuSourceOf payload.skuId = payload.source then
    (("source_mismatch", none), s)
  else
    let isExternalSource := payload.sourceLocationId.startsWith "external-"
    if ¬ isExternalSource ∧
        ¬ s.zones.any (fun z => decide (z.id = payload.sourceLocationId)) then
      (("source_not_found", none), s)
    else if ¬ isExternalSource ∧
        payload.sourceLocationId = payload.destinationZoneId then
      (("source_equals_destination", none), s)
    else
      let s1 := { s with nowCursor := payload.createdAt }
      let order : ReceivingOrder :=
        { id := "recv-" ++ toString (s1.receivingOrders.length + 1)
          sourceLocationId := payload.sourceLocationId
          destinationZoneId := payload.destinationZoneId
          skuId := payload.skuId
          source := payload.source
          assignedStaffId := none
          assignedAt := none
          requestedQty := requestedQty
          confirmedQty := 0
          status := ReceivingStatus.IN_TRANSIT
          createdAt := payload.createdAt
          updatedAt := payload.createdAt
          confirmedAt := none
          confirmedBy := none
          note := payload.note }
      let s2 := { s1 with receivingOrders := order :: s1.receivingOrders }
      let s3 := autoAssignPendingReceivingOrders s2 payload.createdAt
      (("created", some order), s3)

/-- Mirrors `resolveInboundSourceLocation`. -/
def resolveInboundSourceLocation (s : EngineState) (zone : Zone)
    (rule : ReplenishmentRule) (requiredQty : Int) : String :=
  let ordered := sortByKey (fun src => src.sortOrder) zone.replenishmentSources
  match ordered with
  | [] => "external-esbo"
  | first :: _ =>
      let internalCandidates :=
        (ordered.filter (fun src => ¬ src.sourceZoneId.startsWith "external-")).map
          (fun src =>
            (src.sourceZoneId,
              getCurrentInventoryQty s src.sourceZoneId rule.skuId rule.source))
      match internalCandidates.find? (fun c => decide (c.2 ≥ requiredQty)) with
      | some c => c.1
      | none =>
          match internalCandidates.find? (fun c => decide (c.2 > 0)) with
          | some c => c.1
          | none =>
              match ordered.find?
                  (fun src => src.sourceZoneId.startsWith "external-") with
              | some src => src.sourceZoneId
              | none => first.sourceZoneId

/-- Mirrors `evaluateInboundReceivingNeed` (non-sales locations). -/
def evaluateInboundReceivingNeed (s : EngineState) (zone : Zone)
    (rule : ReplenishmentRule) (currentQty : Int) : EngineState :=
  let ids := s.tasks.map (fun t => t.id)
  let s1 := ids.foldl
    (fun st tid =>
      match st.tasks.find? (fun t => decide (t.id = tid)) with
      | none => st
      | some t =>
          if decide (t.ruleId = rule.id) && taskIsOpen t.status &&
              decide (t.status ≠ TaskStatus.IN_PROGRESS) then
            closeReplenishmentTask st tid "non_sales_receiving_flow"
          else st) s
  if currentQty > rule.minQty then s1
  else
    let desiredQty := max 0 (rule.maxQty - currentQty)
    if desiredQty ≤ 0 then s1
    else
      let plannedInTransitQty := ((s1.receivingOrders.filter (fun o =>
          decide (o.status = ReceivingStatus.IN_TRANSIT ∧
            o.destinationZoneId = zone.id ∧ o.skuId = rule.skuId ∧
            o.source = rule.source))).map
          (fun o => max 0 o.requestedQty)).sum
      let remainingQty := max 0 (desiredQty - plannedInTransitQty)
      if remainingQty ≤ 0 then s1
      else
        let sourceLocationId := resolveInboundSourceLocation s1 zone rule remainingQty
        (createReceivingOrder s1
          { sourceLocationId := sourceLocationId
            destinationZoneId := zone.id
            skuId := rule.skuId
            source := rule.source
            requestedQty := remainingQty
            note := some "auto_replenishment_non_sales"
            createdAt := s1.nowCursor }).2

/-- The newest-first trim walk of `evaluateMinMax` (ids are the auto-adjustable
tasks, newest first; task fields are read live from the state). -/
def trimLoop (s : EngineState) (ids : List String) (overflow : Int) : EngineState :=
  match ids with
  | [] => s
  | tid :: rest =>
      if overflow > 0 then
        match s.tasks.find? (fun t => decide (t.id = tid)) with
        | none => trimLoop s rest overflow
        | some task =>
            if task.deficitQty ≤ overflow then
              trimLoop (closeReplenishmentTask s tid "plan_adjusted") rest
                (overflow - task.deficitQty)
            else
              let shrink := fun (t : ReplenishmentTask) =>
                { t with deficitQty := t.deficitQty - overflow, updatedAt := s.nowCursor }
              trimLoop
                { s with tasks := updateFirst (fun t => decide (t.id = tid)) shrink s.tasks }
                rest 0
      else s

/-- The source-refresh loop of `evaluateMinMax` (rebuild every open task's
candidate list; reset the selection when it vanished). -/
def refreshTaskSources (s : EngineState) (rule : ReplenishmentRule)
    (ids : List String) : EngineState :=
  ids.foldl
    (fun st tid =>
      match st.tasks.find? (fun t => decide (t.id = tid)) with
      | none => st
      | some task =>
          let candidates := buildSourceCandidates st rule (some tid)
          let newSource :=
            match task.sourceZoneId with
            | some z => some z
            | none =>
                match candidates.find? (fun c => decide (c.availableQty > 0)) with
                | some c => some c.sourceZoneId
                | none => candidates.head?.map (fun c => c.sourceZoneId)
          let refresh := fun (t : ReplenishmentTask) =>
            { t with
              sourceCandidates := candidates
              sourceZoneId := newSource
              updatedAt := st.nowCursor }
          { st with tasks := updateFirst (fun t => decide (t.id = tid)) refresh st.tasks })
    s

/-- The trigger loop of `evaluateMinMax`: split the remaining demand over the
candidates in order.  Returns (remaining, createdAnyTask, state). -/
def triggerLoop (rule : ReplenishmentRule) (currentQty : Int)
    (allCandidates : List SourceCandidate) (candidates : List SourceCandidate)
    (remaining : Int) (createdAny : Bool) (s : EngineState) :
    Int × Bool × EngineState :=
  match candidates with
  | [] => (remaining, createdAny, s)
  | c :: rest =>
      if remaining ≤ 0 then (remaining, createdAny, s)
      else
        let allocQty := min remaining c.availableQty
        if allocQty ≤ 0 then
          triggerLoop rule currentQty allCandidates rest remaining createdAny s
        else
          triggerLoop rule currentQty allCandidates rest (remaining - allocQty) true
            (generateReplenishmentTask s rule allocQty currentQty
              (some c.sourceZoneId) (some allCandidates))

/-- Filter for the open tasks of a rule, oldest first. -/
def openTasksOfRule (s : EngineState) (ruleId : String) : List ReplenishmentTask :=
  sortByKey (fun t => toMs t.createdAt)
    (s.tasks.filter (fun t => decide (t.ruleId = ruleId) && taskIsOpen t.status))

/-- The merge phase of `evaluateMinMax`'s sales branch: collapse multiple
auto-adjustable tasks into the oldest one when the destination effectively has
a single source. -/
def mergeOpenTasks (zone : Zone) (rule : ReplenishmentRule) (s : EngineState) :
    EngineState :=
  let openTasks0 := openTasksOfRule s rule.id
  let autoRej0 := openTasks0.filter (fun t =>
    decide (t.status ≠ TaskStatus.IN_PROGRESS))
  if autoRej0.length > 1 then
    let distinctTaskSources :=
      dedupKeepFirst (autoRej0.map (fun t => t.sourceZoneId.getD "__none__"))
    let singleSourceDestination := zone.replenishmentSources.length ≤ 1
    let singleTaskSource := distinctTaskSources.length ≤ 1
    if singleSourceDestination ∨ singleTaskSource then
      match autoRej0 with
      | [] => s
      | keeper :: extras =>
          let mergedDeficit :=
            autoRej0.foldl (fun sum t => sum + max 0 t.deficitQty) 0
          let mergeFn := fun (t : ReplenishmentTask) =>
            { t with deficitQty := mergedDeficit, updatedAt := s.nowCursor }
          let s' := { s with
            tasks := updateFirst (fun t => decide (t.id = keeper.id)) mergeFn s.tasks }
          extras.foldl (fun st t => closeReplenishmentTask st t.id "merged_plan") s'
    else s
  else s

/-- The trigger phase of `evaluateMinMax`'s sales branch: split the remaining
demand over the candidates, or keep a single zero-stock task visible. -/
def triggerPhase (rule : ReplenishmentRule) (currentQty remainingQty : Int)
    (s3 : EngineState) : EngineState :=
  let candidates := buildSourceCandidates s3 rule none
  let out := triggerLoop rule currentQty candidates candidates remainingQty false s3
  if ¬ out.2.1 ∧ out.1 > 0 then
    generateReplenishmentTask out.2.2 rule out.1 currentQty
      (candidates.head?.map (fun c => c.sourceZoneId)) (some candidates)
  else out.2.2

/-- Everything of `evaluateMinMax`'s sales branch after the merge phase:
over-stock close, plan trim, source refresh and the min trigger. -/
def salesRulePass (rule : ReplenishmentRule) (currentQty : Int)
    (s1 : EngineState) : EngineState :=
  let openTasks := openTasksOfRule s1 rule.id
  let autoRej := openTasks.filter (fun t =>
    decide (t.status ≠ TaskStatus.IN_PROGRESS))
  if currentQty ≥ rule.maxQty then
    autoRej.foldl (fun st t => closeReplenishmentTask st t.id "stock_recovered") s1
  else
    let desiredQty := max 0 (rule.maxQty - currentQty)
    let plannedQty0 := openTasks.foldl (fun sum t => sum + t.deficitQty) 0
    let s2 :=
      if plannedQty0 > desiredQty then
        trimLoop s1 ((autoRej.map (fun t => t.id)).reverse) (plannedQty0 - desiredQty)
      else s1
    let plannedQty := if plannedQty0 > desiredQty then desiredQty else plannedQty0
    let s3 := refreshTaskSources s2 rule (openTasks.map (fun t => t.id))
    if currentQty ≤ rule.minQty then
      let remainingQty := max 0 (desiredQty - plannedQty)
      if remainingQty ≤ 0 then s3
      else triggerPhase rule currentQty remainingQty s3
    else s3

/-- One iteration of `evaluateMinMax`'s rule loop (the phases above in order). -/
def evaluateRuleForZone (zone : Zone) (s : EngineState)
    (rule : ReplenishmentRule) : EngineState :=
  let currentQty := getCurrentInventoryQty s zone.id rule.skuId rule.source
  if ¬ zone.isSalesLocation then
    evaluateInboundReceivingNeed s zone rule currentQty
  else
    salesRulePass rule currentQty (mergeOpenTasks zone rule s)

/-- Mirrors `evaluateMinMax`. -/
def evaluateMinMax (s : EngineState) (zoneId : String) : EngineState :=
  let activeRules := s.rules.filter (fun r => decide (r.zoneId = zoneId) && r.isActive)
  match s.zones.find? (fun z => decide (z.id = zoneId)) with
  | none => s
  | some zone => activeRules.foldl (evaluateRuleForZone zone) s

/-- Mirrors `calculateZoneInventory` (snapshot recompute for one zone followed
by min/max evaluation; the returned row list is not used by any caller). -/
def calculateZoneInventory (s : EngineState) (zoneId : String) : EngineState :=
  let nowMs := toMs s.nowCursor
  let ttlMs := rfidPresenceTtlSec * 1000
  let present := (mvalues s.epcPresence).filter (fun p =>
    decide (p.zoneId = zoneId) && decide (¬ toMs p.lastSeenAt < nowMs - ttlMs))
  let presentSkus := dedupKeepFirst (present.map (fun p => p.skuId))
  let rfidSkuCandidates := dedupKeepFirst
    (presentSkus ++
      (s.rules.filter (fun r =>
        decide (r.zoneId = zoneId ∧ r.source = InventorySource.RFID) &&
          r.isActive)).map (fun r => r.skuId) ++
      (s.snapshots.filter (fun sn =>
        decide (sn.zoneId = zoneId ∧ sn.source = InventorySource.RFID))).map
        (fun sn => sn.skuId))
  let s1 := rfidSkuCandidates.foldl
    (fun st skuId =>
      let qty : Int :=
        (dedupKeepFirst ((present.filter (fun p => decide (p.skuId = skuId))).map
          (fun p => p.epc))).length
      upsertSnapshot st zoneId skuId qty InventorySource.RFID
        (some (if qty > 0 then (0.9 : Rat) else (0.7 : Rat)))) s
  let nonRfidSkusInZone :=
    (s.rules.filter (fun r =>
      decide (r.zoneId = zoneId ∧ r.source = InventorySource.NON_RFID) &&
        r.isActive)).map (fun r => r.skuId)
  let s2 := (dedupKeepFirst nonRfidSkusInZone).foldl
    (fun st skuId =>
      upsertSnapshot st zoneId skuId (calculateNonRFIDInventory st skuId zoneId)
        InventorySource.NON_RFID none) s1
  evaluateMinMax s2 zoneId

/-- JS `array.slice(0, n)` for a possibly negative `n`. -/
def jsSliceTo (n : Int) (l : List α) : List α :=
  l.take (if n < 0 then ((l.length : Int) + n).toNat else n.toNat)

/-- Mirrors `applyPendingRFIDPicks` (consume present EPCs into open picks of a
zone; pick records are addressed positionally, matching object identity). -/
def applyPendingRFIDPicks (s : EngineState) (zoneId : String) :
    Int × EngineState :=
  let pendingIdx := (enumFrom 0 s.pendingRFIDPicks).filter (fun e =>
    decide (e.2.zoneId = zoneId ∧ e.2.status = PickStatus.IN_PROGRESS))
  if pendingIdx.length = 0 then (0, s)
  else
    let step := fun (acc : Int × EngineState) (entry : Nat × PendingRFIDPick) =>
      match acc.2.pendingRFIDPicks.get? entry.1 with
      | none => acc
      | some pick =>
          let st := acc.2
          let epcs := jsSliceTo pick.qtyRemaining (getPresentEPCs st pick.zoneId pick.skuId)
          if epcs.length = 0 then acc
          else
            let st1 := { st with
              epcPresence := epcs.foldl (fun m epc => mdelete m epc) st.epcPresence }
            let consume := fun (p : PendingRFIDPick) =>
              let q := p.qtyRemaining - epcs.length
              { p with
                consumedEpcs := p.consumedEpcs ++ epcs
                qtyRemaining := if q ≤ 0 then 0 else q
                status := if q ≤ 0 then PickStatus.COMPLETED else p.status }
            let st2 := { st1 with
              pendingRFIDPicks := modifyAt consume entry.1 st1.pendingRFIDPicks }
            let st3 :=
              match st2.customerBasketItems.find? (fun b =>
                  decide (b.id = pick.basketItemId)) with
              | none => st2
              | some _ =>
                  let credit := fun (b : CustomerBasketItem) =>
                    { b with pickedConfirmedQty := b.pickedConfirmedQty + epcs.length }
                  { st2 with
                    customerBasketItems :=
                      updateFirst (fun b => decide (b.id = pick.basketItemId)) credit
                        st2.customerBasketItems }
            (acc.1 + epcs.length, st3)
    let out := pendingIdx.foldl step (0, s)
    (out.1, evaluateMinMax out.2 zoneId)

/-- Mirrors `deductRFIDImmediate` (immediate sale deduction with the 0.55
confidence floor snapshot). -/
def deductRFIDImmediate (s : EngineState) (zoneId skuId : String) (qty : Int) :
    EngineState :=
  let beforeQty := getCurrentInventoryQty s zoneId skuId InventorySource.RFID
  let epcs := jsSliceTo qty (getPresentEPCs s zoneId skuId)
  let s1 := { s with epcPresence := epcs.foldl (fun m e => mdelete m e) s.epcPresence }
  let s2 := calculateZoneInventory s1 zoneId
  let targetQty := max 0 (beforeQty - qty)
  let recalculatedQty := getCurrentInventoryQty s2 zoneId skuId InventorySource.RFID
  if recalculatedQty > targetQty then
    let s3 := upsertSnapshot s2 zoneId skuId targetQty InventorySource.RFID
      (some (0.55 : Rat))
    evaluateMinMax s3 zoneId
  else s2

/-- Result of `ingestRFIDRead`. -/
structure IngestRFIDResult where
  status : String
  skuId : Option String
deriving DecidableEq, Repr

/-- Mirrors `ingestRFIDRead`. -/
def ingestRFIDRead (s : EngineState) (event : RFIDReadEvent) :
    IngestRFIDResult × EngineState :=
  match s.antennas.find? (fun a =>
      decide (a.id = event.antennaId ∧ a.zoneId = event.zoneId)) with
  | none => ({ status := "invalid_antenna_or_zone", skuId := none }, s)
  | some _ =>
      if deduplicateReads s event.epc event.antennaId dedupWindowSec
          event.timestamp then
        ({ status := "duplicate_ignored", skuId := none }, s)
      else
        match lookupSkuByEPC s event.epc event.timestamp with
        | none => ({ status := "unknown_epc", skuId := none }, s)
        | some mapping =>
            let s1 := { s with
              rfidEvents := s.rfidEvents ++ [event]
              nowCursor := event.timestamp }
            let s2 := { s1 with
              epcPresence := mset s1.epcPresence event.epc
                { epc := event.epc
                  skuId := mapping.skuId
                  zoneId := event.zoneId
                  antennaId := event.antennaId
                  lastSeenAt := event.timestamp
                  lastRssi := event.rssi } }
            let s3 := (applyPendingRFIDPicks s2 event.zoneId).2
            let s4 := calculateZoneInventory s3 event.zoneId
            ({ status := "accepted", skuId := some mapping.skuId }, s4)

/-- Result of `forceZoneSweep`. -/
structure SweepResult where
  status : String
  removedEpcs : Option Int
deriving DecidableEq, Repr

/-- Mirrors `forceZoneSweep`. -/
def forceZoneSweep (s : EngineState) (zoneId : String) (timestamp : Timestamp) :
    SweepResult × EngineState :=
  match s.zones.find? (fun z => decide (z.id = zoneId)) with
  | none => ({ status := "zone_not_found", removedEpcs := none }, s)
  | some _ =>
      let s1 := { s with nowCursor := timestamp }
      let s2 := { s1 with
        epcPresence := s1.epcPresence.map (fun e =>
          if decide (e.2.zoneId = zoneId) then
            (e.1, { e.2 with lastSeenAt := timestamp })
          else e) }
      let out := applyPendingRFIDPicks s2 zoneId
      let s3 := calculateZoneInventory out.2 zoneId
      ({ status := "accepted", removedEpcs := some out.1 }, s3)

/-- Mirrors `scanZone`. -/
def scanZone (s : EngineState) (zoneId : String) (timestamp : Timestamp) :
    String × EngineState :=
  match s.zones.find? (fun z => decide (z.id = zoneId)) with
  | none => ("zone_not_found", s)
  | some _ =>
      let s1 := { s with nowCursor := timestamp }
      let s2 := { s1 with
        epcPresence := s1.epcPresence.map (fun e =>
          if decide (e.2.zoneId = zoneId) then
            (e.1, { e.2 with lastSeenAt := timestamp })
          else e) }
      ("accepted", calculateZoneInventory s2 zoneId)

/-- Mirrors `ingestSalesEvent` (no validation whatsoever). -/
def ingestSalesEvent (s : EngineState) (event : SalesEvent) :
    String × EngineState :=
  let s1 := { s with
    salesEvents := s.salesEvents ++ [event]
    nowCursor := event.timestamp }
  let source := s1.skuSourceOf event.skuId
  if source = InventorySource.RFID ∧ event.eventType = SalesEventType.SALE then
    ("accepted_rfid_immediate", deductRFIDImmediate s1 event.zoneId event.skuId event.qty)
  else
    ("accepted", calculateZoneInventory s1 event.zoneId)

/-- Mirrors `upsertCustomer` (JS truthiness on the optional name). -/
def upsertCustomer (s : EngineState) (id : String) (name : Option String) :
    EngineState :=
  match mget s.customers id with
  | some existing =>
      match name with
      | some n =>
          if n = "" then s
          else { s with customers := mset s.customers id { existing with name := n } }
      | none => s
  | none =>
      let customer : Customer := { id := id, name := name.getD id }
      { s with customers := mset s.customers customer.id customer }

/-- Argument record of `addCustomerItem`. -/
structure AddItemPayload where
  customerId : String
  zoneId : String
  skuId : String
  qty : Int
  timestamp : Timestamp
deriving DecidableEq, Repr

/-- Result of `addCustomerItem`. -/
structure AddItemResult where
  status : String
  basketItemId : Option String
  availableQty : Option Int
deriving DecidableEq, Repr

/-- Acceptance phase of `addCustomerItem`: the basket append, the optional
RFID pick, and the closing min/max evaluation. Returns the created basket
item together with the resulting state. -/
def addItemCommit (s2 : EngineState) (payload : AddItemPayload)
    (source : InventorySource) : CustomerBasketItem × EngineState :=
  let item : CustomerBasketItem :=
    { id := "basket-" ++ toString s2.hostNow ++ "-" ++
        toString (s2.customerBasketItems.length + 1)
      customerId := payload.customerId
      zoneId := payload.zoneId
      skuId := payload.skuId
      qty := payload.qty
      pickedConfirmedQty := 0
      status := BasketStatus.IN_CART
      createdAt := payload.timestamp }
  let s3 := { s2 with customerBasketItems := s2.customerBasketItems ++ [item] }
  let s4 :=
    if source = InventorySource.RFID then
      { s3 with pendingRFIDPicks := s3.pendingRFIDPicks ++
        [{ basketItemId := item.id
           zoneId := payload.zoneId
           skuId := payload.skuId
           qtyRemaining := payload.qty
           consumedEpcs := []
           status := PickStatus.IN_PROGRESS }] }
    else s3
  (item, evaluateMinMax s4 payload.zoneId)

/-- Mirrors `addCustomerItem`. -/
def addCustomerItem (s : EngineState) (payload : AddItemPayload) :
    AddItemResult × EngineState :=
  let s0 := { s with nowCursor := payload.timestamp }
  let s1 := upsertCustomer s0 payload.customerId none
  match s1.zones.find? (fun z => decide (z.id = payload.zoneId)) with
  | none => ({ status := "zone_not_found", basketItemId := none, availableQty := none }, s1)
  | some zone =>
      if ¬ zone.isSalesLocation then
        ({ status := "zone_not_orderable", basketItemId := none, availableQty := none }, s1)
      else
        let s2 := calculateZoneInventory s1 payload.zoneId
        let source := s2.skuSourceOf payload.skuId
        let availableQty := getAvailableQtyForCart s2 payload.zoneId payload.skuId source
        if payload.qty > availableQty then
          ({ status := "insufficient_inventory", basketItemId := none,
             availableQty := some availableQty }, s2)
        else
          let out := addItemCommit s2 payload source
          ({ status := "accepted", basketItemId := some out.1.id,
             availableQty := none }, out.2)

/-- Inner loop of `createExternalRFIDForDestination`. -/
def createExternalRFIDLoop (skuId destinationZoneId destinationAntenna : String)
    (at' : Timestamp) : Nat → EngineState → EngineState
  | 0, s => s
  | n + 1, s =>
      let epc := "EPC-RCV-" ++ padStartZeros s.generatedEpcSeq 6
      let s1 := { s with
        generatedEpcSeq := s.generatedEpcSeq + 1
        mapping := s.mapping ++
          [{ id := "map-rcv-" ++ strLower epc
             epc := epc
             skuId := skuId
             skuName := none
             inventorySource := InventorySource.RFID
             activeFrom := at'
             activeTo := none }]
        epcPresence := mset s.epcPresence epc
          { epc := epc
            skuId := skuId
            zoneId := destinationZoneId
            antennaId := destinationAntenna
            lastSeenAt := at'
            lastRssi := none } }
      createExternalRFIDLoop skuId destinationZoneId destinationAntenna at' n s1

/-- Mirrors `createExternalRFIDForDestination`. -/
def createExternalRFIDForDestination (s : EngineState) (skuId destinationZoneId : String)
    (qty : Int) (at' : Timestamp) : Int × EngineState :=
  let destinationAntenna :=
    ((s.antennas.find? (fun a => decide (a.zoneId = destinationZoneId))).map
      (fun a => a.id)).getD "system-transfer"
  let n := qty.toNat
  (n, createExternalRFIDLoop skuId destinationZoneId destinationAntenna at' n s)

/-- Mirrors `moveRFIDEpcs`. -/
def moveRFIDEpcs (s : EngineState) (sourceZoneId destinationZoneId skuId : String)
    (qty : Int) (at' : Timestamp) : List String × EngineState :=
  let movedEpcs := jsSliceTo qty (getPresentEPCs s sourceZoneId skuId)
  let destinationAntenna :=
    ((s.antennas.find? (fun a => decide (a.zoneId = destinationZoneId))).map
      (fun a => a.id)).getD "system-transfer"
  let s1 := movedEpcs.foldl
    (fun st epc =>
      match mget st.epcPresence epc with
      | none => st
      | some p =>
          let moved := { p with
            zoneId := destinationZoneId
            antennaId := destinationAntenna
            lastSeenAt := at' }
          { st with epcPresence := mset st.epcPresence epc moved }) s
  (movedEpcs, s1)

/-- Mirrors `transferConsumedPendingEpcsToZone`. -/
def transferConsumedPendingEpcsToZone (s : EngineState) (basketItemId skuId
    destinationZoneId : String) (at' : Timestamp) : Int × EngineState :=
  let destinationAntenna :=
    ((s.antennas.find? (fun a => decide (a.zoneId = destinationZoneId))).map
      (fun a => a.id)).getD "system-transfer"
  let idx := enumFrom 0 s.pendingRFIDPicks
  idx.foldl
    (fun (acc : Int × EngineState) entry =>
      match acc.2.pendingRFIDPicks.get? entry.1 with
      | none => acc
      | some pending =>
          if ¬ pending.basketItemId = basketItemId then acc
          else
            let st1 := pending.consumedEpcs.foldl
              (fun st epc =>
                let restored : EPCPresence :=
                  { epc := epc
                    skuId := skuId
                    zoneId := destinationZoneId
                    antennaId := destinationAntenna
                    lastSeenAt := at'
                    lastRssi := none }
                { st with epcPresence := mset st.epcPresence epc restored }) acc.2
            let finish := fun (p : PendingRFIDPick) =>
              { p with
                consumedEpcs := []
                qtyRemaining := 0
                status := PickStatus.COMPLETED }
            (acc.1 + pending.consumedEpcs.length,
              { st1 with pendingRFIDPicks := modifyAt finish entry.1 st1.pendingRFIDPicks }))
    (0, s)

/-- Mirrors `transferNonRfid`. -/
def transferNonRfid (s : EngineState) (sourceZoneId destinationZoneId skuId : String)
    (qty : Int) : Int × EngineState :=
  let currentSource := getCurrentInventoryQty s sourceZoneId skuId InventorySource.NON_RFID
  let movedQty := min (max 0 qty) currentSource
  if movedQty ≤ 0 then (0, s)
  else
    let s1 := upsertSnapshot s sourceZoneId skuId (currentSource - movedQty)
      InventorySource.NON_RFID none
    let currentDestination :=
      getCurrentInventoryQty s1 destinationZoneId skuId InventorySource.NON_RFID
    let s2 := upsertSnapshot s1 destinationZoneId skuId
      (currentDestination + movedQty) InventorySource.NON_RFID none
    (movedQty, s2)

/-- Mirrors `createPersonalizationTask`. -/
def createPersonalizationTask (s : EngineState) (destinationZoneId skuId : String)
    (qty : Int) (source : InventorySource) (projectedSupply : Int) : EngineState :=
  let normalizedQty := max 1 qty
  let sourceCandidates := buildManualSourceCandidates s destinationZoneId skuId
    source (some CASHIER_STORAGE_ZONE_ID)
  let selectedSource :=
    match sourceCandidates.find? (fun c => decide (c.availableQty > 0)) with
    | some c => c.sourceZoneId
    | none =>
        match sourceCandidates.head? with
        | some c => c.sourceZoneId
        | none => CASHIER_STORAGE_ZONE_ID
  let currentDestinationQty := getCurrentInventoryQty s destinationZoneId skuId source
  let task : ReplenishmentTask :=
    { id := "task-" ++ toString (s.tasks.length + 1)
      ruleId := strLower ("rule-printing-sale-" ++ destinationZoneId ++ "-" ++ skuId)
      zoneId := destinationZoneId
      skuId := skuId
      sourceZoneId := some selectedSource
      sourceCandidates := sourceCandidates
      assignedStaffId := none
      assignedAt := none
      status := TaskStatus.CREATED
      triggerQty := currentDestinationQty
      deficitQty := normalizedQty
      targetQty := currentDestinationQty + normalizedQty
      createdAt := s.nowCursor
      updatedAt := s.nowCursor
      closedAt := none
      confirmedQty := none
      confirmedBy := none
      closeReason := none }
  let s1 := { s with tasks := s.tasks ++ [task] }
  let s2 := pushTaskAudit s1 task.id AuditAction.CREATED none
    ("sale_personalization source=" ++ CASHIER_STORAGE_ZONE_ID ++ " destination=" ++
      destinationZoneId ++ " qty=" ++ toString normalizedQty ++
      " projected_supply=" ++ toString projectedSupply)
  autoAssignPendingTasks s2 s2.nowCursor

/-- The physical relocation step of `processPersonalizationSale`: move the sold
units into `zone-cashier-storage`.  Returns `none` exactly when the NON_RFID
transfer moved nothing (the method then returns without creating a task). -/
def personalizationRelocate (s : EngineState) (item : CustomerBasketItem)
    (source : InventorySource) (timestamp : Timestamp) : Option EngineState :=
  if source = InventorySource.RFID then
    let pickedFromReads := max 0 item.pickedConfirmedQty
    let restored := transferConsumedPendingEpcsToZone s item.id item.skuId
      CASHIER_STORAGE_ZONE_ID timestamp
    let sB :=
      if pickedFromReads > restored.1 then
        (createExternalRFIDForDestination restored.2 item.skuId
          CASHIER_STORAGE_ZONE_ID (pickedFromReads - restored.1) timestamp).2
      else restored.2
    let outstanding := max 0 (item.qty - pickedFromReads)
    let sC :=
      if outstanding > 0 then
        (moveRFIDEpcs sB item.zoneId CASHIER_STORAGE_ZONE_ID item.skuId
          outstanding timestamp).2
      else sB
    let resetPick := fun (b : CustomerBasketItem) =>
      { b with pickedConfirmedQty := 0 }
    some { sC with
      customerBasketItems :=
        updateFirst (fun b => decide (b.id = item.id)) resetPick
          sC.customerBasketItems }
  else
    let moved := transferNonRfid s item.zoneId CASHIER_STORAGE_ZONE_ID
      item.skuId item.qty
    if moved.1 ≤ 0 then none else some moved.2

/-- Mirrors `processPersonalizationSale` (relocation, zone recompute, then the
origin-or-printing-wall routing decision). -/
def processPersonalizationSale (s : EngineState) (item : CustomerBasketItem)
    (source : InventorySource) (timestamp : Timestamp) : EngineState :=
  match s.zones.find? (fun z => decide (z.id = CASHIER_STORAGE_ZONE_ID)),
      s.zones.find? (fun z => decide (z.id = item.zoneId)) with
  | some _, some _ =>
      match personalizationRelocate s item source timestamp with
      | none => s
      | some sMoved =>
          let sR1 := calculateZoneInventory sMoved item.zoneId
          let sR2 := calculateZoneInventory sR1 CASHIER_STORAGE_ZONE_ID
          match sR2.zones.find? (fun z => decide (z.id = item.zoneId)) with
          | none => sR2
          | some sourceZone =>
              let projectedSupply :=
                getProjectedSupplyForOrigin sR2 sourceZone item.skuId source
              let isLastUnit := projectedSupply ≤ 0
              let destinationZoneId :=
                if isLastUnit then PRINTING_WALL_ZONE_ID else item.zoneId
              createPersonalizationTask sR2 destinationZoneId item.skuId item.qty
                source projectedSupply
  | _, _ => s

/-- Mirrors `removeCustomerItem`. -/
def removeCustomerItem (s : EngineState) (basketItemId : String)
    (timestamp : Timestamp) : (String × Int) × EngineState :=
  let s0 := { s with nowCursor := timestamp }
  match s0.customerBasketItems.find? (fun b => decide (b.id = basketItemId)) with
  | none => (("not_found_or_closed", 0), s0)
  | some item =>
      if ¬ item.status = BasketStatus.IN_CART then (("not_found_or_closed", 0), s0)
      else
        let source := s0.skuSourceOf item.skuId
        let out :=
          if source = InventorySource.RFID then
            let destinationAntenna :=
              ((s0.antennas.find? (fun a => decide (a.zoneId = item.zoneId))).map
                (fun a => a.id)).getD "system-transfer"
            let idx := enumFrom 0 s0.pendingRFIDPicks
            let restored := idx.foldl
              (fun (acc : Int × EngineState) entry =>
                match acc.2.pendingRFIDPicks.get? entry.1 with
                | none => acc
                | some pending =>
                    if ¬ pending.basketItemId = item.id then acc
                    else
                      let st1 := pending.consumedEpcs.foldl
                        (fun st epc =>
                          let back : EPCPresence :=
                            { epc := epc
                              skuId := item.skuId
                              zoneId := item.zoneId
                              antennaId := destinationAntenna
                              lastSeenAt := timestamp
                              lastRssi := none }
                          { st with epcPresence := mset st.epcPresence epc back })
                        acc.2
                      let finish := fun (p : PendingRFIDPick) =>
                        { p with
                          consumedEpcs := []
                          qtyRemaining := 0
                          status := PickStatus.COMPLETED }
                      (acc.1 + pending.consumedEpcs.length,
                        { st1 with
                          pendingRFIDPicks :=
                            modifyAt finish entry.1 st1.pendingRFIDPicks }))
              (0, s0)
            let withLegacy :=
              if item.pickedConfirmedQty > restored.1 then
                let missing := item.pickedConfirmedQty - restored.1
                let created := createExternalRFIDForDestination restored.2
                  item.skuId item.zoneId missing timestamp
                (restored.1 + created.1, created.2)
              else restored
            let clearPicked := fun (b : CustomerBasketItem) =>
              { b with pickedConfirmedQty := 0 }
            (withLegacy.1,
              { withLegacy.2 with
                customerBasketItems :=
                  updateFirst (fun b => decide (b.id = item.id)) clearPicked
                    withLegacy.2.customerBasketItems })
          else
            let completeFn := fun (p : PendingRFIDPick) =>
              if decide (p.basketItemId = item.id) then
                { p with status := PickStatus.COMPLETED, qtyRemaining := 0 }
              else p
            (0, { s0 with pendingRFIDPicks := s0.pendingRFIDPicks.map completeFn })
        let markRemoved := fun (b : CustomerBasketItem) =>
          { b with status := BasketStatus.REMOVED }
        let s2 := { out.2 with
          customerBasketItems :=
            updateFirst (fun b => decide (b.id = item.id)) markRemoved
              out.2.customerBasketItems }
        let s3 := calculateZoneInventory s2 item.zoneId
        (("removed", out.1), s3)

/-- Mirrors `checkoutCustomer`. -/
def checkoutCustomer (s : EngineState) (customerId : String)
    (timestamp : Timestamp) : (String × Int) × EngineState :=
  let s0 := { s with nowCursor := timestamp }
  let items := s0.customerBasketItems.filter (fun it =>
    decide (it.customerId = customerId ∧ it.status = BasketStatus.IN_CART))
  if items.length = 0 then (("empty_cart", 0), s0)
  else
    let step := fun (acc : Int × List String × EngineState)
        (item : CustomerBasketItem) =>
      let soldItems := acc.1
      let zonesAcc := acc.2.1
      let st := acc.2.2
      let source := st.skuSourceOf item.skuId
      let st1 :=
        if st.personalizableSkuIds.contains item.skuId then
          processPersonalizationSale st item source timestamp
        else if source = InventorySource.NON_RFID then
          (ingestSalesEvent st
            { id := "sale-" ++ toString st.hostNow ++ "-" ++ toString (soldItems + 1)
              skuId := item.skuId
              zoneId := item.zoneId
              eventType := SalesEventType.SALE
              qty := item.qty
              timestamp := timestamp
              posTxnId := some ("POS-" ++ toString st.hostNow)
              ingestedAt := timestamp }).2
        else
          let outstanding := max 0 (item.qty - item.pickedConfirmedQty)
          if outstanding > 0 then
            deductRFIDImmediate st item.zoneId item.skuId outstanding
          else st
      let markSold := fun (b : CustomerBasketItem) =>
        { b with status := BasketStatus.SOLD }
      let st2 := { st1 with
        customerBasketItems :=
          updateFirst (fun b => decide (b.id = item.id)) markSold
            st1.customerBasketItems }
      (soldItems + 1,
        zonesAcc ++ [item.zoneId, CASHIER_STORAGE_ZONE_ID, PRINTING_WALL_ZONE_ID],
        st2)
    let out := items.foldl step (0, [], s0)
    let soldItems := out.1
    let stLoop := out.2.2
    let completePick := fun (p : PendingRFIDPick) =>
      match stLoop.customerBasketItems.find? (fun b =>
          decide (b.id = p.basketItemId)) with
      | some basket =>
          if decide (basket.customerId = customerId) then
            { p with status := PickStatus.COMPLETED, qtyRemaining := 0 }
          else p
      | none => p
    let stP := { stLoop with
      pendingRFIDPicks := stLoop.pendingRFIDPicks.map completePick }
    let affectedZones := dedupKeepFirst out.2.1
    let stZ := affectedZones.foldl calculateZoneInventory stP
    (("checked_out", soldItems), stZ)

/-- Mirrors `getFallbackSourceZoneIds`. -/
def getFallbackSourceZoneIds (s : EngineState) (task : ReplenishmentTask)
    (exclude : List String) : List String :=
  let fromTask := (sortByKey (fun c => c.sortOrder) task.sourceCandidates).foldl
    (fun (acc : List String × List String) src =>
      if acc.1.contains src.sourceZoneId then acc
      else (acc.1 ++ [src.sourceZoneId], acc.2 ++ [src.sourceZoneId]))
    (exclude, [])
  match s.zones.find? (fun z => decide (z.id = task.zoneId)) with
  | none => fromTask.2
  | some zone =>
      let withZone := (sortByKey (fun src => src.sortOrder)
          zone.replenishmentSources).foldl
        (fun (acc : List String × List String) src =>
          if acc.1.contains src.sourceZoneId then acc
          else (acc.1 ++ [src.sourceZoneId], acc.2 ++ [src.sourceZoneId]))
        fromTask
      withZone.2

/-- Mirrors `applyTransferFromSource`. -/
def applyTransferFromSource (s : EngineState) (sourceZoneId destinationZoneId
    skuId : String) (qty : Int) : TransferResult × EngineState :=
  let sourceType := s.skuSourceOf skuId
  if sourceType = InventorySource.RFID then
    let movedEpcs := jsSliceTo qty (getPresentEPCs s sourceZoneId skuId)
    let destinationAntenna :=
      ((s.antennas.find? (fun a => decide (a.zoneId = destinationZoneId))).map
        (fun a => a.id)).getD "system-transfer"
    let baseTs := toMs s.nowCursor
    let s1 := movedEpcs.foldl
      (fun st epc =>
        match mget st.epcPresence epc with
        | none => st
        | some p =>
            let moved := { p with
              zoneId := destinationZoneId
              antennaId := destinationAntenna
              lastSeenAt := s.nowCursor }
            { st with epcPresence := mset st.epcPresence epc moved }) s
    let syntheticReads := (enumFrom 0 movedEpcs).map (fun e =>
      { id := "rr-transfer-" ++ sourceZoneId ++ "-" ++ destinationZoneId ++ "-" ++
          e.2 ++ "-" ++ toString baseTs ++ "-" ++ toString e.1
        epc := e.2
        antennaId := destinationAntenna
        zoneId := destinationZoneId
        timestamp := baseTs + (e.1 : Int)
        rssi := some ((-95 : Rat) / 2)
        ingestedAt := baseTs + (e.1 : Int) : RFIDReadEvent })
    let s2 := { s1 with rfidEvents := s1.rfidEvents ++ syntheticReads }
    ({ movedQty := (movedEpcs.length : Int)
       movedEpcs := movedEpcs
       sourceType := sourceType
       destinationAntennaId := some destinationAntenna }, s2)
  else
    let current := getCurrentInventoryQty s sourceZoneId skuId InventorySource.NON_RFID
    let movedQty := min (max 0 qty) current
    let s1 := upsertSnapshot s sourceZoneId skuId (current - movedQty)
      InventorySource.NON_RFID none
    ({ movedQty := movedQty
       movedEpcs := []
       sourceType := sourceType
       destinationAntennaId := none }, s1)

/-- The fallback walk of `confirmTask` (failed attempts keep their state
effects; the first positive transfer also stamps the task's source). -/
def confirmFallbackLoop (taskId destZoneId skuId : String) (requestedQty : Int) :
    List String → TransferResult → EngineState → TransferResult × EngineState
  | [], tr, st => (tr, st)
  | z :: rest, tr, st =>
      let attempt := applyTransferFromSource st z destZoneId skuId requestedQty
      if attempt.1.movedQty ≤ 0 then
        confirmFallbackLoop taskId destZoneId skuId requestedQty rest tr attempt.2
      else
        let stamp := fun (t : ReplenishmentTask) => { t with sourceZoneId := some z }
        (attempt.1,
          { attempt.2 with
            tasks := updateFirst (fun t => decide (t.id = taskId)) stamp
              attempt.2.tasks })

/-- The first transfer attempt of `confirmTask`: try the chosen source zone
(stamping it onto the task) or fall through with the requested quantity.
Returns the transfer result, the state, and the list of tried zones. -/
def confirmFirstAttempt (s0 : EngineState) (task : ReplenishmentTask)
    (taskId : String) (requestedQty : Int) (sourceZoneId : Option String) :
    TransferResult × EngineState × List String :=
  let initTransfer : TransferResult :=
    { movedQty := requestedQty
      movedEpcs := []
      sourceType := s0.skuSourceOf task.skuId
      destinationAntennaId := none }
  match sourceZoneId with
  | some z =>
      let attempt := applyTransferFromSource s0 z task.zoneId task.skuId
        requestedQty
      let stamp := fun (t : ReplenishmentTask) =>
        { t with sourceZoneId := some z }
      (attempt.1,
        { attempt.2 with
          tasks := updateFirst (fun t => decide (t.id = taskId)) stamp
            attempt.2.tasks },
        [z])
  | none => (initTransfer, s0, ([] : List String))

/-- The success tail of `confirmTask`: stamp the confirmation onto the task,
log the ledger entry and the audit row, close the task and recompute the
affected zones. -/
def confirmFinish (s2 : EngineState) (task : ReplenishmentTask)
    (taskId : String) (payload : ConfirmPayload) (sourceZoneId : Option String)
    (transfer : TransferResult) :
    Option (ReplenishmentTask × TransferResult) × EngineState :=
  let movedQty := transfer.movedQty
  let stampConfirm := fun (t : ReplenishmentTask) =>
    { t with
      confirmedQty := some movedQty
      confirmedBy := some payload.confirmedBy
      updatedAt := payload.confirmedAt }
  let s3 := { s2 with
    tasks := updateFirst (fun t => decide (t.id = taskId)) stampConfirm
      s2.tasks }
  let s4 := { s3 with
    replenishmentConfirmations := s3.replenishmentConfirmations ++
      [{ zoneId := task.zoneId
         skuId := task.skuId
         qty := movedQty
         timestamp := payload.confirmedAt
         taskId := task.id }] }
  let s5 := pushTaskAudit s4 task.id AuditAction.CONFIRMED
    (some payload.confirmedBy)
    ("confirmed_qty=" ++ toString movedQty ++ " source_zone=" ++
      (sourceZoneId.getD "n/a"))
  let isPartial := movedQty < max 0 task.deficitQty
  let s6 := closeReplenishmentTask s5 task.id
    (if isPartial then "confirmed_partial" else "confirmed")
  let s7 := calculateZoneInventory s6 task.zoneId
  let s8 :=
    match sourceZoneId with
    | some z => if ¬ z = task.zoneId then calculateZoneInventory s7 z else s7
    | none => s7
  ((s8.tasks.find? (fun t => decide (t.id = taskId))).map
    (fun t => (t, transfer)), s8)

/-- Mirrors `confirmTask`. -/
def confirmTask (s : EngineState) (taskId : String) (payload : ConfirmPayload) :
    Option (ReplenishmentTask × TransferResult) × EngineState :=
  match s.tasks.find? (fun t => decide (t.id = taskId)) with
  | none => (none, s)
  | some task =>
      if ¬ task.status = TaskStatus.IN_PROGRESS then (none, s)
      else
        let s0 := { s with nowCursor := payload.confirmedAt }
        let requestedQty := max 0 payload.confirmedQty
        let sourceZoneId :=
          match payload.sourceZoneId with
          | some z => some z
          | none => task.sourceZoneId
        let firstAttempt : TransferResult × EngineState × List String :=
          confirmFirstAttempt s0 task taskId requestedQty sourceZoneId
        let afterFallback :=
          if firstAttempt.1.movedQty ≤ 0 then
            confirmFallbackLoop taskId task.zoneId task.skuId requestedQty
              (getFallbackSourceZoneIds firstAttempt.2.1 task firstAttempt.2.2)
              firstAttempt.1 firstAttempt.2.1
          else (firstAttempt.1, firstAttempt.2.1)
        let transfer := afterFallback.1
        let s2 := afterFallback.2
        if transfer.movedQty ≤ 0 then (none, s2)
        else confirmFinish s2 task taskId payload sourceZoneId transfer

/-- Mirrors `recalculateZonesDependingOnSource`. -/
def recalculateZonesDependingOnSource (s : EngineState) (sourceZoneId : String) :
    EngineState :=
  s.zones.foldl
    (fun st zone =>
      if decide (zone.id = sourceZoneId) then st
      else if ¬ zone.replenishmentSources.any (fun src =>
          decide (src.sourceZoneId = sourceZoneId)) then st
      else calculateZoneInventory st zone.id) s

/-- Mirrors `refreshOpenTaskSourceCandidates`. -/
def refreshOpenTaskSourceCandidates (s : EngineState) : EngineState :=
  let ids := s.tasks.map (fun t => t.id)
  ids.foldl
    (fun st tid =>
      match st.tasks.find? (fun t => decide (t.id = tid)) with
      | none => st
      | some task =>
          if ¬ taskIsOpen task.status then st
          else
            match st.rules.find? (fun r => decide (r.id = task.ruleId)) with
            | none => st
            | some rule =>
                if ¬ rule.isActive then st
                else
                  let candidates := buildSourceCandidates st rule (some task.id)
                  let keepCurrent :=
                    match task.sourceZoneId with
                    | some z => candidates.any (fun c => decide (c.sourceZoneId = z))
                    | none => false
                  let newSource :=
                    if keepCurrent then task.sourceZoneId
                    else
                      match candidates.find? (fun c => decide (c.availableQty > 0)) with
                      | some c => some c.sourceZoneId
                      | none => candidates.head?.map (fun c => c.sourceZoneId)
                  let refresh := fun (t : ReplenishmentTask) =>
                    { t with
                      sourceCandidates := candidates
                      sourceZoneId := newSource
                      updatedAt := st.nowCursor }
                  { st with
                    tasks := updateFirst (fun t => decide (t.id = tid)) refresh
                      st.tasks }) s

/-- The inventory-moving phase of `confirmReceivingOrder`: debit the source
(unless external) and credit the destination; returns the moved quantity and
the updated state. -/
def recvMoved (s0 : EngineState) (order : ReceivingOrder)
    (payload : ConfirmReceivingPayload) : Int × EngineState :=
  let sourceIsExternal := order.sourceLocationId.startsWith "external-"
  if order.source = InventorySource.RFID then
    if sourceIsExternal then
      let created := createExternalRFIDForDestination s0 order.skuId
        order.destinationZoneId order.requestedQty payload.confirmedAt
      if created.1 > 0 then
        let destinationCurrent := getCurrentInventoryQty created.2
          order.destinationZoneId order.skuId InventorySource.RFID
        (created.1,
          upsertSnapshot created.2 order.destinationZoneId order.skuId
            (destinationCurrent + created.1) InventorySource.RFID
            (some (0.9 : Rat)))
      else created
    else
      let moved := moveRFIDEpcs s0 order.sourceLocationId
        order.destinationZoneId order.skuId order.requestedQty
        payload.confirmedAt
      ((moved.1.length : Int), moved.2)
  else
    let debit : Int × EngineState :=
      if ¬ sourceIsExternal then
        let sourceCurrent := getCurrentInventoryQty s0
          order.sourceLocationId order.skuId InventorySource.NON_RFID
        let m := min order.requestedQty sourceCurrent
        if m > 0 then
          let sB := upsertSnapshot s0 order.sourceLocationId order.skuId
            (sourceCurrent - m) InventorySource.NON_RFID none
          (m, { sB with
            replenishmentConfirmations :=
              sB.replenishmentConfirmations ++
                [{ zoneId := order.sourceLocationId
                   skuId := order.skuId
                   qty := -m
                   timestamp := payload.confirmedAt
                   taskId := order.id }] })
        else (m, s0)
      else (order.requestedQty, s0)
    if debit.1 > 0 then
      let destinationCurrent := getCurrentInventoryQty debit.2
        order.destinationZoneId order.skuId InventorySource.NON_RFID
      let sB := upsertSnapshot debit.2 order.destinationZoneId order.skuId
        (destinationCurrent + debit.1) InventorySource.NON_RFID none
      (debit.1, { sB with
        replenishmentConfirmations :=
          sB.replenishmentConfirmations ++
            [{ zoneId := order.destinationZoneId
               skuId := order.skuId
               qty := debit.1
               timestamp := payload.confirmedAt
               taskId := order.id }] })
    else debit

/-- The success tail of `confirmReceivingOrder`: stamp the order as
confirmed, recompute the affected zones, refresh open-task candidates and
auto-assign pending work. -/
def recvFinish (s1 : EngineState) (order : ReceivingOrder) (orderId : String)
    (payload : ConfirmReceivingPayload) (movedQty : Int) :
    (String × Option Int) × EngineState :=
  let sourceIsExternal := order.sourceLocationId.startsWith "external-"
  let stampOrder := fun (o : ReceivingOrder) =>
    { o with
      confirmedQty := movedQty
      status := ReceivingStatus.CONFIRMED
      confirmedAt := some payload.confirmedAt
      confirmedBy := some payload.confirmedBy
      updatedAt := payload.confirmedAt }
  let s2 := { s1 with
    receivingOrders := updateFirst (fun o => decide (o.id = orderId))
      stampOrder s1.receivingOrders }
  let s3 := calculateZoneInventory s2 order.destinationZoneId
  let s4 := recalculateZonesDependingOnSource s3 order.destinationZoneId
  let s5 :=
    if ¬ sourceIsExternal then
      recalculateZonesDependingOnSource
        (calculateZoneInventory s4 order.sourceLocationId)
        order.sourceLocationId
    else s4
  let s6 := refreshOpenTaskSourceCandidates s5
  let s7 := autoAssignPendingTasks s6 payload.confirmedAt
  let s8 := autoAssignPendingReceivingOrders s7 payload.confirmedAt
  ((if movedQty < order.requestedQty then "confirmed_partial"
    else "confirmed", some movedQty), s8)

/-- Mirrors `confirmReceivingOrder`. -/
def confirmReceivingOrder (s : EngineState) (orderId : String)
    (payload : ConfirmReceivingPayload) : (String × Option Int) × EngineState :=
  match s.receivingOrders.find? (fun o => decide (o.id = orderId)) with
  | none => (("order_not_found", none), s)
  | some order =>
      if ¬ order.status = ReceivingStatus.IN_TRANSIT then
        (("order_not_open", none), s)
      else
        let s0 := { s with nowCursor := payload.confirmedAt }
        let movedAndState : Int × EngineState := recvMoved s0 order payload
        let movedQty := movedAndState.1
        let s1 := movedAndState.2
        if movedQty ≤ 0 then (("no_inventory_moved", some 0), s1)
        else recvFinish s1 order orderId payload movedQty

/-- Mirrors `assignTask`. -/
def assignTask (s : EngineState) (taskId staffId : String) (at' : Timestamp) :
    String × EngineState :=
  match s.tasks.find? (fun t => decide (t.id = taskId)) with
  | none => ("task_not_found", s)
  | some task =>
      if ¬ taskIsOpen task.status then ("task_not_open", s)
      else
        match s.staff.find? (fun m => decide (m.id = staffId) && m.activeShift) with
        | none => ("staff_not_active", s)
        | some member =>
            if ¬ (member.scopeAllZones ||
                member.zoneScopeZoneIds.contains task.zoneId) then
              ("staff_not_eligible_for_zone", s)
            else
              let doAssign := fun (t : ReplenishmentTask) =>
                { t with
                  assignedStaffId := some member.id
                  assignedAt := some at'
                  status := TaskStatus.ASSIGNED
                  updatedAt := at' }
              let s1 := { s with
                tasks := updateFirst (fun t => decide (t.id = taskId)) doAssign
                  s.tasks }
              let s2 := { s1 with nowCursor := at' }
              ("assigned",
                pushTaskAudit s2 task.id AuditAction.ASSIGNED (some member.id)
                  ("assigned_to=" ++ member.name))

/-- Mirrors `startTask` (including the out-of-scope fallback). -/
def startTask (s : EngineState) (taskId staffId : String) (at' : Timestamp) :
    String × EngineState :=
  match s.tasks.find? (fun t => decide (t.id = taskId)) with
  | none => ("task_not_found", s)
  | some task =>
      if ¬ taskIsOpen task.status then ("task_not_open", s)
      else if task.status = TaskStatus.IN_PROGRESS then ("already_in_progress", s)
      else
        match s.staff.find? (fun m => decide (m.id = staffId) && m.activeShift) with
        | none => ("staff_not_active", s)
        | some member =>
            let inScope := member.scopeAllZones ||
              member.zoneScopeZoneIds.contains task.zoneId
            let outOfScopeFallbackAssigned :=
              ¬ inScope ∧ task.assignedStaffId = some member.id ∧
                ¬ hasAnyAssignableStaffInScope s task.zoneId
            if ¬ inScope ∧ ¬ outOfScopeFallbackAssigned then
              ("staff_not_eligible_for_zone", s)
            else if (match task.assignedStaffId with
                     | some sid => decide (sid ≠ member.id)
                     | none => false) then
              ("task_assigned_to_other_staff", s)
            else
              let doStart := fun (t : ReplenishmentTask) =>
                { t with
                  assignedStaffId := some member.id
                  assignedAt := some (t.assignedAt.getD at')
                  status := TaskStatus.IN_PROGRESS
                  updatedAt := at' }
              let s1 := { s with
                tasks := updateFirst (fun t => decide (t.id = taskId)) doStart
                  s.tasks }
              let s2 := { s1 with nowCursor := at' }
              ("started",
                pushTaskAudit s2 task.id AuditAction.STARTED (some member.id)
                  ("started_by=" ++ member.name ++ " status=IN_PROGRESS"))

/-- Argument record of `upsertRule`. -/
structure UpsertRulePayload where
  zoneId : String
  skuId : String
  source : InventorySource
  inboundSourceLocationId : Option String
  minQty : Int
  maxQty : Int
  priority : Option Int
deriving DecidableEq, Repr

/-- Mirrors `upsertRule` (the returned rule object is the state's rule). -/
def upsertRule (s : EngineState) (payload : UpsertRulePayload) : EngineState :=
  let sameKey := fun (r : ReplenishmentRule) =>
    decide (r.zoneId = payload.zoneId ∧ r.skuId = payload.skuId ∧
      r.source = payload.source)
  match s.rules.find? sameKey with
  | some _ =>
      let refresh := fun (r : ReplenishmentRule) =>
        { r with
          minQty := payload.minQty
          maxQty := payload.maxQty
          inboundSourceLocationId := payload.inboundSourceLocationId
          priority := payload.priority.getD r.priority
          updatedAt := s.nowCursor
          isActive := true }
      let s1 := { s with rules := updateFirst sameKey refresh s.rules }
      calculateZoneInventory s1 payload.zoneId
  | none =>
      let rule : ReplenishmentRule :=
        { id := strLower ("rule-" ++ payload.zoneId ++ "-" ++ payload.skuId ++
            "-" ++ sourceTag payload.source)
          zoneId := payload.zoneId
          skuId := payload.skuId
          source := payload.source
          inboundSourceLocationId := payload.inboundSourceLocationId
          minQty := payload.minQty
          maxQty := payload.maxQty
          priority := payload.priority.getD 2
          isActive := true
          updatedAt := s.nowCursor }
      calculateZoneInventory { s with rules := s.rules ++ [rule] } payload.zoneId

/-- Mirrors `deleteRule` (soft-deactivate and reject the rule's open tasks). -/
def deleteRule (s : EngineState) (ruleId : String) : String × EngineState :=
  match s.rules.find? (fun r => decide (r.id = ruleId)) with
  | none => ("not_found", s)
  | some rule =>
      if ¬ rule.isActive then ("already_inactive", s)
      else
        let deactivate := fun (r : ReplenishmentRule) =>
          { r with isActive := false, updatedAt := s.nowCursor }
        let s1 := { s with
          rules := updateFirst (fun r => decide (r.id = ruleId)) deactivate s.rules }
        let ids := s1.tasks.map (fun t => t.id)
        let s2 := ids.foldl
          (fun st tid =>
            match st.tasks.find? (fun t => decide (t.id = tid)) with
            | none => st
            | some t =>
                if decide (t.ruleId = rule.id) && taskIsOpen t.status then
                  let reject := fun (x : ReplenishmentTask) =>
                    { x with
                      status := TaskStatus.REJECTED
                      closeReason := some "rule_deleted"
                      closedAt := some st.nowCursor
                      updatedAt := st.nowCursor }
                  let st1 := { st with
                    tasks := updateFirst (fun x => decide (x.id = tid)) reject
                      st.tasks }
                  pushTaskAudit st1 tid AuditAction.CANCELLED none "rule_deleted"
                else st) s1
        ("deleted", calculateZoneInventory s2 rule.zoneId)

/-- Argument record of `updateLocation`. -/
structure UpdateLocationPayload where
  zoneId : String
  name : Option String
  color : Option String
  isSalesLocation : Option Bool
  mapPolygon : Option (List MapPoint)
  replenishmentSources : Option (List ReplenishmentSourceRef)
deriving DecidableEq, Repr

/-- Mirrors `updateLocation` (source removal cancels the open tasks pulling
from the removed sources). -/
def updateLocation (s : EngineState) (payload : UpdateLocationPayload) :
    String × EngineState :=
  match s.zones.find? (fun z => decide (z.id = payload.zoneId)) with
  | none => ("zone_not_found", s)
  | some zone =>
      let previousSourceIds := zone.replenishmentSources.map (fun src => src.sourceZoneId)
      let z1 :=
        match payload.name with
        | some n => { zone with name := if n.trim = "" then zone.name else n.trim }
        | none => zone
      let z2 :=
        match payload.color with
        | some c => { z1 with color := c }
        | none => z1
      let z3 :=
        match payload.isSalesLocation with
        | some b => { z2 with isSalesLocation := b }
        | none => z2
      let z4 :=
        match payload.mapPolygon with
        | some poly => if poly.length ≥ 3 then { z3 with mapPolygon := poly } else z3
        | none => z3
      match payload.replenishmentSources with
      | none =>
          let s1 := { s with
            zones := updateFirst (fun z => decide (z.id = payload.zoneId))
              (fun _ => z4) s.zones }
          ("updated", calculateZoneInventory s1 zone.id)
      | some provided =>
          let uniqueMap := provided.foldl
            (fun (m : List (String × Int)) src =>
              let isExternal := src.sourceZoneId.startsWith "external-"
              if ¬ isExternal ∧
                  ¬ s.zones.any (fun z => decide (z.id = src.sourceZoneId)) then m
              else if src.sourceZoneId = zone.id then m
              else mset m src.sourceZoneId src.sortOrder) []
          let newSources := sortByKey (fun src => src.sortOrder)
            (uniqueMap.map (fun e =>
              { sourceZoneId := e.1, sortOrder := e.2 : ReplenishmentSourceRef }))
          let z5 := { z4 with replenishmentSources := newSources }
          let currentSourceIds := newSources.map (fun src => src.sourceZoneId)
          let removedSourceIds := previousSourceIds.filter
            (fun sid => ¬ currentSourceIds.contains sid)
          let s1 := { s with
            zones := updateFirst (fun z => decide (z.id = payload.zoneId))
              (fun _ => z5) s.zones }
          let s2 :=
            if removedSourceIds.length > 0 then
              let ids := s1.tasks.map (fun t => t.id)
              ids.foldl
                (fun st tid =>
                  match st.tasks.find? (fun t => decide (t.id = tid)) with
                  | none => st
                  | some t =>
                      if decide (t.zoneId = zone.id) && taskIsOpen t.status &&
                          (match t.sourceZoneId with
                           | some sz => removedSourceIds.contains sz
                           | none => false) then
                        let reject := fun (x : ReplenishmentTask) =>
                          { x with
                            status := TaskStatus.REJECTED
                            closeReason := some "source_removed"
                            closedAt := some st.nowCursor
                            updatedAt := st.nowCursor }
                        let st1 := { st with
                          tasks := updateFirst (fun x => decide (x.id = tid)) reject
                            st.tasks }
                        pushTaskAudit st1 tid AuditAction.CANCELLED none
                          ("source_removed=" ++ (t.sourceZoneId.getD ""))
                      else st) s1
            else s1
          ("updated", calculateZoneInventory s2 zone.id)

/-- Argument record of `createLocation`. -/
structure CreateLocationPayload where
  zoneId : String
  name : String
  color : String
  isSalesLocation : Bool
  mapPolygon : List MapPoint
  replenishmentSources : Option (List ReplenishmentSourceRef)
deriving DecidableEq, Repr

/-- Mirrors `createLocation`. -/
def createLocation (s : EngineState) (payload : CreateLocationPayload) :
    String × EngineState :=
  if payload.zoneId.trim = "" then ("invalid_zone_id", s)
  else if payload.mapPolygon.length < 3 then ("invalid_polygon", s)
  else if s.zones.any (fun z => decide (z.id = payload.zoneId)) then
    ("zone_exists", s)
  else
    let zone : Zone :=
      { id := payload.zoneId
        name := if payload.name.trim = "" then payload.zoneId else payload.name.trim
        color := payload.color
        mapPolygon := payload.mapPolygon
        antennaIds := []
        ruleIds := []
        isSalesLocation := payload.isSalesLocation
        replenishmentSources := sortByKey (fun src => src.sortOrder)
          ((payload.replenishmentSources.getD []).filter (fun src =>
            if src.sourceZoneId = payload.zoneId then false
            else src.sourceZoneId.startsWith "external-" ||
              s.zones.any (fun z => decide (z.id = src.sourceZoneId))))
        isActive := true
        createdAt := s.nowCursor }
    ("created", { s with zones := s.zones ++ [zone] })

/-- Mirrors `updateStaffShift`. -/
def updateStaffShift (s : EngineState) (staffId : String) (activeShift : Bool) :
    String × EngineState :=
  match s.staff.find? (fun m => decide (m.id = staffId)) with
  | none => ("staff_not_found", s)
  | some _ =>
      let s1 := { s with
        staff := updateFirst (fun m => decide (m.id = staffId))
          (fun m => { m with activeShift := activeShift }) s.staff }
      let s2 := autoAssignPendingTasks s1 s1.nowCursor
      ("updated", autoAssignPendingReceivingOrders s2 s2.nowCursor)

/-- Mirrors `updateStaffScope`. -/
def updateStaffScope (s : EngineState) (staffId : String) (scopeAllZones : Bool)
    (zoneScopeZoneIds : List String) : String × EngineState :=
  match s.staff.find? (fun m => decide (m.id = staffId)) with
  | none => ("staff_not_found", s)
  | some _ =>
      let newScope :=
        if scopeAllZones then []
        else zoneScopeZoneIds.filter (fun zid =>
          s.zones.any (fun z => decide (z.id = zid)))
      let s1 := { s with
        staff := updateFirst (fun m => decide (m.id = staffId))
          (fun m => { m with scopeAllZones := scopeAllZones,
                             zoneScopeZoneIds := newScope }) s.staff }
      let s2 := autoAssignPendingTasks s1 s1.nowCursor
      ("updated", autoAssignPendingReceivingOrders s2 s2.nowCursor)

/-- State effect of the `getTasks` read model (it runs the auto-assigner). -/
def getTasksCommand (s : EngineState) : EngineState :=
  autoAssignPendingTasks s s.nowCursor

/-- State effect of the `getReceivingOrders` read model. -/
def getReceivingOrdersCommand (s : EngineState) : EngineState :=
  autoAssignPendingReceivingOrders s s.nowCursor

/-- Mirrors `seedDemoEvents` (recompute every zone). -/
def seedDemoEvents (s : EngineState) : EngineState :=
  (s.zones.map (fun z => z.id)).foldl calculateZoneInventory s

/-- Mirrors `loadDemoStream`. -/
def loadDemoStream (s : EngineState) (reads : List RFIDReadEvent)
    (sales : List SalesEvent) : EngineState :=
  let s1 := reads.foldl (fun st e => (ingestRFIDRead st e).2) s
  let s2 := sales.foldl (fun st e => (ingestSalesEvent st e).2) s1
  (s2.zones.map (fun z => z.id)).foldl calculateZoneInventory s2

end EngineState

/-! ## Catalog and engine construction (`constructor` of `InventoryEngine`) -/

structure CatalogVariant where
  id : String
  skuId : String
  name : String
  imageUrl : String
  size : String
  barcode : String
  kit : Option String
  ageGroup : Option String
  gender : Option String
  role : Option String
  quality : Option String
deriving DecidableEq, Repr

structure CatalogProduct where
  id : String
  title : String
  brand : String
  variants : List CatalogVariant
deriving DecidableEq, Repr

structure SKU where
  id : String
  name : String
  source : InventorySource
deriving DecidableEq, Repr

structure SampleDataset where
  zones : List Zone
  antennas : List Antenna
  skus : List SKU
  catalogProducts : List CatalogProduct
  epcSkuMapping : List EPCSkuMapping
  replenishmentRules : List ReplenishmentRule
  inventorySeed : List InventorySnapshotByZone
  rfidReadEvents : List RFIDReadEvent
  salesEvents : List SalesEvent
  staff : List StaffMember
deriving DecidableEq, Repr

/-- The constructor's personalisable-SKU set: variants whose role is player or
goalkeeper, or whose product title (upper-cased) contains "JSY". -/
def personalizableSkuIdsOf (products : List CatalogProduct) : List String :=
  dedupKeepFirst ((products.map (fun product =>
    (product.variants.filter (fun variant =>
      if variant.role = some "player" ∨ variant.role = some "goalkeeper" then true
      else strIncludes (strUpper product.title) "JSY")).map
      (fun variant => variant.skuId))).flatten)

/-- Mirrors the `InventoryEngine` constructor (`hostNow` abstracts the host
wall clock used only to mint identifier strings). -/
def initEngine (dataset : SampleDataset) (hostNow : Int) : EngineState :=
  { zones := dataset.zones
    antennas := dataset.antennas
    mapping := dataset.epcSkuMapping
    rules := dataset.replenishmentRules
    skuSourceById := dataset.skus.foldl (fun m sku => mset m sku.id sku.source) []
    nonRfidBaselines :=
      (dataset.inventorySeed.filter (fun sn =>
        decide (sn.source = InventorySource.NON_RFID))).foldl
        (fun m sn => mset m (EngineState.getBaselineKey sn.zoneId sn.skuId) sn) []
    snapshots := dataset.inventorySeed
    rfidEvents := []
    salesEvents := []
    tasks := []
    epcPresence := []
    customers := []
    customerBasketItems := []
    pendingRFIDPicks := []
    replenishmentConfirmations := []
    receivingOrders := []
    staff := dataset.staff
    taskAudit := []
    nowCursor := initialCursorTimestamp
    generatedEpcSeq := dataset.epcSkuMapping.length + 1
    personalizableSkuIds := personalizableSkuIdsOf dataset.catalogProducts
    hostNow := hostNow
    auditSeq := 0 }

/-! ## Spec-side formulations used by the claims -/

/-- Claim C5's rejection condition, written from the spec: the most recently
accepted read for the same `(epc, antenna)` has `prev.t ≥ t − DEDUP_WINDOW`. -/
def specDedupReject (s : EngineState) (epc antennaId : String)
    (t : Timestamp) : Prop :=
  ∃ prev, (s.rfidEvents.reverse.find?
      (fun e => decide (e.epc = epc ∧ e.antennaId = antennaId))) = some prev ∧
    prev.timestamp ≥ t - 15 * 1000

/-- Claim C6's ledger formula, written from the spec: signed deltas since the
baseline (`SALE` counts −qty, `RETURN` counts +qty, confirmed replenishment
counts its signed qty), clamped at zero. -/
def specLedgerQty (s : EngineState) (skuId zoneId : String) : Int :=
  let baseline := EngineState.getBaselineSnapshot s zoneId skuId
  let sinceMs := toMs baseline.lastCalculatedAt
  let salesDelta := ((s.salesEvents.filter (fun e =>
      decide (e.zoneId = zoneId ∧ e.skuId = skuId ∧
        toMs e.timestamp ≥ sinceMs))).map
      (fun e =>
        match e.eventType with
        | SalesEventType.SALE => -e.qty
        | SalesEventType.RETURN => e.qty)).sum
  let confirmedDelta := ((s.replenishmentConfirmations.filter (fun c =>
      decide (c.zoneId = zoneId ∧ c.skuId = skuId ∧
        toMs c.timestamp ≥ sinceMs))).map (fun c => c.qty)).sum
  max 0 (baseline.qty + salesDelta + confirmedDelta)

/-- Claim C7's projected-supply formula, written from the spec: on-hand plus
open inbound task deficits plus, per configured source, the source's stock
minus the deficits already reserved from it (clamped at zero). -/
def specProjectedSupply (s : EngineState) (zone : Zone) (skuId : String)
    (source : InventorySource) : Int :=
  EngineState.getCurrentInventoryQty s zone.id skuId source +
    ((s.tasks.filter (fun t =>
      decide (t.zoneId = zone.id ∧ t.skuId = skuId ∧ taskIsOpen t.status = true))).map
      (fun t => max 0 t.deficitQty)).sum +
    ((sortByKey (fun src => src.sortOrder) zone.replenishmentSources).map
      (fun src => max 0
        (EngineState.getCurrentInventoryQty s src.sourceZoneId skuId source -
          EngineState.getReservedTaskQtyFromSource s src.sourceZoneId skuId none))).sum

/-- Claim C7's personalisable predicate, written from the spec: some catalog
product has a variant for the SKU whose role is player or goalkeeper, or whose
product title contains "JSY". -/
def specPersonalizable (products : List CatalogProduct) (skuId : String) : Prop :=
  ∃ product ∈ products, ∃ variant ∈ product.variants,
    variant.skuId = skuId ∧
      (variant.role = some "player" ∨ variant.role = some "goalkeeper" ∨
        strIncludes (strUpper product.title) "JSY" = true)

/-- The state in which `addCustomerItem` evaluates availability: cursor set,
customer upserted, and the zone recomputed (claim C3). -/
def cartDecisionState (s : EngineState) (payload : EngineState.AddItemPayload) :
    EngineState :=
  EngineState.calculateZoneInventory
    (EngineState.upsertCustomer { s with nowCursor := payload.timestamp }
      payload.customerId none)
    payload.zoneId

/-- Sum of `deficitQty` over the open tasks of one rule (claim C4). -/
def ruleOpenDeficitSum (s : EngineState) (ruleId : String) : Int :=
  ((s.tasks.filter (fun t =>
    decide (t.ruleId = ruleId) && taskIsOpen t.status)).map
    (fun t => t.deficitQty)).sum

/-- No open task of the rule is IN_PROGRESS (claim C4's amended hypothesis). -/
def ruleHasNoInProgress (s : EngineState) (ruleId : String) : Prop :=
  ∀ t ∈ s.tasks, t.ruleId = ruleId → t.status ≠ TaskStatus.IN_PROGRESS

/-- The contribution of one task to a rule's open deficit sum (claim C4). -/
def wTask (ruleId : String) (t : ReplenishmentTask) : Int :=
  if decide (t.ruleId = ruleId) && taskIsOpen t.status then t.deficitQty else 0

/-- `ruleOpenDeficitSum` at the list level (claim C4). -/
def openDeficitSumL (l : List ReplenishmentTask) (ruleId : String) : Int :=
  ((l.filter (fun t =>
    decide (t.ruleId = ruleId) && taskIsOpen t.status)).map
    (fun t => t.deficitQty)).sum

/-- What the auto-assigner may do to one task: identifier, rule, deficit and
open-ness are untouched (claim C4). -/
def taskR (t t' : ReplenishmentTask) : Prop :=
  t'.id = t.id ∧ t'.ruleId = t.ruleId ∧ t'.deficitQty = t.deficitQty ∧
    taskIsOpen t'.status = taskIsOpen t.status

/-- Decimal digit value of a character (to reason about `Nat.toDigits`, which
underlies the auto-generated `task-N` identifiers). -/
def valDigit (c : Char) : Nat := c.toNat - 48

/-- Decimal value of a digit string, the left inverse of `Nat.toDigits`. -/
def valD (l : List Char) : Nat := l.foldl (fun a c => 10 * a + valDigit c) 0

/-- Task-store integrity for claim C4: task identifiers are pairwise distinct,
the auto-generated identifiers `task-(n+1)` for `n` at least the store length
are still unused, and every open task carries a non-negative deficit.  Every
state reachable from the constructor satisfies this: tasks are only appended
with the next sequential `task-N` identifier and never removed, and every
write to an open task's `deficitQty` keeps it non-negative. -/
def tasksWF (l : List ReplenishmentTask) : Prop :=
  ((l.map (fun t => t.id)).Nodup) ∧
  (∀ t ∈ l, ∀ n : Nat, l.length ≤ n → ¬ t.id = "task-" ++ toString (n + 1)) ∧
  (∀ t ∈ l, taskIsOpen t.status = true → 0 ≤ t.deficitQty)

/-- List-level form of `ruleHasNoInProgress` (claim C4). -/
def noInProgressL (l : List ReplenishmentTask) (ruleId : String) : Prop :=
  ∀ t ∈ l, t.ruleId = ruleId → t.status ≠ TaskStatus.IN_PROGRESS

/-- `find?` results related pointwise by `taskR` (claim C4). -/
def optTaskR : Option ReplenishmentTask → Option ReplenishmentTask → Prop
  | none, none => True
  | some u, some u' => taskR u u'
  | _, _ => False

/-- Every snapshot quantity is non-negative (claim C10). -/
def snapshotsNonneg (s : EngineState) : Prop :=
  ∀ sn ∈ s.snapshots, 0 ≤ sn.qty

/-- At most one snapshot row per (zone, SKU, source) key (claim C2's
well-formedness hypothesis; every state reachable from the constructor with a
key-unique seed satisfies it, since `upsertSnapshot` rewrites in place). -/
def snapKeyCount1 (s : EngineState) : Prop :=
  ∀ zoneId skuId source,
    (s.snapshots.filter (EngineState.snapKey zoneId skuId source)).length ≤ 1

/-- What a dry confirmation walk (every transfer attempt moves zero units)
preserves: the cursor sits at the confirmation instant, presence, SKU
sources, zones and both event logs are untouched, every per-key quantity
view is unchanged, and the two snapshot-store invariants still hold
(claim C2). -/
def dryFrame (s : EngineState) (c : Timestamp) (st : EngineState) : Prop :=
  st.nowCursor = c ∧ st.epcPresence = s.epcPresence ∧
  st.skuSourceById = s.skuSourceById ∧ st.zones = s.zones ∧
  st.rfidEvents = s.rfidEvents ∧ st.salesEvents = s.salesEvents ∧
  (∀ zoneId skuId source,
    EngineState.getCurrentInventoryQty st zoneId skuId source =
      EngineState.getCurrentInventoryQty s zoneId skuId source) ∧
  snapKeyCount1 st ∧ snapshotsNonneg st

/-- The public commands of the engine, used to state state-invariant claims. -/
inductive Command
  | rfidRead (event : RFIDReadEvent)
  | zoneSweep (zoneId : String) (timestamp : Timestamp)
  | zoneScan (zoneId : String) (timestamp : Timestamp)
  | salesEvent (event : SalesEvent)
  | customerUpsert (id : String) (name : Option String)
  | addItem (payload : EngineState.AddItemPayload)
  | removeItem (basketItemId : String) (timestamp : Timestamp)
  | checkout (customerId : String) (timestamp : Timestamp)
  | taskAssign (taskId staffId : String) (at' : Timestamp)
  | taskStart (taskId staffId : String) (at' : Timestamp)
  | taskConfirm (taskId : String) (payload : ConfirmPayload)
  | recvCreate (payload : EngineState.CreateReceivingPayload)
  | recvConfirm (orderId : String) (payload : ConfirmReceivingPayload)
  | ruleUpsert (payload : EngineState.UpsertRulePayload)
  | ruleDelete (ruleId : String)
  | locationUpdate (payload : EngineState.UpdateLocationPayload)
  | locationCreate (payload : EngineState.CreateLocationPayload)
  | staffShift (staffId : String) (activeShift : Bool)
  | staffScope (staffId : String) (scopeAllZones : Bool) (zoneIds : List String)
  | tasksRead
  | receivingRead
deriving Repr

/-- The state transition of one public command. -/
def runCommand (s : EngineState) : Command → EngineState
  | Command.rfidRead event => (EngineState.ingestRFIDRead s event).2
  | Command.zoneSweep zoneId timestamp => (EngineState.forceZoneSweep s zoneId timestamp).2
  | Command.zoneScan zoneId timestamp => (EngineState.scanZone s zoneId timestamp).2
  | Command.salesEvent event => (EngineState.ingestSalesEvent s event).2
  | Command.customerUpsert id name => EngineState.upsertCustomer s id name
  | Command.addItem payload => (EngineState.addCustomerItem s payload).2
  | Command.removeItem basketItemId timestamp =>
      (EngineState.removeCustomerItem s basketItemId timestamp).2
  | Command.checkout customerId timestamp =>
      (EngineState.checkoutCustomer s customerId timestamp).2
  | Command.taskAssign taskId staffId at' => (EngineState.assignTask s taskId staffId at').2
  | Command.taskStart taskId staffId at' => (EngineState.startTask s taskId staffId at').2
  | Command.taskConfirm taskId payload => (EngineState.confirmTask s taskId payload).2
  | Command.recvCreate payload => (EngineState.createReceivingOrder s payload).2
  | Command.recvConfirm orderId payload =>
      (EngineState.confirmReceivingOrder s orderId payload).2
  | Command.ruleUpsert payload => EngineState.upsertRule s payload
  | Command.ruleDelete ruleId => (EngineState.deleteRule s ruleId).2
  | Command.locationUpdate payload => (EngineState.updateLocation s payload).2
  | Command.locationCreate payload => (EngineState.createLocation s payload).2
  | Command.staffShift staffId activeShift =>
      (EngineState.updateStaffShift s staffId activeShift).2
  | Command.staffScope staffId scopeAllZones zoneIds =>
      (EngineState.updateStaffScope s staffId scopeAllZones zoneIds).2
  | Command.tasksRead => EngineState.getTasksCommand s
  | Command.receivingRead => EngineState.getReceivingOrdersCommand s

/-! ## The frame of fields untouched by the task machinery -/

/-- All engine fields that the task machinery (audit, auto-assignment, task
close/create, trim, source refresh, receiving-order creation, min/max
evaluation) never writes. -/
structure Frame where
  zones : List Zone
  antennas : List Antenna
  mapping : List EPCSkuMapping
  rules : List ReplenishmentRule
  skuSourceById : List (String × InventorySource)
  nonRfidBaselines : List (String × InventorySnapshotByZone)
  snapshots : List InventorySnapshotByZone
  rfidEvents : List RFIDReadEvent
  salesEvents : List SalesEvent
  epcPresence : List (String × EPCPresence)
  customers : List (String × Customer)
  customerBasketItems : List CustomerBasketItem
  pendingRFIDPicks : List PendingRFIDPick
  replenishmentConfirmations : List ConfirmationMovement
  staff : List StaffMember
  generatedEpcSeq : Nat
  hostNow : Int

def frameOf (s : EngineState) : Frame :=
  { zones := s.zones
    antennas := s.antennas
    mapping := s.mapping
    rules := s.rules
    skuSourceById := s.skuSourceById
    nonRfidBaselines := s.nonRfidBaselines
    snapshots := s.snapshots
    rfidEvents := s.rfidEvents
    salesEvents := s.salesEvents
    epcPresence := s.epcPresence
    customers := s.customers
    customerBasketItems := s.customerBasketItems
    pendingRFIDPicks := s.pendingRFIDPicks
    replenishmentConfirmations := s.replenishmentConfirmations
    staff := s.staff
    generatedEpcSeq := s.generatedEpcSeq
    hostNow := s.hostNow }


/-! ## Narrower frames for the recompute paths -/

/-- `Frame` without the snapshot store (for `upsertSnapshot` and the zone
recompute). -/
structure FrameNS where
  zones : List Zone
  antennas : List Antenna
  mapping : List EPCSkuMapping
  rules : List ReplenishmentRule
  skuSourceById : List (String × InventorySource)
  nonRfidBaselines : List (String × InventorySnapshotByZone)
  rfidEvents : List RFIDReadEvent
  salesEvents : List SalesEvent
  epcPresence : List (String × EPCPresence)
  customers : List (String × Customer)
  customerBasketItems : List CustomerBasketItem
  pendingRFIDPicks : List PendingRFIDPick
  replenishmentConfirmations : List ConfirmationMovement
  staff : List StaffMember
  generatedEpcSeq : Nat
  hostNow : Int

def Frame.toNS (f : Frame) : FrameNS :=
  { zones := f.zones
    antennas := f.antennas
    mapping := f.mapping
    rules := f.rules
    skuSourceById := f.skuSourceById
    nonRfidBaselines := f.nonRfidBaselines
    rfidEvents := f.rfidEvents
    salesEvents := f.salesEvents
    epcPresence := f.epcPresence
    customers := f.customers
    customerBasketItems := f.customerBasketItems
    pendingRFIDPicks := f.pendingRFIDPicks
    replenishmentConfirmations := f.replenishmentConfirmations
    staff := f.staff
    generatedEpcSeq := f.generatedEpcSeq
    hostNow := f.hostNow }

def frameNSOf (s : EngineState) : FrameNS := (frameOf s).toNS

/-- `FrameNS` without the presence store (for the RFID deduction paths). -/
structure FrameCore where
  zones : List Zone
  antennas : List Antenna
  mapping : List EPCSkuMapping
  rules : List ReplenishmentRule
  skuSourceById : List (String × InventorySource)
  nonRfidBaselines : List (String × InventorySnapshotByZone)
  rfidEvents : List RFIDReadEvent
  salesEvents : List SalesEvent
  customers : List (String × Customer)
  customerBasketItems : List CustomerBasketItem
  pendingRFIDPicks : List PendingRFIDPick
  replenishmentConfirmations : List ConfirmationMovement
  staff : List StaffMember
  generatedEpcSeq : Nat
  hostNow : Int

def FrameNS.toCore (f : FrameNS) : FrameCore :=
  { zones := f.zones
    antennas := f.antennas
    mapping := f.mapping
    rules := f.rules
    skuSourceById := f.skuSourceById
    nonRfidBaselines := f.nonRfidBaselines
    rfidEvents := f.rfidEvents
    salesEvents := f.salesEvents
    customers := f.customers
    customerBasketItems := f.customerBasketItems
    pendingRFIDPicks := f.pendingRFIDPicks
    replenishmentConfirmations := f.replenishmentConfirmations
    staff := f.staff
    generatedEpcSeq := f.generatedEpcSeq
    hostNow := f.hostNow }

def frameCoreOf (s : EngineState) : FrameCore := (frameNSOf s).toCore

/-- `FrameCore` without the cart (basket items and pending picks), preserved by
the pending-pick resolver. -/
structure FrameIngest where
  zones : List Zone
  antennas : List Antenna
  mapping : List EPCSkuMapping
  rules : List ReplenishmentRule
  skuSourceById : List (String × InventorySource)
  nonRfidBaselines : List (String × InventorySnapshotByZone)
  rfidEvents : List RFIDReadEvent
  salesEvents : List SalesEvent
  customers : List (String × Customer)
  replenishmentConfirmations : List ConfirmationMovement
  staff : List StaffMember
  generatedEpcSeq : Nat
  hostNow : Int

def FrameCore.toIngest (f : FrameCore) : FrameIngest :=
  { zones := f.zones
    antennas := f.antennas
    mapping := f.mapping
    rules := f.rules
    skuSourceById := f.skuSourceById
    nonRfidBaselines := f.nonRfidBaselines
    rfidEvents := f.rfidEvents
    salesEvents := f.salesEvents
    customers := f.customers
    replenishmentConfirmations := f.replenishmentConfirmations
    staff := f.staff
    generatedEpcSeq := f.generatedEpcSeq
    hostNow := f.hostNow }

def frameIngestOf (s : EngineState) : FrameIngest := (frameCoreOf s).toIngest


/-! ## Concrete states used by witnesses and counterexamples -/

/-- An engine with no data loaded; the cursor sits at an arbitrary instant. -/
def blankEngine : EngineState :=
  { zones := [], antennas := [], mapping := [], rules := [], skuSourceById := []
    nonRfidBaselines := [], snapshots := [], rfidEvents := [], salesEvents := []
    tasks := [], epcPresence := [], customers := [], customerBasketItems := []
    pendingRFIDPicks := [], replenishmentConfirmations := [], receivingOrders := []
    staff := [], taskAudit := [], nowCursor := 1000, generatedEpcSeq := 1
    personalizableSkuIds := [], hostNow := 42, auditSeq := 0 }

/-- A sales location with no configured replenishment sources. -/
def zoneSalesA : Zone :=
  { id := "zone-a", name := "A", color := "#000", mapPolygon := []
    antennaIds := [], ruleIds := [], isSalesLocation := true
    replenishmentSources := [], isActive := true, createdAt := 0 }

/-- The cashier-storage staging zone. -/
def zoneCashier : Zone :=
  { id := CASHIER_STORAGE_ZONE_ID, name := "Cashier", color := "#111"
    mapPolygon := [], antennaIds := [], ruleIds := [], isSalesLocation := false
    replenishmentSources := [], isActive := true, createdAt := 0 }

/-- An antenna bound to zone `zone-r`. -/
def antennaR : Antenna :=
  { id := "ant-1", zoneId := "zone-r", name := "R1", x := 0, y := 0
    isActive := true, createdAt := 0 }

/-- A sales event timestamped before the current cursor of `blankEngine`. -/
def outOfOrderSale : SalesEvent :=
  { id := "s-old", skuId := "SKU-X", zoneId := "zone-x"
    eventType := SalesEventType.SALE, qty := 1, timestamp := 500
    posTxnId := none, ingestedAt := 500 }

/-- An engine able to accept an RFID read on `ant-1`. -/
def rfidReadyEngine : EngineState :=
  { blankEngine with
    antennas := [antennaR]
    mapping := [{ id := "m1", epc := "EPC-1", skuId := "SKU-R", skuName := none
                  inventorySource := InventorySource.RFID, activeFrom := 0
                  activeTo := none }] }

/-- A read on `ant-1`, timestamped after `rfidReadyEngine`'s cursor. -/
def acceptedRead : RFIDReadEvent :=
  { id := "r1", epc := "EPC-1", antennaId := "ant-1", zoneId := "zone-r"
    timestamp := 2000, rssi := none, ingestedAt := 2000 }

/-- `rfidReadyEngine` after one accepted read of `EPC-1` on `ant-1` is already
in the log; used to exercise the dedup window. -/
def dedupEngine : EngineState :=
  { rfidReadyEngine with
    rfidEvents := [{ id := "r0", epc := "EPC-1", antennaId := "ant-1"
                     zoneId := "zone-r", timestamp := 1000, rssi := none
                     ingestedAt := 1000 }] }

/-- A repeat of the logged read, 9 seconds later (inside the 15 s window). -/
def duplicateRead : RFIDReadEvent :=
  { id := "r2", epc := "EPC-1", antennaId := "ant-1", zoneId := "zone-r"
    timestamp := 10000, rssi := none, ingestedAt := 10000 }

/-- An IN_PROGRESS task whose chosen source holds no stock. -/
def dryTask : ReplenishmentTask :=
  { id := "task-1", ruleId := "rule-1", zoneId := "zone-a", skuId := "SKU-NR"
    sourceZoneId := some "zone-w", sourceCandidates := []
    assignedStaffId := none, assignedAt := none
    status := TaskStatus.IN_PROGRESS, triggerQty := 0, deficitQty := 4
    targetQty := 8, createdAt := 900, updatedAt := 900, closedAt := none
    confirmedQty := none, confirmedBy := none, closeReason := none }

/-- An engine holding `dryTask` and no stock anywhere. -/
def dryConfirmEngine : EngineState :=
  { blankEngine with
    zones := [zoneSalesA]
    skuSourceById := [("SKU-NR", InventorySource.NON_RFID)]
    tasks := [dryTask] }

/-- The confirmation attempt against `dryTask`. -/
def dryConfirmPayload : ConfirmPayload :=
  { confirmedQty := 4, confirmedBy := "staff-1", confirmedAt := 2000
    sourceZoneId := none }

/-- A basket item reserving five units of `SKU-NR` in `zone-a`. -/
def reservedItem : CustomerBasketItem :=
  { id := "basket-1", customerId := "c9", zoneId := "zone-a", skuId := "SKU-NR"
    qty := 5, pickedConfirmedQty := 0, status := BasketStatus.IN_CART
    createdAt := 900 }

/-- An engine where `SKU-NR` is fully reserved (stock 0, reserved 5). -/
def overReservedEngine : EngineState :=
  { blankEngine with
    zones := [zoneSalesA]
    skuSourceById := [("SKU-NR", InventorySource.NON_RFID)]
    customerBasketItems := [reservedItem] }

/-- A zero-quantity add against the over-reserved stock. -/
def zeroQtyAdd : EngineState.AddItemPayload :=
  { customerId := "c1", zoneId := "zone-a", skuId := "SKU-NR", qty := 0
    timestamp := 2000 }

/-- A stocked engine for the reservation-safety witness. -/
def stockedCartEngine : EngineState :=
  { blankEngine with
    zones := [zoneSalesA]
    skuSourceById := [("SKU-NR", InventorySource.NON_RFID)]
    snapshots := [{ id := "sn-1", zoneId := "zone-a", skuId := "SKU-NR"
                    qty := 5, source := InventorySource.NON_RFID
                    confidence := none, lastCalculatedAt := 100, version := 1 }] }

/-- A three-unit add against `stockedCartEngine`. -/
def threeQtyAdd : EngineState.AddItemPayload :=
  { customerId := "c1", zoneId := "zone-a", skuId := "SKU-NR", qty := 3
    timestamp := 2000 }

/-- The min/max rule used by the deficit-bound states. -/
def minMaxRule : ReplenishmentRule :=
  { id := "rule-1", zoneId := "zone-a", skuId := "SKU-NR"
    source := InventorySource.NON_RFID, inboundSourceLocationId := none
    minQty := 5, maxQty := 10, priority := 1, isActive := true, updatedAt := 0 }

/-- Snapshot putting `zone-a / SKU-NR` at three units (below min). -/
def threeUnitSnap : InventorySnapshotByZone :=
  { id := "sn-1", zoneId := "zone-a", skuId := "SKU-NR", qty := 3
    source := InventorySource.NON_RFID, confidence := none
    lastCalculatedAt := 100, version := 1 }

/-- An engine whose only open task for `rule-1` is IN_PROGRESS with a deficit
of 20 against a desired top-up of 7. -/
def inProgressOverplanEngine : EngineState :=
  { blankEngine with
    zones := [zoneSalesA]
    rules := [minMaxRule]
    skuSourceById := [("SKU-NR", InventorySource.NON_RFID)]
    snapshots := [threeUnitSnap]
    tasks := [{ dryTask with status := TaskStatus.IN_PROGRESS, deficitQty := 20 }] }

/-- The same over-planned state but with the task still CREATED, so the trim
walk can adjust it. -/
def createdOverplanEngine : EngineState :=
  { inProgressOverplanEngine with
    tasks := [{ dryTask with status := TaskStatus.CREATED, deficitQty := 20 }] }

/-- The over-planned state with no tasks at all: a clean slate for the
planner. -/
def cleanPlannerEngine : EngineState :=
  { inProgressOverplanEngine with tasks := [] }

/-- A personalisable NON_RFID basket item. -/
def personalisedItem : CustomerBasketItem :=
  { id := "basket-p", customerId := "c1", zoneId := "zone-a", skuId := "SKU-P"
    qty := 1, pickedConfirmedQty := 0, status := BasketStatus.IN_CART
    createdAt := 900 }

/-- Checkout state for a personalisable SKU with zero stock at the origin. -/
def emptyPersonalisationEngine : EngineState :=
  { blankEngine with
    zones := [zoneSalesA, zoneCashier]
    skuSourceById := [("SKU-P", InventorySource.NON_RFID)]
    personalizableSkuIds := ["SKU-P"]
    customerBasketItems := [personalisedItem] }

/-- A personalisable RFID basket item. -/
def personalisedRfidItem : CustomerBasketItem :=
  { id := "basket-r", customerId := "c1", zoneId := "zone-a", skuId := "SKU-R"
    qty := 1, pickedConfirmedQty := 0, status := BasketStatus.IN_CART
    createdAt := 900 }

/-- Checkout state for a personalisable RFID SKU with one unit present. -/
def rfidPersonalisationEngine : EngineState :=
  { blankEngine with
    zones := [zoneSalesA, zoneCashier]
    antennas := [{ id := "ant-c", zoneId := CASHIER_STORAGE_ZONE_ID, name := "C1"
                   x := 0, y := 0, isActive := true, createdAt := 0 }]
    skuSourceById := [("SKU-R", InventorySource.RFID)]
    personalizableSkuIds := ["SKU-R"]
    customerBasketItems := [personalisedRfidItem]
    epcPresence := [("EPC-1", { epc := "EPC-1", skuId := "SKU-R"
                                zoneId := "zone-a", antennaId := "ant-a"
                                lastSeenAt := 900, lastRssi := none })] }

/-! ## Generic lemmas -/

theorem foldl_invariant {α β : Type _} (f : β → α → β) (P : β → Prop)
    (l : List α) (b : β) (hb : P b)
    (h : ∀ b' a, a ∈ l → P b' → P (f b' a)) : P (l.foldl f b) := by
  induction l generalizing b with
  | nil => exact hb
  | cons x xs ih =>
      exact ih (f b x) (h b x (List.mem_cons_self _ _) hb)
        (fun b' a ha => h b' a (List.mem_cons_of_mem _ ha))

theorem updateFirst_mem {α : Type _} (p : α → Bool) (f : α → α) (l : List α) :
    ∀ y ∈ updateFirst p f l, y ∈ l ∨ ∃ x ∈ l, y = f x := by
  induction l with
  | nil => intro y hy; cases hy
  | cons x xs ih =>
      intro y hy
      by_cases hx : p x
      · simp only [updateFirst, hx, if_pos] at hy
        rcases List.mem_cons.mp hy with hy | hy
        · exact Or.inr ⟨x, List.mem_cons_self _ _, hy⟩
        · exact Or.inl (List.mem_cons_of_mem _ hy)
      · simp only [updateFirst, hx, if_neg, Bool.false_eq_true,
          not_false_iff] at hy
        rcases List.mem_cons.mp hy with hy | hy
        · exact Or.inl (hy ▸ List.mem_cons_self _ _)
        · rcases ih y hy with h | ⟨x', hx', hfx⟩
          · exact Or.inl (List.mem_cons_of_mem _ h)
          · exact Or.inr ⟨x', List.mem_cons_of_mem _ hx', hfx⟩

theorem updateFirst_exists {α : Type _} (p : α → Bool) (f : α → α) (l : List α)
    (Q : α → Prop) (hf : ∀ a, Q a → Q (f a)) :
    (∃ a ∈ l, Q a) → ∃ b ∈ updateFirst p f l, Q b := by
  induction l with
  | nil => rintro ⟨a, ha, _⟩; cases ha
  | cons x xs ih =>
      rintro ⟨a, ha, hQ⟩
      by_cases hx : p x
      · simp only [updateFirst, hx, if_pos]
        rcases List.mem_cons.mp ha with rfl | ha
        · exact ⟨f a, List.mem_cons_self _ _, hf a hQ⟩
        · exact ⟨a, List.mem_cons_of_mem _ ha, hQ⟩
      · simp only [updateFirst, hx, if_neg, Bool.false_eq_true, not_false_iff]
        rcases List.mem_cons.mp ha with rfl | ha
        · exact ⟨a, List.mem_cons_self _ _, hQ⟩
        · rcases ih ⟨a, ha, hQ⟩ with ⟨b, hb, hbQ⟩
          exact ⟨b, List.mem_cons_of_mem _ hb, hbQ⟩

namespace EngineState

theorem frameOf_pushTaskAudit (s : EngineState) (tid : String)
    (act : AuditAction) (actor : Option String) (d : String) :
    frameOf (pushTaskAudit s tid act actor d) = frameOf s := rfl

theorem frameOf_autoAssignPendingTasks (s : EngineState) (at' : Timestamp) :
    frameOf (autoAssignPendingTasks s at') = frameOf s := by
  unfold autoAssignPendingTasks
  dsimp only
  split
  · rfl
  · split
    · rfl
    · refine foldl_invariant _
        (fun (acc : EngineState × List (String × Int)) =>
          frameOf acc.1 = frameOf s) _ _ rfl ?_
      intro acc task _ hacc
      dsimp only
      split
      · exact hacc
      · exact hacc

theorem frameOf_autoAssignPendingReceivingOrders (s : EngineState)
    (at' : Timestamp) :
    frameOf (autoAssignPendingReceivingOrders s at') = frameOf s := by
  unfold autoAssignPendingReceivingOrders
  dsimp only
  split
  · rfl
  · split
    · rfl
    · refine foldl_invariant _
        (fun (acc : EngineState × List (String × Int)) =>
          frameOf acc.1 = frameOf s) _ _ rfl ?_
      intro acc order _ hacc
      dsimp only
      split
      · exact hacc
      · exact hacc

theorem frameOf_closeReplenishmentTask (s : EngineState) (taskId reason : String) :
    frameOf (closeReplenishmentTask s taskId reason) = frameOf s := by
  unfold closeReplenishmentTask
  dsimp only
  split
  · rfl
  · split
    · rfl
    · rw [frameOf_autoAssignPendingReceivingOrders,
        frameOf_autoAssignPendingTasks, frameOf_pushTaskAudit]
      rfl

theorem frameOf_generateReplenishmentTask (s : EngineState)
    (rule : ReplenishmentRule) (deficitQty triggerQty : Int)
    (sourceZoneId : Option String)
    (candidatesInput : Option (List SourceCandidate)) :
    frameOf (generateReplenishmentTask s rule deficitQty triggerQty sourceZoneId
      candidatesInput) = frameOf s := by
  unfold generateReplenishmentTask
  dsimp only
  rw [frameOf_autoAssignPendingTasks, frameOf_pushTaskAudit]
  rfl

theorem frameOf_trimLoop (ids : List String) :
    ∀ (s : EngineState) (overflow : Int),
      frameOf (trimLoop s ids overflow) = frameOf s := by
  induction ids with
  | nil => intro s overflow; rfl
  | cons tid rest ih =>
      intro s overflow
      unfold trimLoop
      dsimp only
      split
      · split
        · exact ih s overflow
        · split
          · rw [ih, frameOf_closeReplenishmentTask]
          · rw [ih]; rfl
      · rfl

theorem frameOf_refreshTaskSources (s : EngineState) (rule : ReplenishmentRule)
    (ids : List String) :
    frameOf (refreshTaskSources s rule ids) = frameOf s := by
  unfold refreshTaskSources
  dsimp only
  refine foldl_invariant _ (fun st => frameOf st = frameOf s) _ _ rfl ?_
  intro st tid _ hst
  dsimp only
  split
  · exact hst
  · exact hst

theorem frameOf_triggerLoop (rule : ReplenishmentRule) (currentQty : Int)
    (allCandidates : List SourceCandidate) (candidates : List SourceCandidate) :
    ∀ (remaining : Int) (createdAny : Bool) (s : EngineState),
      frameOf (triggerLoop rule currentQty allCandidates candidates remaining
        createdAny s).2.2 = frameOf s := by
  induction candidates with
  | nil => intro remaining createdAny s; rfl
  | cons c rest ih =>
      intro remaining createdAny s
      unfold triggerLoop
      dsimp only
      split
      · rfl
      · split
        · exact ih remaining createdAny s
        · rw [ih, frameOf_generateReplenishmentTask]

theorem frameOf_createReceivingOrder (s : EngineState)
    (payload : CreateReceivingPayload) :
    frameOf (createReceivingOrder s payload).2 = frameOf s := by
  unfold createReceivingOrder
  dsimp only
  repeat' split
  all_goals first
    | rfl
    | (rw [frameOf_autoAssignPendingReceivingOrders]; rfl)

theorem frameOf_evaluateInboundReceivingNeed (s : EngineState) (zone : Zone)
    (rule : ReplenishmentRule) (currentQty : Int) :
    frameOf (evaluateInboundReceivingNeed s zone rule currentQty) = frameOf s := by
  unfold evaluateInboundReceivingNeed
  dsimp only
  have h1 : frameOf ((s.tasks.map (fun t => t.id)).foldl
      (fun st tid =>
        match st.tasks.find? (fun t => decide (t.id = tid)) with
        | none => st
        | some t =>
            if decide (t.ruleId = rule.id) && taskIsOpen t.status &&
                decide (t.status ≠ TaskStatus.IN_PROGRESS) then
              closeReplenishmentTask st tid "non_sales_receiving_flow"
            else st) s) = frameOf s := by
    refine foldl_invariant _ (fun st => frameOf st = frameOf s) _ _ rfl ?_
    intro st tid _ hst
    dsimp only
    split
    · exact hst
    · split
      · rw [frameOf_closeReplenishmentTask]; exact hst
      · exact hst
  split
  · exact h1
  · split
    · exact h1
    · split
      · exact h1
      · rw [frameOf_createReceivingOrder]; exact h1

theorem frameOf_closeFold (l : List ReplenishmentTask) (st : EngineState)
    (reason : String) :
    frameOf (l.foldl (fun st' t => closeReplenishmentTask st' t.id reason) st) =
      frameOf st := by
  refine foldl_invariant _ (fun st' => frameOf st' = frameOf st) _ _ rfl ?_
  intro st' t _ h
  rw [frameOf_closeReplenishmentTask]; exact h

theorem frameOf_mergeOpenTasks (zone : Zone) (rule : ReplenishmentRule)
    (s : EngineState) : frameOf (mergeOpenTasks zone rule s) = frameOf s := by
  unfold mergeOpenTasks
  dsimp only
  split
  · split
    · split
      · rfl
      · rw [frameOf_closeFold]; rfl
    · rfl
  · rfl

theorem frameOf_triggerPhase (rule : ReplenishmentRule)
    (currentQty remainingQty : Int) (s3 : EngineState) :
    frameOf (triggerPhase rule currentQty remainingQty s3) = frameOf s3 := by
  unfold triggerPhase
  dsimp only
  split
  · rw [frameOf_generateReplenishmentTask, frameOf_triggerLoop]
  · rw [frameOf_triggerLoop]

theorem frameOf_salesRulePass (rule : ReplenishmentRule) (currentQty : Int)
    (s1 : EngineState) :
    frameOf (salesRulePass rule currentQty s1) = frameOf s1 := by
  unfold salesRulePass
  dsimp only
  split
  · rw [frameOf_closeFold]
  · repeat' split
    all_goals
      simp only [frameOf_triggerPhase, frameOf_refreshTaskSources,
        frameOf_trimLoop]

theorem frameOf_evaluateRuleForZone (zone : Zone) (s : EngineState)
    (rule : ReplenishmentRule) :
    frameOf (evaluateRuleForZone zone s rule) = frameOf s := by
  unfold evaluateRuleForZone
  dsimp only
  split
  · exact frameOf_evaluateInboundReceivingNeed s zone rule _
  · rw [frameOf_salesRulePass, frameOf_mergeOpenTasks]

theorem frameOf_evaluateMinMax (s : EngineState) (zoneId : String) :
    frameOf (evaluateMinMax s zoneId) = frameOf s := by
  unfold evaluateMinMax
  dsimp only
  split
  · rfl
  · refine foldl_invariant _ (fun st => frameOf st = frameOf s) _ _ rfl ?_
    intro st r _ hst
    rw [frameOf_evaluateRuleForZone]; exact hst

end EngineState

namespace EngineState

theorem frameNSOf_upsertSnapshot (s : EngineState) (zoneId skuId : String)
    (qty : Int) (source : InventorySource) (confidence : Option Rat) :
    frameNSOf (upsertSnapshot s zoneId skuId qty source confidence) =
      frameNSOf s := by
  unfold upsertSnapshot
  dsimp only
  repeat' split
  all_goals rfl

theorem frameNSOf_evaluateMinMax (s : EngineState) (zoneId : String) :
    frameNSOf (evaluateMinMax s zoneId) = frameNSOf s :=
  congrArg Frame.toNS (frameOf_evaluateMinMax s zoneId)

theorem frameNSOf_calculateZoneInventory (s : EngineState) (zoneId : String) :
    frameNSOf (calculateZoneInventory s zoneId) = frameNSOf s := by
  unfold calculateZoneInventory
  dsimp only
  rw [frameNSOf_evaluateMinMax]
  refine foldl_invariant _ (fun st => frameNSOf st = frameNSOf s) _ _ ?_ ?_
  · refine foldl_invariant _ (fun st => frameNSOf st = frameNSOf s) _ _ rfl ?_
    intro st skuId _ hst
    rw [frameNSOf_upsertSnapshot]; exact hst
  · intro st skuId _ hst
    rw [frameNSOf_upsertSnapshot]; exact hst

theorem frameCoreOf_deductRFIDImmediate (s : EngineState) (zoneId skuId : String)
    (qty : Int) :
    frameCoreOf (deductRFIDImmediate s zoneId skuId qty) = frameCoreOf s := by
  unfold deductRFIDImmediate
  dsimp only
  have h1 : ∀ m : List (String × EPCPresence),
      frameCoreOf ({ s with epcPresence := m } : EngineState) = frameCoreOf s :=
    fun _ => rfl
  split
  · rw [frameCoreOf, frameNSOf_evaluateMinMax, ← frameCoreOf]
    rw [frameCoreOf, frameNSOf_upsertSnapshot, ← frameCoreOf]
    rw [frameCoreOf, frameNSOf_calculateZoneInventory, ← frameCoreOf]
    exact h1 _
  · rw [frameCoreOf, frameNSOf_calculateZoneInventory, ← frameCoreOf]
    exact h1 _

theorem frameIngestOf_applyPendingRFIDPicks (s : EngineState) (zoneId : String) :
    frameIngestOf (applyPendingRFIDPicks s zoneId).2 = frameIngestOf s := by
  unfold applyPendingRFIDPicks
  dsimp only
  split
  · rfl
  · rw [frameIngestOf, frameCoreOf, frameNSOf_evaluateMinMax, ← frameCoreOf,
      ← frameIngestOf]
    refine foldl_invariant _
      (fun (acc : Int × EngineState) => frameIngestOf acc.2 = frameIngestOf s) _ _
      rfl ?_
    intro acc entry _ hacc
    dsimp only
    split
    · exact hacc
    · split
      · exact hacc
      · split
        · exact hacc
        · exact hacc

/-! ## Cursor preservation: the command cascade never moves the cursor after
the ingest entry point set it. -/

theorem nowCursor_pushTaskAudit (s : EngineState) (tid : String)
    (act : AuditAction) (actor : Option String) (d : String) :
    (pushTaskAudit s tid act actor d).nowCursor = s.nowCursor := rfl

theorem nowCursor_upsertSnapshot (s : EngineState) (zoneId skuId : String)
    (qty : Int) (source : InventorySource) (confidence : Option Rat) :
    (upsertSnapshot s zoneId skuId qty source confidence).nowCursor =
      s.nowCursor := by
  unfold upsertSnapshot
  dsimp only
  repeat' split
  all_goals rfl

theorem nowCursor_autoAssignPendingTasks (s : EngineState) (at' : Timestamp)
    (h : at' = s.nowCursor) :
    (autoAssignPendingTasks s at').nowCursor = s.nowCursor := by
  unfold autoAssignPendingTasks
  dsimp only
  split
  · rfl
  · split
    · rfl
    · refine foldl_invariant _
        (fun (acc : EngineState × List (String × Int)) =>
          acc.1.nowCursor = s.nowCursor) _ _ rfl ?_
      intro acc task _ hacc
      dsimp only
      split
      · exact hacc
      · rw [nowCursor_pushTaskAudit]; exact h

theorem nowCursor_autoAssignPendingReceivingOrders (s : EngineState)
    (at' : Timestamp) (h : at' = s.nowCursor) :
    (autoAssignPendingReceivingOrders s at').nowCursor = s.nowCursor := by
  unfold autoAssignPendingReceivingOrders
  dsimp only
  split
  · rfl
  · split
    · rfl
    · refine foldl_invariant _
        (fun (acc : EngineState × List (String × Int)) =>
          acc.1.nowCursor = s.nowCursor) _ _ rfl ?_
      intro acc order _ hacc
      dsimp only
      split
      · exact hacc
      · exact h

theorem nowCursor_closeReplenishmentTask (s : EngineState)
    (taskId reason : String) :
    (closeReplenishmentTask s taskId reason).nowCursor = s.nowCursor := by
  unfold closeReplenishmentTask
  dsimp only
  split
  · rfl
  · split
    · rfl
    · rw [nowCursor_autoAssignPendingReceivingOrders _ _ rfl,
        nowCursor_autoAssignPendingTasks _ _ rfl]
      rfl

theorem nowCursor_generateReplenishmentTask (s : EngineState)
    (rule : ReplenishmentRule) (deficitQty triggerQty : Int)
    (sourceZoneId : Option String)
    (candidatesInput : Option (List SourceCandidate)) :
    (generateReplenishmentTask s rule deficitQty triggerQty sourceZoneId
      candidatesInput).nowCursor = s.nowCursor := by
  unfold generateReplenishmentTask
  dsimp only
  rw [nowCursor_autoAssignPendingTasks _ _ rfl]
  rfl

theorem nowCursor_trimLoop (ids : List String) :
    ∀ (s : EngineState) (overflow : Int),
      (trimLoop s ids overflow).nowCursor = s.nowCursor := by
  induction ids with
  | nil => intro s overflow; rfl
  | cons tid rest ih =>
      intro s overflow
      unfold trimLoop
      dsimp only
      split
      · split
        · exact ih s overflow
        · split
          · rw [ih, nowCursor_closeReplenishmentTask]
          · rw [ih]
      · rfl

theorem nowCursor_refreshTaskSources (s : EngineState) (rule : ReplenishmentRule)
    (ids : List String) :
    (refreshTaskSources s rule ids).nowCursor = s.nowCursor := by
  unfold refreshTaskSources
  dsimp only
  refine foldl_invariant _ (fun (st : EngineState) => st.nowCursor = s.nowCursor) _ _ rfl ?_
  intro st tid _ hst
  dsimp only
  split
  · exact hst
  · exact hst

theorem nowCursor_triggerLoop (rule : ReplenishmentRule) (currentQty : Int)
    (allCandidates : List SourceCandidate) (candidates : List SourceCandidate) :
    ∀ (remaining : Int) (createdAny : Bool) (s : EngineState),
      (triggerLoop rule currentQty allCandidates candidates remaining
        createdAny s).2.2.nowCursor = s.nowCursor := by
  induction candidates with
  | nil => intro remaining createdAny s; rfl
  | cons c rest ih =>
      intro remaining createdAny s
      unfold triggerLoop
      dsimp only
      split
      · rfl
      · split
        · exact ih remaining createdAny s
        · rw [ih, nowCursor_generateReplenishmentTask]

theorem nowCursor_createReceivingOrder (s : EngineState)
    (payload : CreateReceivingPayload) (h : payload.createdAt = s.nowCursor) :
    (createReceivingOrder s payload).2.nowCursor = s.nowCursor := by
  unfold createReceivingOrder
  dsimp only
  repeat' split
  all_goals try rfl
  rw [nowCursor_autoAssignPendingReceivingOrders _ _ rfl]
  exact h

theorem nowCursor_evaluateInboundReceivingNeed (s : EngineState) (zone : Zone)
    (rule : ReplenishmentRule) (currentQty : Int) :
    (evaluateInboundReceivingNeed s zone rule currentQty).nowCursor =
      s.nowCursor := by
  unfold evaluateInboundReceivingNeed
  dsimp only
  have h1 : ((s.tasks.map (fun t => t.id)).foldl
      (fun st tid =>
        match st.tasks.find? (fun t => decide (t.id = tid)) with
        | none => st
        | some t =>
            if decide (t.ruleId = rule.id) && taskIsOpen t.status &&
                decide (t.status ≠ TaskStatus.IN_PROGRESS) then
              closeReplenishmentTask st tid "non_sales_receiving_flow"
            else st) s).nowCursor = s.nowCursor := by
    refine foldl_invariant _ (fun (st : EngineState) => st.nowCursor = s.nowCursor) _ _ rfl ?_
    intro st tid _ hst
    dsimp only
    split
    · exact hst
    · split
      · rw [nowCursor_closeReplenishmentTask]; exact hst
      · exact hst
  split
  · exact h1
  · split
    · exact h1
    · split
      · exact h1
      · rw [nowCursor_createReceivingOrder _ _ rfl]; exact h1

theorem nowCursor_closeFold (l : List ReplenishmentTask) (st : EngineState)
    (reason : String) :
    (l.foldl (fun st' t => closeReplenishmentTask st' t.id reason) st).nowCursor =
      st.nowCursor := by
  refine foldl_invariant _ (fun (st' : EngineState) => st'.nowCursor = st.nowCursor) _ _ rfl ?_
  intro st' t _ h
  rw [nowCursor_closeReplenishmentTask]; exact h

theorem nowCursor_mergeOpenTasks (zone : Zone) (rule : ReplenishmentRule)
    (s : EngineState) : (mergeOpenTasks zone rule s).nowCursor = s.nowCursor := by
  unfold mergeOpenTasks
  dsimp only
  split
  · split
    · split
      · rfl
      · rw [nowCursor_closeFold]
    · rfl
  · rfl

theorem nowCursor_triggerPhase (rule : ReplenishmentRule)
    (currentQty remainingQty : Int) (s3 : EngineState) :
    (triggerPhase rule currentQty remainingQty s3).nowCursor = s3.nowCursor := by
  unfold triggerPhase
  dsimp only
  split
  · rw [nowCursor_generateReplenishmentTask, nowCursor_triggerLoop]
  · rw [nowCursor_triggerLoop]

theorem nowCursor_salesRulePass (rule : ReplenishmentRule) (currentQty : Int)
    (s1 : EngineState) :
    (salesRulePass rule currentQty s1).nowCursor = s1.nowCursor := by
  unfold salesRulePass
  dsimp only
  split
  · rw [nowCursor_closeFold]
  · repeat' split
    all_goals
      simp only [nowCursor_triggerPhase, nowCursor_refreshTaskSources,
        nowCursor_trimLoop]

theorem nowCursor_evaluateRuleForZone (zone : Zone) (s : EngineState)
    (rule : ReplenishmentRule) :
    (evaluateRuleForZone zone s rule).nowCursor = s.nowCursor := by
  unfold evaluateRuleForZone
  dsimp only
  split
  · exact nowCursor_evaluateInboundReceivingNeed s zone rule _
  · rw [nowCursor_salesRulePass, nowCursor_mergeOpenTasks]

theorem nowCursor_evaluateMinMax (s : EngineState) (zoneId : String) :
    (evaluateMinMax s zoneId).nowCursor = s.nowCursor := by
  unfold evaluateMinMax
  dsimp only
  split
  · rfl
  · refine foldl_invariant _ (fun (st : EngineState) => st.nowCursor = s.nowCursor) _ _ rfl ?_
    intro st r _ hst
    rw [nowCursor_evaluateRuleForZone]; exact hst

theorem nowCursor_calculateZoneInventory (s : EngineState) (zoneId : String) :
    (calculateZoneInventory s zoneId).nowCursor = s.nowCursor := by
  unfold calculateZoneInventory
  dsimp only
  rw [nowCursor_evaluateMinMax]
  refine foldl_invariant _ (fun (st : EngineState) => st.nowCursor = s.nowCursor) _ _ ?_ ?_
  · refine foldl_invariant _ (fun (st : EngineState) => st.nowCursor = s.nowCursor) _ _ rfl ?_
    intro st skuId _ hst
    rw [nowCursor_upsertSnapshot]; exact hst
  · intro st skuId _ hst
    rw [nowCursor_upsertSnapshot]; exact hst

theorem nowCursor_applyPendingRFIDPicks (s : EngineState) (zoneId : String) :
    (applyPendingRFIDPicks s zoneId).2.nowCursor = s.nowCursor := by
  unfold applyPendingRFIDPicks
  dsimp only
  split
  · rfl
  · rw [nowCursor_evaluateMinMax]
    refine foldl_invariant _
      (fun (acc : Int × EngineState) => acc.2.nowCursor = s.nowCursor) _ _ rfl ?_
    intro acc entry _ hacc
    dsimp only
    split
    · exact hacc
    · split
      · exact hacc
      · split
        · exact hacc
        · exact hacc

theorem nowCursor_deductRFIDImmediate (s : EngineState) (zoneId skuId : String)
    (qty : Int) :
    (deductRFIDImmediate s zoneId skuId qty).nowCursor = s.nowCursor := by
  unfold deductRFIDImmediate
  dsimp only
  split
  · rw [nowCursor_evaluateMinMax, nowCursor_upsertSnapshot,
      nowCursor_calculateZoneInventory]
  · rw [nowCursor_calculateZoneInventory]

/-! ## Field extraction corollaries -/

theorem salesEvents_calculateZoneInventory (s : EngineState) (zoneId : String) :
    (calculateZoneInventory s zoneId).salesEvents = s.salesEvents :=
  congrArg FrameNS.salesEvents (frameNSOf_calculateZoneInventory s zoneId)

theorem salesEvents_deductRFIDImmediate (s : EngineState) (zoneId skuId : String)
    (qty : Int) :
    (deductRFIDImmediate s zoneId skuId qty).salesEvents = s.salesEvents :=
  congrArg FrameCore.salesEvents (frameCoreOf_deductRFIDImmediate s zoneId skuId qty)

theorem snapshots_evaluateMinMax (s : EngineState) (zoneId : String) :
    (evaluateMinMax s zoneId).snapshots = s.snapshots :=
  congrArg Frame.snapshots (frameOf_evaluateMinMax s zoneId)

theorem basket_evaluateMinMax (s : EngineState) (zoneId : String) :
    (evaluateMinMax s zoneId).customerBasketItems = s.customerBasketItems :=
  congrArg Frame.customerBasketItems (frameOf_evaluateMinMax s zoneId)

theorem skuSource_evaluateMinMax (s : EngineState) (zoneId : String) :
    (evaluateMinMax s zoneId).skuSourceById = s.skuSourceById :=
  congrArg Frame.skuSourceById (frameOf_evaluateMinMax s zoneId)

theorem rules_evaluateMinMax (s : EngineState) (zoneId : String) :
    (evaluateMinMax s zoneId).rules = s.rules :=
  congrArg Frame.rules (frameOf_evaluateMinMax s zoneId)

theorem zones_calculateZoneInventory (s : EngineState) (zoneId : String) :
    (calculateZoneInventory s zoneId).zones = s.zones :=
  congrArg FrameNS.zones (frameNSOf_calculateZoneInventory s zoneId)

/-! ## Behaviour of the ingest entry points -/

theorem ingestSalesEvent_nowCursor (s : EngineState) (ev : SalesEvent) :
    (ingestSalesEvent s ev).2.nowCursor = ev.timestamp := by
  unfold ingestSalesEvent
  dsimp only
  split
  · rw [nowCursor_deductRFIDImmediate]
  · rw [nowCursor_calculateZoneInventory]

theorem ingestSalesEvent_log (s : EngineState) (ev : SalesEvent) :
    (ingestSalesEvent s ev).2.salesEvents = s.salesEvents ++ [ev] := by
  unfold ingestSalesEvent
  dsimp only
  split
  · rw [salesEvents_deductRFIDImmediate]
  · rw [salesEvents_calculateZoneInventory]

theorem ingestSalesEvent_status (s : EngineState) (ev : SalesEvent) :
    (ingestSalesEvent s ev).1 =
      (if s.skuSourceOf ev.skuId = InventorySource.RFID ∧
          ev.eventType = SalesEventType.SALE then
        "accepted_rfid_immediate"
      else "accepted") := by
  unfold ingestSalesEvent
  dsimp only
  split
  next h => exact (if_pos h).symm
  next h => exact (if_neg h).symm

theorem ingestRFIDRead_nowCursor (s : EngineState) (e : RFIDReadEvent) :
    (ingestRFIDRead s e).2.nowCursor =
      (if (ingestRFIDRead s e).1.status = "accepted" then e.timestamp
       else s.nowCursor) := by
  unfold ingestRFIDRead
  dsimp only
  split
  · split
    next h => simp at h
    next _ => rfl
  · split
    · split
      next h => simp at h
      next _ => rfl
    · split
      · split
        next h => simp at h
        next _ => rfl
      · rw [if_pos rfl, nowCursor_calculateZoneInventory,
          nowCursor_applyPendingRFIDPicks]

theorem deduplicateReads_iff (s : EngineState) (epc antennaId : String)
    (t : Timestamp) :
    deduplicateReads s epc antennaId dedupWindowSec t = true ↔
      specDedupReject s epc antennaId t := by
  unfold deduplicateReads specDedupReject dedupWindowSec
  cases hf : (s.rfidEvents.reverse.find?
      (fun e => decide (e.epc = epc ∧ e.antennaId = antennaId))) with
  | none => simp [hf]
  | some last =>
      simp only [hf, decide_eq_true_eq, Option.some.injEq]
      constructor
      · intro h
        exact ⟨last, rfl, h⟩
      · rintro ⟨prev, rfl, h⟩
        exact h

end EngineState

/-! ## Claim C1 -/

/-- C1 counterexample: the claim says the cursor moves to
`max(cursor, event.timestamp)`; on an out-of-order sales event the code instead
rewinds the cursor to the event's timestamp. -/
theorem c1_cursor_max_counterexample :
    (EngineState.ingestSalesEvent blankEngine outOfOrderSale).2.nowCursor ≠
        max blankEngine.nowCursor outOfOrderSale.timestamp ∧
      (EngineState.ingestSalesEvent blankEngine outOfOrderSale).2.nowCursor <
        blankEngine.nowCursor := by
  decide

/-- C1 (amended): for every accepted timestamp-carrying ingest command the
cursor after the command equals the event's timestamp — a plain assignment, so
an out-of-order event rewinds the cursor rather than being absorbed by `max`. -/
theorem c1_cursor_follows_event_timestamp (s : EngineState) (e : RFIDReadEvent)
    (ev : SalesEvent)
    (hAccepted : (EngineState.ingestRFIDRead s e).1.status = "accepted") :
    (EngineState.ingestRFIDRead s e).2.nowCursor = e.timestamp ∧
      (EngineState.ingestSalesEvent s ev).2.nowCursor = ev.timestamp := by
  refine ⟨?_, EngineState.ingestSalesEvent_nowCursor s ev⟩
  rw [EngineState.ingestRFIDRead_nowCursor, if_pos hAccepted]

/-- C1 witness: a concrete accepted read and sale exercise the amended claim. -/
theorem c1_cursor_follows_event_timestamp_witness :
    (EngineState.ingestRFIDRead rfidReadyEngine acceptedRead).1.status =
        "accepted" ∧
      ((EngineState.ingestRFIDRead rfidReadyEngine acceptedRead).2.nowCursor =
          acceptedRead.timestamp ∧
        (EngineState.ingestSalesEvent rfidReadyEngine outOfOrderSale).2.nowCursor =
          outOfOrderSale.timestamp) :=
  ⟨by decide,
    c1_cursor_follows_event_timestamp rfidReadyEngine acceptedRead outOfOrderSale
      (by decide)⟩

/-! ## Claim C5 -/

/-- C5: with a valid antenna/zone pair, a read is answered `duplicate_ignored`
exactly when the most recent logged read for the same `(epc, antenna)` is at
most 15 seconds older, and such a rejection leaves the state untouched. -/
theorem c5_dedup_window_rejection (s : EngineState) (e : RFIDReadEvent)
    (a : Antenna)
    (hA : s.antennas.find? (fun x =>
      decide (x.id = e.antennaId ∧ x.zoneId = e.zoneId)) = some a) :
    ((EngineState.ingestRFIDRead s e).1.status = "duplicate_ignored" ↔
      specDedupReject s e.epc e.antennaId e.timestamp) ∧
    (specDedupReject s e.epc e.antennaId e.timestamp →
      (EngineState.ingestRFIDRead s e).2 = s) := by
  have hred : EngineState.ingestRFIDRead s e =
      (if EngineState.deduplicateReads s e.epc e.antennaId dedupWindowSec
          e.timestamp then
        ({ status := "duplicate_ignored", skuId := none }, s)
      else
        match EngineState.lookupSkuByEPC s e.epc e.timestamp with
        | none => ({ status := "unknown_epc", skuId := none }, s)
        | some mapping =>
            let s1 := { s with
              rfidEvents := s.rfidEvents ++ [e]
              nowCursor := e.timestamp }
            let s2 := { s1 with
              epcPresence := mset s1.epcPresence e.epc
                { epc := e.epc
                  skuId := mapping.skuId
                  zoneId := e.zoneId
                  antennaId := e.antennaId
                  lastSeenAt := e.timestamp
                  lastRssi := e.rssi } }
            let s3 := (EngineState.applyPendingRFIDPicks s2 e.zoneId).2
            let s4 := EngineState.calculateZoneInventory s3 e.zoneId
            ({ status := "accepted", skuId := some mapping.skuId }, s4)) := by
    unfold EngineState.ingestRFIDRead
    rw [hA]
  rw [hred]
  by_cases hdup : EngineState.deduplicateReads s e.epc e.antennaId
      dedupWindowSec e.timestamp = true
  · rw [if_pos hdup]
    have hspec := (EngineState.deduplicateReads_iff s e.epc e.antennaId
      e.timestamp).mp hdup
    exact ⟨⟨fun _ => hspec, fun _ => rfl⟩, fun _ => rfl⟩
  · rw [if_neg hdup]
    have hspec : ¬ specDedupReject s e.epc e.antennaId e.timestamp := fun hc =>
      hdup ((EngineState.deduplicateReads_iff s e.epc e.antennaId e.timestamp).mpr hc)
    constructor
    · constructor
      · intro hst
        exfalso
        cases hm : EngineState.lookupSkuByEPC s e.epc e.timestamp with
        | none => rw [hm] at hst; simp at hst
        | some mapping => rw [hm] at hst; simp at hst
      · intro hc
        exact absurd hc hspec
    · intro hc
      exact absurd hc hspec

/-- C5 witness: a repeated read 9 s after the logged one is rejected. -/
theorem c5_dedup_window_rejection_witness :
    dedupEngine.antennas.find? (fun x =>
        decide (x.id = duplicateRead.antennaId ∧
          x.zoneId = duplicateRead.zoneId)) = some antennaR ∧
      (((EngineState.ingestRFIDRead dedupEngine duplicateRead).1.status =
            "duplicate_ignored" ↔
          specDedupReject dedupEngine duplicateRead.epc duplicateRead.antennaId
            duplicateRead.timestamp) ∧
        (specDedupReject dedupEngine duplicateRead.epc duplicateRead.antennaId
            duplicateRead.timestamp →
          (EngineState.ingestRFIDRead dedupEngine duplicateRead).2 = dedupEngine)) :=
  ⟨by decide, c5_dedup_window_rejection dedupEngine duplicateRead antennaR (by decide)⟩

/-! ## Claim C6 -/

/-- Signed ledger deltas split into the returns sum minus the sales sum. -/
theorem signedSalesSum (zoneId skuId : String) (b : Int) (l : List SalesEvent) :
    ((l.filter (fun e => decide (e.zoneId = zoneId ∧ e.skuId = skuId ∧
        toMs e.timestamp ≥ b))).map
      (fun e =>
        match e.eventType with
        | SalesEventType.SALE => -e.qty
        | SalesEventType.RETURN => e.qty)).sum =
    ((l.filter (fun e => decide (e.zoneId = zoneId ∧ e.skuId = skuId ∧
        e.eventType = SalesEventType.RETURN ∧ toMs e.timestamp ≥ b))).map
      (fun e => e.qty)).sum -
    ((l.filter (fun e => decide (e.zoneId = zoneId ∧ e.skuId = skuId ∧
        e.eventType = SalesEventType.SALE ∧ toMs e.timestamp ≥ b))).map
      (fun e => e.qty)).sum := by
  induction l with
  | nil => simp
  | cons e l ih =>
      by_cases h1 : e.zoneId = zoneId <;>
        by_cases h2 : e.skuId = skuId <;>
          by_cases h3 : toMs e.timestamp ≥ b <;>
            cases het : e.eventType <;>
              simp only [List.filter_cons, h1, h2, h3, het] at ih ⊢ <;>
                simp_all <;> omega

/-- C6: the NON_RFID quantity equals the spec's ledger formula — the baseline
plus signed deltas since the baseline timestamp, clamped at zero. -/
theorem c6_nonrfid_ledger_conservation (s : EngineState) (skuId zoneId : String) :
    EngineState.calculateNonRFIDInventory s skuId zoneId =
      specLedgerQty s skuId zoneId := by
  unfold EngineState.calculateNonRFIDInventory specLedgerQty
  dsimp only
  rw [signedSalesSum]
  omega

/-! ## Claim C9 -/

/-- C9: `ingestSalesEvent` validates nothing: every event (whatever its zone,
SKU — unknown ones resolve to NON_RFID — or quantity) is appended to the sales
log, the cursor is set to the event's timestamp, and the status is always
`accepted` or `accepted_rfid_immediate` (the latter exactly for RFID sales). -/
theorem c9_ingestSalesEvent_never_rejects (s : EngineState) (ev : SalesEvent) :
    ((EngineState.ingestSalesEvent s ev).1 = "accepted" ∨
      (EngineState.ingestSalesEvent s ev).1 = "accepted_rfid_immediate") ∧
    (EngineState.ingestSalesEvent s ev).2.salesEvents = s.salesEvents ++ [ev] ∧
    (EngineState.ingestSalesEvent s ev).2.nowCursor = ev.timestamp ∧
    (EngineState.ingestSalesEvent s ev).1 =
      (if s.skuSourceOf ev.skuId = InventorySource.RFID ∧
          ev.eventType = SalesEventType.SALE then
        "accepted_rfid_immediate"
      else "accepted") := by
  refine ⟨?_, EngineState.ingestSalesEvent_log s ev,
    EngineState.ingestSalesEvent_nowCursor s ev,
    EngineState.ingestSalesEvent_status s ev⟩
  rw [EngineState.ingestSalesEvent_status]
  split
  · exact Or.inr rfl
  · exact Or.inl rfl

/-! ## Claim C3 -/

theorem zones_upsertCustomer (s : EngineState) (id : String)
    (name : Option String) :
    (EngineState.upsertCustomer s id name).zones = s.zones := by
  unfold EngineState.upsertCustomer
  repeat' split
  all_goals rfl

theorem getCurrentInventoryQty_ext (a b : EngineState) (zoneId skuId : String)
    (source : InventorySource) (h : a.snapshots = b.snapshots) :
    EngineState.getCurrentInventoryQty a zoneId skuId source =
      EngineState.getCurrentInventoryQty b zoneId skuId source := by
  unfold EngineState.getCurrentInventoryQty
  rw [h]

theorem getReservedOpenQty_append (a b : EngineState)
    (item : CustomerBasketItem) (zoneId skuId : String)
    (hb : b.customerBasketItems = a.customerBasketItems ++ [item])
    (hm : b.skuSourceById = a.skuSourceById)
    (hst : item.status = BasketStatus.IN_CART)
    (hzn : item.zoneId = zoneId) (hsk : item.skuId = skuId) :
    EngineState.getReservedOpenQty b zoneId skuId =
      EngineState.getReservedOpenQty a zoneId skuId +
        (match EngineState.skuSourceOf a item.skuId with
         | InventorySource.RFID => max 0 (item.qty - item.pickedConfirmedQty)
         | InventorySource.NON_RFID => item.qty) := by
  unfold EngineState.getReservedOpenQty EngineState.skuSourceOf
  rw [hb, hm, List.filter_append]
  have hone : List.filter (fun it =>
      decide (it.status = BasketStatus.IN_CART ∧ it.zoneId = zoneId ∧
        it.skuId = skuId)) [item] = [item] := by
    simp [hst, hzn, hsk]
  rw [hone, List.foldl_append]
  simp only [List.foldl]
  cases (mget a.skuSourceById item.skuId).getD InventorySource.NON_RFID <;> rfl

theorem addItemCommit_state (s2 : EngineState)
    (payload : EngineState.AddItemPayload) (source : InventorySource) :
    (EngineState.addItemCommit s2 payload source).2.snapshots = s2.snapshots ∧
    (EngineState.addItemCommit s2 payload source).2.skuSourceById =
      s2.skuSourceById ∧
    (EngineState.addItemCommit s2 payload source).2.customerBasketItems =
      s2.customerBasketItems ++
        [(EngineState.addItemCommit s2 payload source).1] := by
  unfold EngineState.addItemCommit
  dsimp only
  refine ⟨?_, ?_, ?_⟩
  · rw [EngineState.snapshots_evaluateMinMax]; split <;> rfl
  · rw [EngineState.skuSource_evaluateMinMax]; split <;> rfl
  · rw [EngineState.basket_evaluateMinMax]; split <;> rfl

theorem view_addItemCommit (s2 : EngineState)
    (payload : EngineState.AddItemPayload) (source : InventorySource)
    (zoneId skuId : String) (src : InventorySource) :
    EngineState.getCurrentInventoryQty
        (EngineState.addItemCommit s2 payload source).2 zoneId skuId src =
      EngineState.getCurrentInventoryQty s2 zoneId skuId src :=
  getCurrentInventoryQty_ext _ _ _ _ _ (addItemCommit_state s2 payload source).1

theorem reserved_addItemCommit (s2 : EngineState)
    (payload : EngineState.AddItemPayload) (source : InventorySource)
    (hq : 0 ≤ payload.qty) :
    EngineState.getReservedOpenQty
        (EngineState.addItemCommit s2 payload source).2
        payload.zoneId payload.skuId =
      EngineState.getReservedOpenQty s2 payload.zoneId payload.skuId +
        payload.qty := by
  rw [getReservedOpenQty_append s2 _
      (EngineState.addItemCommit s2 payload source).1
      payload.zoneId payload.skuId (addItemCommit_state s2 payload source).2.2
      (addItemCommit_state s2 payload source).2.1 rfl rfl rfl]
  have hsku : (EngineState.addItemCommit s2 payload source).1.skuId =
      payload.skuId := rfl
  have hqty : (EngineState.addItemCommit s2 payload source).1.qty =
      payload.qty := rfl
  have hpick : (EngineState.addItemCommit s2 payload source).1.pickedConfirmedQty =
      (0 : Int) := rfl
  rw [hsku, hqty, hpick]
  cases EngineState.skuSourceOf s2 payload.skuId <;> dsimp only
  simp only [Int.sub_zero]
  rw [max_eq_right hq]

/-- C3 counterexample: a zero-quantity add against fully reserved stock
(current 0, reserved 5, so current minus reserved is -5) is still accepted,
because the code compares the requested quantity against
`max(0, current - reserved)` rather than against `current - reserved`. -/
theorem c3_reservation_counterexample :
    (EngineState.addCustomerItem overReservedEngine zeroQtyAdd).1.status =
        "accepted" ∧
      ¬(zeroQtyAdd.qty ≤
          EngineState.getCurrentInventoryQty
              (cartDecisionState overReservedEngine zeroQtyAdd)
              zeroQtyAdd.zoneId zeroQtyAdd.skuId
              (EngineState.skuSourceOf
                (cartDecisionState overReservedEngine zeroQtyAdd)
                zeroQtyAdd.skuId) -
            EngineState.getReservedOpenQty
              (cartDecisionState overReservedEngine zeroQtyAdd)
              zeroQtyAdd.zoneId zeroQtyAdd.skuId) := by
  decide

/-- C3 (amended): for a positive requested quantity against a found sales
zone, `addCustomerItem` accepts exactly when the quantity is at most
current minus reserved, both read from the decision state (cursor set,
customer upserted, zone recomputed); on acceptance the margin current minus
reserved shrinks by exactly the requested quantity. For qty = 0 (or any
qty below 1) the clamp `max 0 (current - reserved)` makes the code accept
even when reserved exceeds current, refuting the unqualified claim. -/
theorem c3_addCustomerItem_reservation (s : EngineState)
    (payload : EngineState.AddItemPayload) (zone : Zone)
    (hq : 1 ≤ payload.qty)
    (hz : s.zones.find? (fun z => decide (z.id = payload.zoneId)) = some zone)
    (hsales : zone.isSalesLocation = true) :
    ((EngineState.addCustomerItem s payload).1.status = "accepted" ↔
        payload.qty ≤
          EngineState.getCurrentInventoryQty (cartDecisionState s payload)
              payload.zoneId payload.skuId
              (EngineState.skuSourceOf (cartDecisionState s payload)
                payload.skuId) -
            EngineState.getReservedOpenQty (cartDecisionState s payload)
              payload.zoneId payload.skuId) ∧
    ((EngineState.addCustomerItem s payload).1.status = "accepted" →
        EngineState.getCurrentInventoryQty
              (EngineState.addCustomerItem s payload).2
              payload.zoneId payload.skuId
              (EngineState.skuSourceOf (cartDecisionState s payload)
                payload.skuId) -
            EngineState.getReservedOpenQty
              (EngineState.addCustomerItem s payload).2
              payload.zoneId payload.skuId =
          (EngineState.getCurrentInventoryQty (cartDecisionState s payload)
              payload.zoneId payload.skuId
              (EngineState.skuSourceOf (cartDecisionState s payload)
                payload.skuId) -
            EngineState.getReservedOpenQty (cartDecisionState s payload)
              payload.zoneId payload.skuId) - payload.qty) := by
  unfold EngineState.addCustomerItem cartDecisionState
  dsimp only
  have hz1 : (EngineState.upsertCustomer
      { s with nowCursor := payload.timestamp }
      payload.customerId none).zones.find?
      (fun z => decide (z.id = payload.zoneId)) = some zone := by
    rw [zones_upsertCustomer]; exact hz
  rw [hz1]
  dsimp only
  split
  next hns => exact absurd hsales hns
  next hns =>
    split
    next hgt =>
      unfold EngineState.getAvailableQtyForCart at hgt
      dsimp only at hgt
      refine ⟨⟨fun habs => ?_, fun hle => ?_⟩, fun habs => ?_⟩
      · simp at habs
      · exfalso; omega
      · simp at habs
    next hgt =>
      unfold EngineState.getAvailableQtyForCart at hgt
      dsimp only at hgt
      refine ⟨⟨fun _ => by omega, fun _ => rfl⟩, fun _ => ?_⟩
      dsimp only
      rw [view_addItemCommit, reserved_addItemCommit]
      · omega
      · omega

theorem c3_addCustomerItem_reservation_witness :
    (1 ≤ threeQtyAdd.qty ∧
      stockedCartEngine.zones.find?
          (fun z => decide (z.id = threeQtyAdd.zoneId)) = some zoneSalesA ∧
      zoneSalesA.isSalesLocation = true) ∧
    (EngineState.addCustomerItem stockedCartEngine threeQtyAdd).1.status =
      "accepted" :=
  ⟨⟨by decide, by decide, by decide⟩,
    (c3_addCustomerItem_reservation stockedCartEngine threeQtyAdd zoneSalesA
        (by decide) (by decide) (by decide)).1.mpr (by decide)⟩

/-! ## Claim C7 -/

theorem mem_dedupKeepFirst {α : Type _} [DecidableEq α] (x : α) (l : List α) :
    x ∈ dedupKeepFirst l ↔ x ∈ l := by
  induction l with
  | nil => simp [dedupKeepFirst]
  | cons a l ih =>
      simp only [dedupKeepFirst, List.mem_cons, List.mem_filter, ih,
        decide_eq_true_eq]
      by_cases hx : x = a <;> simp [hx]

theorem foldl_add_eq_sum {α : Type _} (g : α → Int) (l : List α) (a : Int) :
    l.foldl (fun sum x => sum + g x) a = a + (l.map g).sum := by
  induction l generalizing a with
  | nil => simp
  | cons x l ih => simp [List.foldl, ih]; ring

theorem personalizable_iff (products : List CatalogProduct) (skuId : String) :
    skuId ∈ personalizableSkuIdsOf products ↔
      specPersonalizable products skuId := by
  unfold personalizableSkuIdsOf specPersonalizable
  rw [mem_dedupKeepFirst]
  simp only [List.mem_flatten, List.mem_map]
  constructor
  · rintro ⟨l, ⟨product, hp, rfl⟩, hsk⟩
    rw [List.mem_map] at hsk
    rcases hsk with ⟨v, hv, hskv⟩
    rw [List.mem_filter] at hv
    rcases hv with ⟨hv, hcond⟩
    refine ⟨product, hp, v, hv, hskv, ?_⟩
    by_cases hrole : v.role = some "player" ∨ v.role = some "goalkeeper"
    · tauto
    · rw [if_neg hrole] at hcond
      tauto
  · rintro ⟨product, hp, v, hv, hskv, hcond⟩
    refine ⟨_, ⟨product, hp, rfl⟩, ?_⟩
    rw [List.mem_map]
    refine ⟨v, ?_, hskv⟩
    rw [List.mem_filter]
    refine ⟨hv, ?_⟩
    by_cases hrole : v.role = some "player" ∨ v.role = some "goalkeeper"
    · rw [if_pos hrole]
    · rw [if_neg hrole]
      rcases hcond with h | h | h
      · exact absurd (Or.inl h) hrole
      · exact absurd (Or.inr h) hrole
      · exact h

theorem projectedSupply_spec (s : EngineState) (zone : Zone) (skuId : String)
    (source : InventorySource) :
    EngineState.getProjectedSupplyForOrigin s zone skuId source =
      specProjectedSupply s zone skuId source := by
  unfold EngineState.getProjectedSupplyForOrigin specProjectedSupply
  dsimp only
  rw [foldl_add_eq_sum]
  omega

theorem tasks_exists_autoAssignPendingTasks (s : EngineState) (at' : Timestamp)
    (Q : ReplenishmentTask → Prop)
    (hQ : ∀ (t : ReplenishmentTask) (sid : String),
      Q t →
        Q { t with
              assignedStaffId := some sid
              assignedAt := some at'
              status := TaskStatus.ASSIGNED
              updatedAt := at' })
    (h : ∃ t ∈ s.tasks, Q t) :
    ∃ t ∈ (EngineState.autoAssignPendingTasks s at').tasks, Q t := by
  unfold EngineState.autoAssignPendingTasks
  dsimp only
  split
  next => exact h
  next =>
    split
    next => exact h
    next =>
      refine foldl_invariant _
        (fun acc : EngineState × List (String × Int) =>
          ∃ t ∈ acc.1.tasks, Q t) _ _ h ?_
      intro acc task hmem hacc
      dsimp only
      split
      next => exact hacc
      next first restPool heq =>
        dsimp only [EngineState.pushTaskAudit]
        exact updateFirst_exists _ _ _ Q (fun a ha => hQ a _ ha) hacc

theorem createPersonalizationTask_task (s : EngineState)
    (destinationZoneId skuId : String) (qty : Int) (source : InventorySource)
    (projectedSupply : Int) :
    ∃ t ∈ (EngineState.createPersonalizationTask s destinationZoneId skuId qty
        source projectedSupply).tasks,
      t.ruleId = strLower ("rule-printing-sale-" ++ destinationZoneId ++ "-" ++
        skuId) ∧
      t.zoneId = destinationZoneId ∧ t.skuId = skuId ∧
      t.deficitQty = max 1 qty := by
  unfold EngineState.createPersonalizationTask
  dsimp only
  refine tasks_exists_autoAssignPendingTasks _ _ _ (fun t sid ht => ht) ?_
  dsimp only [EngineState.pushTaskAudit]
  exact ⟨_, List.mem_append_right _ (List.mem_singleton_self _),
    rfl, rfl, rfl, rfl⟩

theorem processPersonalizationSale_routes (s : EngineState)
    (item : CustomerBasketItem) (source : InventorySource) (ts : Timestamp)
    (czone ozone sourceZone : Zone) (sMoved : EngineState)
    (hc : s.zones.find? (fun z => decide (z.id = CASHIER_STORAGE_ZONE_ID)) =
      some czone)
    (ho : s.zones.find? (fun z => decide (z.id = item.zoneId)) = some ozone)
    (hrel : EngineState.personalizationRelocate s item source ts = some sMoved)
    (hsz : (EngineState.calculateZoneInventory
        (EngineState.calculateZoneInventory sMoved item.zoneId)
        CASHIER_STORAGE_ZONE_ID).zones.find?
        (fun z => decide (z.id = item.zoneId)) = some sourceZone) :
    ∃ t ∈ (EngineState.processPersonalizationSale s item source ts).tasks,
      t.ruleId = strLower ("rule-printing-sale-" ++
        (if EngineState.getProjectedSupplyForOrigin
            (EngineState.calculateZoneInventory
              (EngineState.calculateZoneInventory sMoved item.zoneId)
              CASHIER_STORAGE_ZONE_ID) sourceZone item.skuId source ≤ 0 then
          PRINTING_WALL_ZONE_ID
        else item.zoneId) ++ "-" ++ item.skuId) ∧
      t.zoneId =
        (if EngineState.getProjectedSupplyForOrigin
            (EngineState.calculateZoneInventory
              (EngineState.calculateZoneInventory sMoved item.zoneId)
              CASHIER_STORAGE_ZONE_ID) sourceZone item.skuId source ≤ 0 then
          PRINTING_WALL_ZONE_ID
        else item.zoneId) ∧
      t.skuId = item.skuId ∧
      t.deficitQty = max 1 item.qty := by
  unfold EngineState.processPersonalizationSale
  rw [hc, ho]
  dsimp only
  rw [hrel]
  dsimp only
  rw [hsz]
  dsimp only
  exact createPersonalizationTask_task _ _ _ _ _ _

/-- C7 counterexample: at checkout of a personalisable NON_RFID item with zero
stock at the origin, the NON_RFID transfer moves zero units and
`processPersonalizationSale` returns early, so no replacement task is created
at all (neither towards the origin nor towards the printing wall), while the
checkout itself still completes. -/
theorem c7_personalization_counterexample :
    emptyPersonalisationEngine.personalizableSkuIds.contains
        personalisedItem.skuId = true ∧
    (EngineState.checkoutCustomer emptyPersonalisationEngine "c1" 2000).1.1 =
        "checked_out" ∧
    (EngineState.checkoutCustomer emptyPersonalisationEngine "c1" 2000).2.tasks =
        [] := by
  decide

/-- C7 (amended): the personalisable predicate and the projected-supply figure
match the spec's formulas, and whenever the relocation phase of a
personalisation sale actually moves units (and the cashier-storage and origin
zones exist), a replacement task is created whose destination is the printing
wall exactly when the recomputed projected supply of the origin is at most
zero, and the origin otherwise. When the relocation moves nothing (NON_RFID
with zero stock), the method returns early and no task is created. -/
theorem c7_personalization_routing :
    (∀ (products : List CatalogProduct) (skuId : String),
        skuId ∈ personalizableSkuIdsOf products ↔
          specPersonalizable products skuId) ∧
    (∀ (s : EngineState) (zone : Zone) (skuId : String)
        (source : InventorySource),
        EngineState.getProjectedSupplyForOrigin s zone skuId source =
          specProjectedSupply s zone skuId source) ∧
    (∀ (s : EngineState) (item : CustomerBasketItem) (source : InventorySource)
        (ts : Timestamp) (czone ozone sourceZone : Zone) (sMoved : EngineState),
        s.zones.find? (fun z => decide (z.id = CASHIER_STORAGE_ZONE_ID)) =
          some czone →
        s.zones.find? (fun z => decide (z.id = item.zoneId)) = some ozone →
        EngineState.personalizationRelocate s item source ts = some sMoved →
        (EngineState.calculateZoneInventory
            (EngineState.calculateZoneInventory sMoved item.zoneId)
            CASHIER_STORAGE_ZONE_ID).zones.find?
            (fun z => decide (z.id = item.zoneId)) = some sourceZone →
        ∃ t ∈ (EngineState.processPersonalizationSale s item source ts).tasks,
          t.ruleId = strLower ("rule-printing-sale-" ++
            (if EngineState.getProjectedSupplyForOrigin
                (EngineState.calculateZoneInventory
                  (EngineState.calculateZoneInventory sMoved item.zoneId)
                  CASHIER_STORAGE_ZONE_ID) sourceZone item.skuId source ≤ 0 then
              PRINTING_WALL_ZONE_ID
            else item.zoneId) ++ "-" ++ item.skuId) ∧
          t.zoneId =
            (if EngineState.getProjectedSupplyForOrigin
                (EngineState.calculateZoneInventory
                  (EngineState.calculateZoneInventory sMoved item.zoneId)
                  CASHIER_STORAGE_ZONE_ID) sourceZone item.skuId source ≤ 0 then
              PRINTING_WALL_ZONE_ID
            else item.zoneId) ∧
          t.skuId = item.skuId ∧
          t.deficitQty = max 1 item.qty) :=
  ⟨personalizable_iff, projectedSupply_spec, processPersonalizationSale_routes⟩

theorem c7_personalization_routing_witness :
    ∃ t ∈ (EngineState.processPersonalizationSale rfidPersonalisationEngine
        personalisedRfidItem InventorySource.RFID 2000).tasks,
      t.skuId = personalisedRfidItem.skuId ∧
      t.deficitQty = max 1 personalisedRfidItem.qty := by
  obtain ⟨t, ht, hrule, hzone, hsku, hdef⟩ :=
    c7_personalization_routing.2.2 rfidPersonalisationEngine
      personalisedRfidItem InventorySource.RFID 2000 zoneCashier zoneSalesA
      zoneSalesA
      ((EngineState.personalizationRelocate rfidPersonalisationEngine
        personalisedRfidItem InventorySource.RFID 2000).getD blankEngine)
      (by decide) (by decide) rfl (by decide)
  exact ⟨t, ht, hsku, hdef⟩


/-! ## Claim C10 -/

theorem mem_removeFirst {α : Type _} (p : α → Bool) (l : List α) (y : α)
    (hy : y ∈ removeFirst p l) : y ∈ l := by
  induction l with
  | nil => cases hy
  | cons a l ih =>
      unfold removeFirst at hy
      split at hy
      · exact List.mem_cons_of_mem _ hy
      · rcases List.mem_cons.mp hy with rfl | hy
        · exact List.mem_cons_self _ _
        · exact List.mem_cons_of_mem _ (ih hy)

theorem mem_insertByKey {α : Type _} (key : α → Int) (x y : α) (l : List α) :
    y ∈ insertByKey key x l ↔ y = x ∨ y ∈ l := by
  induction l with
  | nil => simp [insertByKey]
  | cons a l ih =>
      unfold insertByKey
      split
      · simp [List.mem_cons]
      · simp only [List.mem_cons, ih]
        tauto

theorem mem_sortByKey {α : Type _} (key : α → Int) (x : α) (l : List α) :
    x ∈ sortByKey key l ↔ x ∈ l := by
  unfold sortByKey
  induction l with
  | nil => simp
  | cons a l ih =>
      simp only [List.foldr_cons, mem_insertByKey, ih, List.mem_cons]

theorem snapInv_of_eq {a b : EngineState} (h : a.snapshots = b.snapshots)
    (hb : snapshotsNonneg b) : snapshotsNonneg a := by
  intro sn hm
  rw [h] at hm
  exact hb sn hm

theorem snapInv_frame {a b : EngineState} (h : frameOf a = frameOf b)
    (hb : snapshotsNonneg b) : snapshotsNonneg a :=
  snapInv_of_eq (congrArg Frame.snapshots h) hb

theorem getCurrentInventoryQty_nonneg (s : EngineState) (zoneId skuId : String)
    (source : InventorySource) (h : snapshotsNonneg s) :
    0 ≤ EngineState.getCurrentInventoryQty s zoneId skuId source := by
  unfold EngineState.getCurrentInventoryQty
  dsimp only
  split
  next => exact le_refl 0
  next sn rest heq =>
    have hmem : sn ∈ sortByKey (fun sn => - toMs sn.lastCalculatedAt)
        (s.snapshots.filter (fun sn =>
          decide (sn.zoneId = zoneId ∧ sn.skuId = skuId ∧
            sn.source = source))) := by
      rw [heq]
      exact List.mem_cons_self _ _
    rw [mem_sortByKey] at hmem
    exact h sn (List.mem_filter.mp hmem).1

theorem calculateNonRFIDInventory_nonneg (s : EngineState)
    (skuId zoneId : String) :
    0 ≤ EngineState.calculateNonRFIDInventory s skuId zoneId := by
  unfold EngineState.calculateNonRFIDInventory
  dsimp only
  exact le_max_left 0 _

theorem snapInv_upsertSnapshot (s : EngineState) (zoneId skuId : String)
    (qty : Int) (source : InventorySource) (confidence : Option Rat)
    (h : snapshotsNonneg s) (hq : 0 ≤ qty) :
    snapshotsNonneg (EngineState.upsertSnapshot s zoneId skuId qty source
      confidence) := by
  unfold EngineState.upsertSnapshot
  dsimp only
  split
  · split
    · intro sn hm
      exact h sn (mem_removeFirst _ _ _ hm)
    · exact h
  · split
    · intro sn hm
      rcases List.mem_append.mp hm with hm | hm
      · exact h sn hm
      · rcases List.mem_singleton.mp hm with rfl
        exact hq
    · intro sn hm
      rcases updateFirst_mem _ _ _ sn hm with hm | ⟨x, hx, rfl⟩
      · exact h sn hm
      · exact hq

theorem snapInv_evaluateMinMax (s : EngineState) (zoneId : String)
    (h : snapshotsNonneg s) :
    snapshotsNonneg (EngineState.evaluateMinMax s zoneId) :=
  snapInv_of_eq (EngineState.snapshots_evaluateMinMax s zoneId) h

theorem snapInv_calculateZoneInventory (s : EngineState) (zoneId : String)
    (h : snapshotsNonneg s) :
    snapshotsNonneg (EngineState.calculateZoneInventory s zoneId) := by
  unfold EngineState.calculateZoneInventory
  dsimp only
  refine snapInv_evaluateMinMax _ _ ?_
  refine foldl_invariant _ snapshotsNonneg _ _ ?_ ?_
  · refine foldl_invariant _ snapshotsNonneg _ _ h ?_
    intro st sk hmem hst
    dsimp only
    exact snapInv_upsertSnapshot _ _ _ _ _ _ hst (Int.natCast_nonneg _)
  · intro st sk hmem hst
    dsimp only
    exact snapInv_upsertSnapshot _ _ _ _ _ _ hst
      (calculateNonRFIDInventory_nonneg _ _ _)

theorem snapInv_deductRFIDImmediate (s : EngineState) (zoneId skuId : String)
    (qty : Int) (h : snapshotsNonneg s) :
    snapshotsNonneg (EngineState.deductRFIDImmediate s zoneId skuId qty) := by
  unfold EngineState.deductRFIDImmediate
  dsimp only
  split
  · exact snapInv_evaluateMinMax _ _
      (snapInv_upsertSnapshot _ _ _ _ _ _
        (snapInv_calculateZoneInventory _ _ h) (le_max_left 0 _))
  · exact snapInv_calculateZoneInventory _ _ h


theorem snapInv_applyPendingRFIDPicks (s : EngineState) (zoneId : String)
    (h : snapshotsNonneg s) :
    snapshotsNonneg (EngineState.applyPendingRFIDPicks s zoneId).2 := by
  unfold EngineState.applyPendingRFIDPicks
  dsimp only
  split
  next => exact h
  next =>
    refine snapInv_evaluateMinMax _ _ ?_
    refine foldl_invariant _
      (fun acc : Int × EngineState => snapshotsNonneg acc.2) _ _ h ?_
    intro acc entry hmem hacc
    dsimp only
    split
    next => exact hacc
    next pick heq =>
      split
      next => exact hacc
      next =>
        dsimp only
        split
        next => exact hacc
        next => exact hacc

theorem snapInv_ingestRFIDRead (s : EngineState) (event : RFIDReadEvent)
    (h : snapshotsNonneg s) :
    snapshotsNonneg (EngineState.ingestRFIDRead s event).2 := by
  unfold EngineState.ingestRFIDRead
  dsimp only
  split
  next => exact h
  next =>
    split
    next => exact h
    next =>
      split
      next => exact h
      next mapping heq =>
        exact snapInv_calculateZoneInventory _ _
          (snapInv_applyPendingRFIDPicks _ _ h)

theorem snapInv_forceZoneSweep (s : EngineState) (zoneId : String)
    (timestamp : Timestamp) (h : snapshotsNonneg s) :
    snapshotsNonneg (EngineState.forceZoneSweep s zoneId timestamp).2 := by
  unfold EngineState.forceZoneSweep
  dsimp only
  split
  next => exact h
  next =>
    exact snapInv_calculateZoneInventory _ _
      (snapInv_applyPendingRFIDPicks _ _ h)

theorem snapInv_scanZone (s : EngineState) (zoneId : String)
    (timestamp : Timestamp) (h : snapshotsNonneg s) :
    snapshotsNonneg (EngineState.scanZone s zoneId timestamp).2 := by
  unfold EngineState.scanZone
  dsimp only
  split
  next => exact h
  next => exact snapInv_calculateZoneInventory _ _ h

theorem snapInv_ingestSalesEvent (s : EngineState) (event : SalesEvent)
    (h : snapshotsNonneg s) :
    snapshotsNonneg (EngineState.ingestSalesEvent s event).2 := by
  unfold EngineState.ingestSalesEvent
  dsimp only
  split
  next => exact snapInv_deductRFIDImmediate _ _ _ _ h
  next => exact snapInv_calculateZoneInventory _ _ h

theorem snapshots_upsertCustomer (s : EngineState) (id : String)
    (name : Option String) :
    (EngineState.upsertCustomer s id name).snapshots = s.snapshots := by
  unfold EngineState.upsertCustomer
  repeat' split
  all_goals rfl

theorem snapInv_upsertCustomer (s : EngineState) (id : String)
    (name : Option String) (h : snapshotsNonneg s) :
    snapshotsNonneg (EngineState.upsertCustomer s id name) :=
  snapInv_of_eq (snapshots_upsertCustomer s id name) h

theorem snapInv_addCustomerItem (s : EngineState)
    (payload : EngineState.AddItemPayload) (h : snapshotsNonneg s) :
    snapshotsNonneg (EngineState.addCustomerItem s payload).2 := by
  unfold EngineState.addCustomerItem
  dsimp only
  split
  next => exact snapInv_upsertCustomer _ _ _ h
  next zone heq =>
    split
    next => exact snapInv_upsertCustomer _ _ _ h
    next =>
      split
      next =>
        exact snapInv_calculateZoneInventory _ _ (snapInv_upsertCustomer _ _ _ h)
      next =>
        refine snapInv_of_eq (addItemCommit_state _ _ _).1 ?_
        exact snapInv_calculateZoneInventory _ _ (snapInv_upsertCustomer _ _ _ h)

theorem snapshots_createExternalRFIDLoop (skuId dz da : String)
    (at' : Timestamp) : ∀ (n : Nat) (s : EngineState),
    (EngineState.createExternalRFIDLoop skuId dz da at' n s).snapshots =
      s.snapshots := by
  intro n
  induction n with
  | zero => intro s; rfl
  | succ n ih =>
      intro s
      unfold EngineState.createExternalRFIDLoop
      exact ih _

theorem snapshots_createExternalRFIDForDestination (s : EngineState)
    (skuId dz : String) (qty : Int) (at' : Timestamp) :
    (EngineState.createExternalRFIDForDestination s skuId dz qty
      at').2.snapshots = s.snapshots := by
  unfold EngineState.createExternalRFIDForDestination
  dsimp only
  exact snapshots_createExternalRFIDLoop _ _ _ _ _ _

theorem snapshots_moveRFIDEpcs (s : EngineState) (a b k : String) (qty : Int)
    (at' : Timestamp) :
    (EngineState.moveRFIDEpcs s a b k qty at').2.snapshots = s.snapshots := by
  unfold EngineState.moveRFIDEpcs
  dsimp only
  refine foldl_invariant _
    (fun st : EngineState => st.snapshots = s.snapshots) _ _ rfl ?_
  intro st epc hm hst
  dsimp only
  split
  next => exact hst
  next => exact hst

theorem snapshots_transferConsumedPendingEpcsToZone (s : EngineState)
    (bid k dz : String) (at' : Timestamp) :
    (EngineState.transferConsumedPendingEpcsToZone s bid k dz at').2.snapshots =
      s.snapshots := by
  unfold EngineState.transferConsumedPendingEpcsToZone
  dsimp only
  refine foldl_invariant _
    (fun acc : Int × EngineState => acc.2.snapshots = s.snapshots) _ _ rfl ?_
  intro acc entry hm hacc
  dsimp only
  split
  next => exact hacc
  next pending heq =>
    split
    next => exact hacc
    next =>
      dsimp only
      refine foldl_invariant _
        (fun st : EngineState => st.snapshots = s.snapshots) _ _ hacc ?_
      intro st epc hm2 hst
      dsimp only
      exact hst

theorem snapInv_transferNonRfid (s : EngineState) (a b k : String) (qty : Int)
    (h : snapshotsNonneg s) :
    snapshotsNonneg (EngineState.transferNonRfid s a b k qty).2 := by
  unfold EngineState.transferNonRfid
  dsimp only
  split
  next => exact h
  next hmov =>
    generalize hC : EngineState.getCurrentInventoryQty s a k
      InventorySource.NON_RFID = C at hmov ⊢
    refine snapInv_upsertSnapshot _ _ _ _ _ _ ?_ ?_
    · exact snapInv_upsertSnapshot _ _ _ _ _ _ h (by omega)
    · have h1 : snapshotsNonneg (EngineState.upsertSnapshot s a k
          (C - min (max 0 qty) C) InventorySource.NON_RFID none) :=
        snapInv_upsertSnapshot _ _ _ _ _ _ h (by omega)
      have h2 := getCurrentInventoryQty_nonneg
        (EngineState.upsertSnapshot s a k (C - min (max 0 qty) C)
          InventorySource.NON_RFID none) b k InventorySource.NON_RFID h1
      omega


theorem snapshots_autoAssignPendingTasks (s : EngineState) (at' : Timestamp) :
    (EngineState.autoAssignPendingTasks s at').snapshots = s.snapshots :=
  congrArg Frame.snapshots (EngineState.frameOf_autoAssignPendingTasks s at')

theorem snapshots_autoAssignPendingReceivingOrders (s : EngineState)
    (at' : Timestamp) :
    (EngineState.autoAssignPendingReceivingOrders s at').snapshots =
      s.snapshots :=
  congrArg Frame.snapshots
    (EngineState.frameOf_autoAssignPendingReceivingOrders s at')

theorem snapshots_closeReplenishmentTask (s : EngineState)
    (taskId reason : String) :
    (EngineState.closeReplenishmentTask s taskId reason).snapshots =
      s.snapshots :=
  congrArg Frame.snapshots
    (EngineState.frameOf_closeReplenishmentTask s taskId reason)

theorem snapshots_createReceivingOrder (s : EngineState)
    (payload : EngineState.CreateReceivingPayload) :
    (EngineState.createReceivingOrder s payload).2.snapshots = s.snapshots :=
  congrArg Frame.snapshots (EngineState.frameOf_createReceivingOrder s payload)

theorem snapshots_createPersonalizationTask (s : EngineState) (dz k : String)
    (qty : Int) (source : InventorySource) (ps : Int) :
    (EngineState.createPersonalizationTask s dz k qty source ps).snapshots =
      s.snapshots := by
  unfold EngineState.createPersonalizationTask
  dsimp only
  exact congrArg Frame.snapshots
    (EngineState.frameOf_autoAssignPendingTasks _ _)

theorem snapInv_personalizationRelocate (s : EngineState)
    (item : CustomerBasketItem) (source : InventorySource) (ts : Timestamp)
    (sMoved : EngineState)
    (hrel : EngineState.personalizationRelocate s item source ts = some sMoved)
    (h : snapshotsNonneg s) : snapshotsNonneg sMoved := by
  unfold EngineState.personalizationRelocate at hrel
  dsimp only at hrel
  split at hrel
  next =>
    obtain rfl := Option.some.inj hrel
    intro sn hm
    dsimp only at hm
    split at hm
    next =>
      rw [snapshots_moveRFIDEpcs] at hm
      split at hm
      next =>
        rw [snapshots_createExternalRFIDForDestination,
          snapshots_transferConsumedPendingEpcsToZone] at hm
        exact h sn hm
      next =>
        rw [snapshots_transferConsumedPendingEpcsToZone] at hm
        exact h sn hm
    next =>
      split at hm
      next =>
        rw [snapshots_createExternalRFIDForDestination,
          snapshots_transferConsumedPendingEpcsToZone] at hm
        exact h sn hm
      next =>
        rw [snapshots_transferConsumedPendingEpcsToZone] at hm
        exact h sn hm
  next =>
    split at hrel
    next => simp at hrel
    next =>
      obtain rfl := Option.some.inj hrel
      exact snapInv_transferNonRfid _ _ _ _ _ h

theorem snapInv_processPersonalizationSale (s : EngineState)
    (item : CustomerBasketItem) (source : InventorySource) (ts : Timestamp)
    (h : snapshotsNonneg s) :
    snapshotsNonneg (EngineState.processPersonalizationSale s item source ts) := by
  unfold EngineState.processPersonalizationSale
  split
  next =>
    split
    next => exact h
    next sMoved heq =>
      dsimp only
      split
      next =>
        exact snapInv_calculateZoneInventory _ _
          (snapInv_calculateZoneInventory _ _
            (snapInv_personalizationRelocate _ _ _ _ _ heq h))
      next sourceZone heq2 =>
        refine snapInv_of_eq (snapshots_createPersonalizationTask _ _ _ _ _ _) ?_
        exact snapInv_calculateZoneInventory _ _
          (snapInv_calculateZoneInventory _ _
            (snapInv_personalizationRelocate _ _ _ _ _ heq h))
  next => exact h

theorem snapInv_removeCustomerItem (s : EngineState) (bid : String)
    (ts : Timestamp) (h : snapshotsNonneg s) :
    snapshotsNonneg (EngineState.removeCustomerItem s bid ts).2 := by
  unfold EngineState.removeCustomerItem
  dsimp only
  split
  next => exact h
  next item heq =>
    split
    next => exact h
    next =>
      refine snapInv_calculateZoneInventory _ _ ?_
      intro sn hm
      dsimp only at hm
      split at hm
      next =>
        split at hm
        next =>
          rw [snapshots_createExternalRFIDForDestination] at hm
          refine foldl_invariant _
            (fun acc : Int × EngineState => snapshotsNonneg acc.2) _ _ h ?_
            sn hm
          intro acc entry hmem hacc
          dsimp only
          split
          next => exact hacc
          next pending heq2 =>
            split
            next => exact hacc
            next =>
              dsimp only
              intro sn2 hm2
              dsimp only at hm2
              refine foldl_invariant _
                (fun st : EngineState => snapshotsNonneg st) _ _ hacc ?_ sn2 hm2
              intro st epc hm3 hst
              dsimp only
              exact hst
        next =>
          refine foldl_invariant _
            (fun acc : Int × EngineState => snapshotsNonneg acc.2) _ _ h ?_
            sn hm
          intro acc entry hmem hacc
          dsimp only
          split
          next => exact hacc
          next pending heq2 =>
            split
            next => exact hacc
            next =>
              dsimp only
              intro sn2 hm2
              dsimp only at hm2
              refine foldl_invariant _
                (fun st : EngineState => snapshotsNonneg st) _ _ hacc ?_ sn2 hm2
              intro st epc hm3 hst
              dsimp only
              exact hst
      next => exact h sn hm

theorem snapInv_checkoutCustomer (s : EngineState) (cid : String)
    (ts : Timestamp) (h : snapshotsNonneg s) :
    snapshotsNonneg (EngineState.checkoutCustomer s cid ts).2 := by
  unfold EngineState.checkoutCustomer
  dsimp only
  split
  next => exact h
  next =>
    refine foldl_invariant _ snapshotsNonneg _ _ ?_ ?_
    · intro sn hm
      dsimp only at hm
      refine foldl_invariant _
        (fun acc : Int × List String × EngineState => snapshotsNonneg acc.2.2)
        _ _ h ?_ sn hm
      intro acc it hmem hacc
      dsimp only
      intro sn2 hm2
      dsimp only at hm2
      split at hm2
      next => exact snapInv_processPersonalizationSale _ _ _ _ hacc sn2 hm2
      next =>
        split at hm2
        next => exact snapInv_ingestSalesEvent _ _ hacc sn2 hm2
        next =>
          split at hm2
          next => exact snapInv_deductRFIDImmediate _ _ _ _ hacc sn2 hm2
          next => exact hacc sn2 hm2
    · intro st z hmem hst
      exact snapInv_calculateZoneInventory _ _ hst

theorem snapInv_applyTransferFromSource (s : EngineState) (a b k : String)
    (qty : Int) (h : snapshotsNonneg s) :
    snapshotsNonneg (EngineState.applyTransferFromSource s a b k qty).2 := by
  unfold EngineState.applyTransferFromSource
  dsimp only
  split
  next =>
    intro sn hm
    dsimp only at hm
    refine foldl_invariant _
      (fun st : EngineState => snapshotsNonneg st) _ _ h ?_ sn hm
    intro st epc hm2 hst
    dsimp only
    split
    next => exact hst
    next => exact hst
  next =>
    generalize hC : EngineState.getCurrentInventoryQty s a k
      InventorySource.NON_RFID = C
    exact snapInv_upsertSnapshot _ _ _ _ _ _ h (by omega)

theorem snapInv_confirmFallbackLoop (taskId dz k : String) (rq : Int) :
    ∀ (zs : List String) (tr : TransferResult) (st : EngineState),
    snapshotsNonneg st →
    snapshotsNonneg
      (EngineState.confirmFallbackLoop taskId dz k rq zs tr st).2 := by
  intro zs
  induction zs with
  | nil => intro tr st hst; exact hst
  | cons z rest ih =>
      intro tr st hst
      unfold EngineState.confirmFallbackLoop
      dsimp only
      split
      next => exact ih _ _ (snapInv_applyTransferFromSource _ _ _ _ _ hst)
      next => exact snapInv_applyTransferFromSource _ _ _ _ _ hst


theorem snapInv_confirmFirstAttempt (s0 : EngineState)
    (task : ReplenishmentTask) (taskId : String) (rq : Int)
    (szid : Option String) (h : snapshotsNonneg s0) :
    snapshotsNonneg
      (EngineState.confirmFirstAttempt s0 task taskId rq szid).2.1 := by
  unfold EngineState.confirmFirstAttempt
  dsimp only
  split
  next =>
    exact fun sn hm => snapInv_applyTransferFromSource _ _ _ _ _ h sn hm
  next => exact h

theorem snapInv_confirmFinish (s2 : EngineState) (task : ReplenishmentTask)
    (taskId : String) (payload : ConfirmPayload) (szid : Option String)
    (tr : TransferResult) (h2 : snapshotsNonneg s2) :
    snapshotsNonneg
      (EngineState.confirmFinish s2 task taskId payload szid tr).2 := by
  unfold EngineState.confirmFinish
  dsimp only
  repeat' split
  all_goals first
    | exact snapInv_calculateZoneInventory _ _
        (snapInv_calculateZoneInventory _ _
          (snapInv_of_eq (snapshots_closeReplenishmentTask _ _ _)
            (fun sn hm => h2 sn hm)))
    | exact snapInv_calculateZoneInventory _ _
        (snapInv_of_eq (snapshots_closeReplenishmentTask _ _ _)
          (fun sn hm => h2 sn hm))

theorem snapInv_confirmTask (s : EngineState) (taskId : String)
    (payload : ConfirmPayload) (h : snapshotsNonneg s) :
    snapshotsNonneg (EngineState.confirmTask s taskId payload).2 := by
  unfold EngineState.confirmTask
  dsimp only
  split
  next => exact h
  next task heq =>
    split
    next => exact h
    next =>
      repeat' split
      all_goals first
        | exact snapInv_confirmFinish _ _ _ _ _ _
            (snapInv_confirmFallbackLoop _ _ _ _ _ _ _
              (snapInv_confirmFirstAttempt _ _ _ _ _ (fun sn hm => h sn hm)))
        | exact snapInv_confirmFinish _ _ _ _ _ _
            (snapInv_confirmFirstAttempt _ _ _ _ _ (fun sn hm => h sn hm))
        | exact snapInv_confirmFallbackLoop _ _ _ _ _ _ _
            (snapInv_confirmFirstAttempt _ _ _ _ _ (fun sn hm => h sn hm))
        | exact snapInv_confirmFirstAttempt _ _ _ _ _ (fun sn hm => h sn hm)

theorem snapInv_recalculateZonesDependingOnSource (s : EngineState)
    (srcZone : String) (h : snapshotsNonneg s) :
    snapshotsNonneg
      (EngineState.recalculateZonesDependingOnSource s srcZone) := by
  unfold EngineState.recalculateZonesDependingOnSource
  refine foldl_invariant _ snapshotsNonneg _ _ h ?_
  intro st zone hmem hst
  dsimp only
  split
  next => exact hst
  next =>
    split
    next => exact hst
    next => exact snapInv_calculateZoneInventory _ _ hst

theorem snapInv_refreshOpenTaskSourceCandidates (s : EngineState)
    (h : snapshotsNonneg s) :
    snapshotsNonneg (EngineState.refreshOpenTaskSourceCandidates s) := by
  unfold EngineState.refreshOpenTaskSourceCandidates
  dsimp only
  refine foldl_invariant _ snapshotsNonneg _ _ h ?_
  intro st tid hmem hst
  dsimp only
  repeat' split
  all_goals exact hst

theorem snapInv_createReceivingOrder (s : EngineState)
    (payload : EngineState.CreateReceivingPayload) (h : snapshotsNonneg s) :
    snapshotsNonneg (EngineState.createReceivingOrder s payload).2 :=
  snapInv_of_eq (snapshots_createReceivingOrder s payload) h

theorem snapInv_recvPost (s2 : EngineState) (dz srcLoc : String) (b : Prop)
    [inst : Decidable b] (t : Timestamp) (h2 : snapshotsNonneg s2) :
    snapshotsNonneg (EngineState.autoAssignPendingReceivingOrders
      (EngineState.autoAssignPendingTasks
        (EngineState.refreshOpenTaskSourceCandidates
          (if b then
            EngineState.recalculateZonesDependingOnSource
              (EngineState.calculateZoneInventory
                (EngineState.recalculateZonesDependingOnSource
                  (EngineState.calculateZoneInventory s2 dz) dz) srcLoc) srcLoc
          else
            EngineState.recalculateZonesDependingOnSource
              (EngineState.calculateZoneInventory s2 dz) dz)) t) t) := by
  refine snapInv_of_eq (snapshots_autoAssignPendingReceivingOrders _ _) ?_
  refine snapInv_of_eq (snapshots_autoAssignPendingTasks _ _) ?_
  refine snapInv_refreshOpenTaskSourceCandidates _ ?_
  split
  next =>
    exact snapInv_recalculateZonesDependingOnSource _ _
      (snapInv_calculateZoneInventory _ _
        (snapInv_recalculateZonesDependingOnSource _ _
          (snapInv_calculateZoneInventory _ _ h2)))
  next =>
    exact snapInv_recalculateZonesDependingOnSource _ _
      (snapInv_calculateZoneInventory _ _ h2)

theorem snapInv_recvMoved (s0 : EngineState) (order : ReceivingOrder)
    (payload : ConfirmReceivingPayload) (h : snapshotsNonneg s0) :
    snapshotsNonneg (EngineState.recvMoved s0 order payload).2 := by
  unfold EngineState.recvMoved
  dsimp only
  repeat' split
  all_goals first
    | exact h
    | exact snapInv_of_eq
        (snapshots_createExternalRFIDForDestination _ _ _ _ _) h
    | exact snapInv_of_eq (snapshots_moveRFIDEpcs _ _ _ _ _ _) h
    | exact snapInv_upsertSnapshot _ _ _ _ _ _
        (snapInv_of_eq
          (snapshots_createExternalRFIDForDestination _ _ _ _ _) h)
        (add_nonneg
          (getCurrentInventoryQty_nonneg _ _ _ _
            (snapInv_of_eq
              (snapshots_createExternalRFIDForDestination _ _ _ _ _) h))
          (by omega))
    | exact snapInv_upsertSnapshot _ _ _ _ _ _
        (snapInv_upsertSnapshot _ _ _ _ _ _ h (by omega))
        (add_nonneg
          (getCurrentInventoryQty_nonneg _ _ _ _
            (snapInv_upsertSnapshot _ _ _ _ _ _ h (by omega)))
          (by omega))
    | exact snapInv_upsertSnapshot _ _ _ _ _ _ h
        (add_nonneg (getCurrentInventoryQty_nonneg _ _ _ _ h) (by omega))

theorem snapInv_recvFinish (s1 : EngineState) (order : ReceivingOrder)
    (orderId : String) (payload : ConfirmReceivingPayload) (mq : Int)
    (h1 : snapshotsNonneg s1) :
    snapshotsNonneg
      (EngineState.recvFinish s1 order orderId payload mq).2 := by
  unfold EngineState.recvFinish
  dsimp only
  refine snapInv_recvPost _ _ _ _ _ ?_
  exact fun sn hm => h1 sn hm

theorem snapInv_confirmReceivingOrder (s : EngineState) (orderId : String)
    (payload : ConfirmReceivingPayload) (h : snapshotsNonneg s) :
    snapshotsNonneg (EngineState.confirmReceivingOrder s orderId payload).2 := by
  unfold EngineState.confirmReceivingOrder
  dsimp only
  split
  next => exact h
  next order heq =>
    split
    next => exact h
    next =>
      split
      next => exact snapInv_recvMoved _ _ _ (fun sn hm => h sn hm)
      next =>
        exact snapInv_recvFinish _ _ _ _ _
          (snapInv_recvMoved _ _ _ (fun sn hm => h sn hm))

theorem snapshots_assignTask (s : EngineState) (taskId staffId : String)
    (at' : Timestamp) :
    (EngineState.assignTask s taskId staffId at').2.snapshots = s.snapshots := by
  unfold EngineState.assignTask
  dsimp only
  repeat' split
  all_goals rfl

theorem snapInv_assignTask (s : EngineState) (taskId staffId : String)
    (at' : Timestamp) (h : snapshotsNonneg s) :
    snapshotsNonneg (EngineState.assignTask s taskId staffId at').2 :=
  snapInv_of_eq (snapshots_assignTask s taskId staffId at') h

theorem snapshots_startTask (s : EngineState) (taskId staffId : String)
    (at' : Timestamp) :
    (EngineState.startTask s taskId staffId at').2.snapshots = s.snapshots := by
  unfold EngineState.startTask
  dsimp only
  repeat' split
  all_goals rfl

theorem snapInv_startTask (s : EngineState) (taskId staffId : String)
    (at' : Timestamp) (h : snapshotsNonneg s) :
    snapshotsNonneg (EngineState.startTask s taskId staffId at').2 :=
  snapInv_of_eq (snapshots_startTask s taskId staffId at') h

theorem snapInv_upsertRule (s : EngineState)
    (payload : EngineState.UpsertRulePayload) (h : snapshotsNonneg s) :
    snapshotsNonneg (EngineState.upsertRule s payload) := by
  unfold EngineState.upsertRule
  dsimp only
  split
  next => exact snapInv_calculateZoneInventory _ _ h
  next => exact snapInv_calculateZoneInventory _ _ h

theorem snapInv_deleteRule (s : EngineState) (ruleId : String)
    (h : snapshotsNonneg s) :
    snapshotsNonneg (EngineState.deleteRule s ruleId).2 := by
  unfold EngineState.deleteRule
  dsimp only
  split
  next => exact h
  next rule heq =>
    split
    next => exact h
    next =>
      refine snapInv_calculateZoneInventory _ _ ?_
      refine foldl_invariant _ snapshotsNonneg _ _ h ?_
      intro st tid hmem hst
      dsimp only
      repeat' split
      all_goals exact hst

set_option maxHeartbeats 1000000 in
theorem snapInv_updateLocation (s : EngineState)
    (payload : EngineState.UpdateLocationPayload) (h : snapshotsNonneg s) :
    snapshotsNonneg (EngineState.updateLocation s payload).2 := by
  unfold EngineState.updateLocation
  dsimp only
  split
  next => exact h
  next zone heq =>
    repeat' split
    all_goals first
      | exact snapInv_calculateZoneInventory _ _ h
      | (refine snapInv_calculateZoneInventory _ _ ?_
         refine foldl_invariant _ snapshotsNonneg _ _ h ?_
         intro st tid hmem hst
         dsimp only
         repeat' split
         all_goals exact hst)

theorem snapInv_createLocation (s : EngineState)
    (payload : EngineState.CreateLocationPayload) (h : snapshotsNonneg s) :
    snapshotsNonneg (EngineState.createLocation s payload).2 := by
  unfold EngineState.createLocation
  dsimp only
  repeat' split
  all_goals exact h

theorem snapInv_updateStaffShift (s : EngineState) (staffId : String)
    (activeShift : Bool) (h : snapshotsNonneg s) :
    snapshotsNonneg (EngineState.updateStaffShift s staffId activeShift).2 := by
  unfold EngineState.updateStaffShift
  dsimp only
  split
  next => exact h
  next =>
    refine snapInv_of_eq (snapshots_autoAssignPendingReceivingOrders _ _) ?_
    exact snapInv_of_eq (snapshots_autoAssignPendingTasks _ _) h

theorem snapInv_updateStaffScope (s : EngineState) (staffId : String)
    (scopeAllZones : Bool) (zoneIds : List String) (h : snapshotsNonneg s) :
    snapshotsNonneg
      (EngineState.updateStaffScope s staffId scopeAllZones zoneIds).2 := by
  unfold EngineState.updateStaffScope
  dsimp only
  split
  next => exact h
  next =>
    refine snapInv_of_eq (snapshots_autoAssignPendingReceivingOrders _ _) ?_
    exact snapInv_of_eq (snapshots_autoAssignPendingTasks _ _) h

/-- C10: snapshot quantities are never negative: every public command
preserves the invariant that all snapshot rows held by the engine have a
non-negative quantity, because every write path clamps with max(0, ...),
moves at most the currently available quantity, or adds a positive amount
to a quantity that the invariant keeps non-negative. -/
theorem c10_snapshots_nonneg (s : EngineState) (cmd : Command)
    (h : snapshotsNonneg s) : snapshotsNonneg (runCommand s cmd) := by
  cases cmd with
  | rfidRead e => exact snapInv_ingestRFIDRead _ _ h
  | zoneSweep z t => exact snapInv_forceZoneSweep _ _ _ h
  | zoneScan z t => exact snapInv_scanZone _ _ _ h
  | salesEvent e => exact snapInv_ingestSalesEvent _ _ h
  | customerUpsert i n => exact snapInv_upsertCustomer _ _ _ h
  | addItem p => exact snapInv_addCustomerItem _ _ h
  | removeItem b t => exact snapInv_removeCustomerItem _ _ _ h
  | checkout c t => exact snapInv_checkoutCustomer _ _ _ h
  | taskAssign a b c => exact snapInv_assignTask _ _ _ _ h
  | taskStart a b c => exact snapInv_startTask _ _ _ _ h
  | taskConfirm t p => exact snapInv_confirmTask _ _ _ h
  | recvCreate p => exact snapInv_createReceivingOrder _ _ h
  | recvConfirm o p => exact snapInv_confirmReceivingOrder _ _ _ h
  | ruleUpsert p => exact snapInv_upsertRule _ _ h
  | ruleDelete r => exact snapInv_deleteRule _ _ h
  | locationUpdate p => exact snapInv_updateLocation _ _ h
  | locationCreate p => exact snapInv_createLocation _ _ h
  | staffShift a b => exact snapInv_updateStaffShift _ _ _ h
  | staffScope a b c => exact snapInv_updateStaffScope _ _ _ _ h
  | tasksRead => exact snapInv_of_eq (snapshots_autoAssignPendingTasks _ _) h
  | receivingRead =>
      exact snapInv_of_eq (snapshots_autoAssignPendingReceivingOrders _ _) h

theorem c10_snapshots_nonneg_witness :
    snapshotsNonneg stockedCartEngine ∧
      snapshotsNonneg (runCommand stockedCartEngine
        (Command.salesEvent outOfOrderSale)) :=
  ⟨by unfold snapshotsNonneg; decide,
    c10_snapshots_nonneg _ _ (by unfold snapshotsNonneg; decide)⟩


/-! ## Claim C2 -/

theorem removeFirst_cons {α : Type _} (p : α → Bool) (a : α) (l : List α) :
    removeFirst p (a :: l) = if p a then l else a :: removeFirst p l := rfl

theorem updateFirst_cons {α : Type _} (p : α → Bool) (f : α → α) (a : α)
    (l : List α) :
    updateFirst p f (a :: l) = if p a then f a :: l else a :: updateFirst p f l :=
  rfl


theorem filter_count1_find {α : Type _} (p : α → Bool) (l : List α) (e : α)
    (hc : (l.filter p).length ≤ 1) (he : l.find? p = some e) :
    l.filter p = [e] := by
  induction l with
  | nil => cases he
  | cons a l ih =>
      by_cases hpa : p a = true
      · rw [List.find?_cons_of_pos _ hpa] at he
        obtain rfl := Option.some.inj he
        rw [List.filter_cons_of_pos hpa] at hc ⊢
        simp only [List.length_cons] at hc
        rw [show List.filter p l = [] from List.length_eq_zero.mp (by omega)]
      · rw [List.find?_cons_of_neg _ hpa] at he
        rw [List.filter_cons_of_neg hpa] at hc ⊢
        exact ih hc he

theorem filter_removeFirst_self {α : Type _} (p : α → Bool) (l : List α)
    (e : α) (hc : (l.filter p).length ≤ 1) (he : l.find? p = some e) :
    (removeFirst p l).filter p = [] := by
  induction l with
  | nil => cases he
  | cons a l ih =>
      by_cases hpa : p a = true
      · rw [show removeFirst p (a :: l) = l from by
            rw [removeFirst_cons, if_pos hpa]]
        rw [List.filter_cons_of_pos hpa] at hc
        simp only [List.length_cons] at hc
        exact List.length_eq_zero.mp (by omega)
      · rw [show removeFirst p (a :: l) = a :: removeFirst p l from by
            rw [removeFirst_cons, if_neg hpa]]
        rw [List.filter_cons_of_neg hpa]
        rw [List.find?_cons_of_neg _ hpa] at he
        rw [List.filter_cons_of_neg hpa] at hc
        exact ih hc he

theorem filter_updateFirst_self {α : Type _} (p : α → Bool) (f : α → α)
    (l : List α) (e : α) (hc : (l.filter p).length ≤ 1)
    (he : l.find? p = some e) (hf : ∀ x, p x = true → p (f x) = true) :
    (updateFirst p f l).filter p = [f e] := by
  induction l with
  | nil => cases he
  | cons a l ih =>
      by_cases hpa : p a = true
      · rw [List.find?_cons_of_pos _ hpa] at he
        obtain rfl := Option.some.inj he
        rw [show updateFirst p f (a :: l) = f a :: l from by
            rw [updateFirst_cons, if_pos hpa]]
        rw [List.filter_cons_of_pos (hf a hpa)]
        rw [List.filter_cons_of_pos hpa] at hc
        simp only [List.length_cons] at hc
        rw [show List.filter p l = [] from List.length_eq_zero.mp (by omega)]
      · rw [show updateFirst p f (a :: l) = a :: updateFirst p f l from by
            rw [updateFirst_cons, if_neg hpa]]
        rw [List.filter_cons_of_neg hpa]
        rw [List.find?_cons_of_neg _ hpa] at he
        rw [List.filter_cons_of_neg hpa] at hc
        exact ih hc he

theorem filter_removeFirst_disjoint {α : Type _} (p q : α → Bool)
    (l : List α) (hd : ∀ x, p x = true → q x = false) :
    (removeFirst p l).filter q = l.filter q := by
  induction l with
  | nil => rfl
  | cons a l ih =>
      by_cases hpa : p a = true
      · rw [show removeFirst p (a :: l) = l from by
            rw [removeFirst_cons, if_pos hpa]]
        rw [List.filter_cons_of_neg (by simp [hd a hpa])]
      · rw [show removeFirst p (a :: l) = a :: removeFirst p l from by
            rw [removeFirst_cons, if_neg hpa]]
        by_cases hqa : q a = true
        · rw [List.filter_cons_of_pos hqa, List.filter_cons_of_pos hqa, ih]
        · rw [List.filter_cons_of_neg hqa, List.filter_cons_of_neg hqa, ih]

theorem filter_updateFirst_disjoint {α : Type _} (p q : α → Bool) (f : α → α)
    (l : List α) (hd : ∀ x, p x = true → q x = false)
    (hdf : ∀ x, p x = true → q (f x) = false) :
    (updateFirst p f l).filter q = l.filter q := by
  induction l with
  | nil => rfl
  | cons a l ih =>
      by_cases hpa : p a = true
      · rw [show updateFirst p f (a :: l) = f a :: l from by
            rw [updateFirst_cons, if_pos hpa]]
        rw [List.filter_cons_of_neg (by simp [hdf a hpa]),
          List.filter_cons_of_neg (by simp [hd a hpa])]
      · rw [show updateFirst p f (a :: l) = a :: updateFirst p f l from by
            rw [updateFirst_cons, if_neg hpa]]
        by_cases hqa : q a = true
        · rw [List.filter_cons_of_pos hqa, List.filter_cons_of_pos hqa, ih]
        · rw [List.filter_cons_of_neg hqa, List.filter_cons_of_neg hqa, ih]

theorem length_filter_removeFirst_le {α : Type _} (p q : α → Bool)
    (l : List α) :
    ((removeFirst p l).filter q).length ≤ (l.filter q).length := by
  induction l with
  | nil => exact le_refl _
  | cons a l ih =>
      by_cases hpa : p a = true
      · rw [show removeFirst p (a :: l) = l from by
            rw [removeFirst_cons, if_pos hpa]]
        by_cases hqa : q a = true
        · rw [List.filter_cons_of_pos hqa]
          exact Nat.le_succ_of_le (le_refl _)
        · rw [List.filter_cons_of_neg hqa]
      · rw [show removeFirst p (a :: l) = a :: removeFirst p l from by
            rw [removeFirst_cons, if_neg hpa]]
        by_cases hqa : q a = true
        · rw [List.filter_cons_of_pos hqa, List.filter_cons_of_pos hqa]
          exact Nat.succ_le_succ ih
        · rw [List.filter_cons_of_neg hqa, List.filter_cons_of_neg hqa]
          exact ih

theorem view_eq_of_filter_nil (s : EngineState) (zoneId skuId : String)
    (source : InventorySource)
    (h : s.snapshots.filter (EngineState.snapKey zoneId skuId source) = []) :
    EngineState.getCurrentInventoryQty s zoneId skuId source = 0 := by
  unfold EngineState.getCurrentInventoryQty
  dsimp only
  have h' : s.snapshots.filter (fun sn =>
      decide (sn.zoneId = zoneId ∧ sn.skuId = skuId ∧ sn.source = source)) =
      [] := h
  rw [h']
  rfl

theorem view_eq_of_filter_singleton (s : EngineState) (zoneId skuId : String)
    (source : InventorySource) (e : InventorySnapshotByZone)
    (h : s.snapshots.filter (EngineState.snapKey zoneId skuId source) = [e]) :
    EngineState.getCurrentInventoryQty s zoneId skuId source = e.qty := by
  unfold EngineState.getCurrentInventoryQty
  dsimp only
  have h' : s.snapshots.filter (fun sn =>
      decide (sn.zoneId = zoneId ∧ sn.skuId = skuId ∧ sn.source = source)) =
      [e] := h
  rw [h']
  rfl

theorem view_eq_of_filter_singleton_q (s : EngineState)
    (zoneId skuId : String) (source : InventorySource)
    (e : InventorySnapshotByZone) (qv : Int)
    (h : s.snapshots.filter (EngineState.snapKey zoneId skuId source) = [e])
    (hqv : e.qty = qv) :
    EngineState.getCurrentInventoryQty s zoneId skuId source = qv :=
  (view_eq_of_filter_singleton s zoneId skuId source e h).trans hqv

theorem view_congr_filter (a b : EngineState) (zoneId skuId : String)
    (source : InventorySource)
    (h : a.snapshots.filter (EngineState.snapKey zoneId skuId source) =
      b.snapshots.filter (EngineState.snapKey zoneId skuId source)) :
    EngineState.getCurrentInventoryQty a zoneId skuId source =
      EngineState.getCurrentInventoryQty b zoneId skuId source := by
  unfold EngineState.getCurrentInventoryQty
  dsimp only
  have h' : a.snapshots.filter (fun sn =>
      decide (sn.zoneId = zoneId ∧ sn.skuId = skuId ∧ sn.source = source)) =
      b.snapshots.filter (fun sn =>
        decide (sn.zoneId = zoneId ∧ sn.skuId = skuId ∧ sn.source = source)) :=
    h
  rw [h']

theorem snapKey_disjoint (z k : String) (src : InventorySource)
    (z' k' : String) (src' : InventorySource)
    (hne : ¬(z = z' ∧ k = k' ∧ src = src')) :
    ∀ sn, EngineState.snapKey z k src sn = true →
      EngineState.snapKey z' k' src' sn = false := by
  intro sn h
  unfold EngineState.snapKey at h ⊢
  simp only [decide_eq_true_eq] at h
  simp only [decide_eq_false_iff_not]
  rintro ⟨e1, e2, e3⟩
  exact hne ⟨h.1.symm.trans e1, h.2.1.symm.trans e2, h.2.2.symm.trans e3⟩

theorem dry_upsert_view (st : EngineState) (z k : String)
    (src : InventorySource) (conf : Option Rat) (q : Int)
    (hq : q = EngineState.getCurrentInventoryQty st z k src)
    (hc : snapKeyCount1 st) (hnn : snapshotsNonneg st)
    (z' k' : String) (src' : InventorySource) :
    EngineState.getCurrentInventoryQty
        (EngineState.upsertSnapshot st z k q src conf) z' k' src' =
      EngineState.getCurrentInventoryQty st z' k' src' := by
  by_cases hkey : z = z' ∧ k = k' ∧ src = src'
  · obtain ⟨rfl, rfl, rfl⟩ := hkey
    unfold EngineState.upsertSnapshot
    dsimp only
    split
    next hca =>
      have hv0 : EngineState.getCurrentInventoryQty st z k src = 0 := by
        have hge := getCurrentInventoryQty_nonneg st z k src hnn
        omega
      split
      next e heq =>
        rw [view_eq_of_filter_nil _ _ _ _
          (filter_removeFirst_self _ _ _ (hc z k src) heq), hv0]
      next heq => rfl
    next hca =>
      split
      next heq =>
        have hnil : st.snapshots.filter (EngineState.snapKey z k src) = [] := by
          rw [List.filter_eq_nil]
          intro a ha hpa
          exact (List.find?_eq_none.mp heq a ha) hpa
        refine view_eq_of_filter_singleton_q _ _ _ _
          ⟨"snap-" ++ z ++ "-" ++ k ++ "-" ++ sourceTag src, z, k, q, src,
            conf, st.nowCursor, 1⟩ _ ?_ hq
        dsimp only
        rw [List.filter_append, hnil, List.nil_append,
          List.filter_cons_of_pos (by simp [EngineState.snapKey]),
          List.filter_nil]
      next e heq =>
        refine view_eq_of_filter_singleton_q _ _ _ _
          { e with
            qty := q
            lastCalculatedAt := st.nowCursor
            version := e.version + 1
            confidence := (match conf with
              | some c => some c
              | none => e.confidence) } _ ?_ hq
        dsimp only
        exact filter_updateFirst_self _ _ _ _ (hc z k src) heq
          (fun x hx => by exact hx)
  · have hd := snapKey_disjoint z k src z' k' src' hkey
    unfold EngineState.upsertSnapshot
    dsimp only
    split
    next hca =>
      split
      next e heq =>
        refine view_congr_filter _ _ _ _ _ ?_
        dsimp only
        exact filter_removeFirst_disjoint _ _ _ hd
      next heq => rfl
    next hca =>
      split
      next heq =>
        refine view_congr_filter _ _ _ _ _ ?_
        dsimp only
        rw [List.filter_append,
          List.filter_cons_of_neg
            (by
            have hfa := hd
              ⟨"snap-" ++ z ++ "-" ++ k ++ "-" ++ sourceTag src, z, k, q,
                src, conf, st.nowCursor, 1⟩ (by simp [EngineState.snapKey])
            simp [hfa]),
          List.filter_nil, List.append_nil]
      next e heq =>
        refine view_congr_filter _ _ _ _ _ ?_
        dsimp only
        exact filter_updateFirst_disjoint _ _ _ _ hd (fun x hx => hd _ hx)

theorem dry_upsert_count1 (st : EngineState) (z k : String)
    (src : InventorySource) (conf : Option Rat) (q : Int)
    (hc : snapKeyCount1 st) :
    snapKeyCount1 (EngineState.upsertSnapshot st z k q src conf) := by
  intro z' k' src'
  by_cases hkey : z = z' ∧ k = k' ∧ src = src'
  · obtain ⟨rfl, rfl, rfl⟩ := hkey
    unfold EngineState.upsertSnapshot
    dsimp only
    split
    next hca =>
      split
      next e heq =>
        dsimp only
        exact le_trans (length_filter_removeFirst_le _ _ _) (hc z k src)
      next heq => exact hc z k src
    next hca =>
      split
      next heq =>
        dsimp only
        have hnil : st.snapshots.filter (EngineState.snapKey z k src) = [] := by
          rw [List.filter_eq_nil]
          intro a ha hpa
          exact (List.find?_eq_none.mp heq a ha) hpa
        rw [List.filter_append, hnil, List.nil_append,
          List.filter_cons_of_pos (by simp [EngineState.snapKey]),
          List.filter_nil]
        simp
      next e heq =>
        dsimp only
        exact le_trans (le_of_eq (congrArg List.length
          (filter_updateFirst_self _ _ _ _ (hc z k src) heq
            (fun x hx => by exact hx)))) (by simp)
  · have hd := snapKey_disjoint z k src z' k' src' hkey
    unfold EngineState.upsertSnapshot
    dsimp only
    split
    next hca =>
      split
      next e heq =>
        dsimp only
        rw [filter_removeFirst_disjoint _ _ _ hd]
        exact hc z' k' src'
      next heq => exact hc z' k' src'
    next hca =>
      split
      next heq =>
        dsimp only
        rw [List.filter_append,
          List.filter_cons_of_neg
            (by
            have hfa := hd
              ⟨"snap-" ++ z ++ "-" ++ k ++ "-" ++ sourceTag src, z, k, q,
                src, conf, st.nowCursor, 1⟩ (by simp [EngineState.snapKey])
            simp [hfa]),
          List.filter_nil, List.append_nil]
        exact hc z' k' src'
      next e heq =>
        dsimp only
        rw [filter_updateFirst_disjoint _ _ _ _ hd (fun x hx => by exact hd _ hx)]
        exact hc z' k' src'


theorem tasks_upsertSnapshot (s : EngineState) (zoneId skuId : String)
    (qty : Int) (source : InventorySource) (confidence : Option Rat) :
    (EngineState.upsertSnapshot s zoneId skuId qty source confidence).tasks =
      s.tasks := by
  unfold EngineState.upsertSnapshot
  dsimp only
  repeat' split
  all_goals rfl

theorem getPresentEPCs_ext (a b : EngineState)
    (h1 : a.epcPresence = b.epcPresence) (h2 : a.nowCursor = b.nowCursor)
    (zoneId skuId : String) :
    EngineState.getPresentEPCs a zoneId skuId =
      EngineState.getPresentEPCs b zoneId skuId := by
  unfold EngineState.getPresentEPCs
  rw [h1, h2]

theorem skuSourceOf_congr (a b : EngineState)
    (h : a.skuSourceById = b.skuSourceById) (k : String) :
    EngineState.skuSourceOf a k = EngineState.skuSourceOf b k := by
  unfold EngineState.skuSourceOf
  rw [h]

theorem dryAttempt_step (s : EngineState) (c : Timestamp) (K : String)
    (R : Int)
    (hzero : ∀ z, match EngineState.skuSourceOf s K with
      | InventorySource.RFID =>
          EngineState.getPresentEPCs { s with nowCursor := c } z K = []
      | InventorySource.NON_RFID =>
          EngineState.getCurrentInventoryQty s z K
            InventorySource.NON_RFID ≤ 0)
    (st : EngineState) (hW : dryFrame s c st) (z dz : String) :
    (EngineState.applyTransferFromSource st z dz K R).1.movedQty ≤ 0 ∧
    (EngineState.applyTransferFromSource st z dz K R).2.tasks = st.tasks ∧
    dryFrame s c (EngineState.applyTransferFromSource st z dz K R).2 := by
  obtain ⟨hcur, hpres, hsku, hzn, hrf, hse, hview, hc1, hnn⟩ := hW
  have hsk : EngineState.skuSourceOf st K = EngineState.skuSourceOf s K :=
    skuSourceOf_congr st s hsku K
  unfold EngineState.applyTransferFromSource
  dsimp only
  cases hsv : EngineState.skuSourceOf s K with
  | RFID =>
      have hz := hzero z
      rw [hsv] at hz
      rw [hsk, hsv, if_pos rfl]
      have hpe : EngineState.getPresentEPCs st z K = [] :=
        (getPresentEPCs_ext st { s with nowCursor := c } hpres hcur z K).trans
          hz
      rw [hpe]
      have hslice : EngineState.jsSliceTo R ([] : List String) = [] := by
        unfold EngineState.jsSliceTo
        exact List.take_nil
      rw [hslice]
      refine ⟨le_refl _, rfl, hcur, hpres, hsku, hzn, ?_, hse, hview, hc1, hnn⟩
      show st.rfidEvents ++ [] = s.rfidEvents
      rw [List.append_nil]
      exact hrf
  | NON_RFID =>
      have hz := hzero z
      rw [hsv] at hz
      rw [hsk, hsv, if_neg (by decide)]
      have hcz : EngineState.getCurrentInventoryQty st z K
          InventorySource.NON_RFID = 0 := by
        have h1 := hview z K InventorySource.NON_RFID
        have h2 := getCurrentInventoryQty_nonneg st z K
          InventorySource.NON_RFID hnn
        omega
      refine ⟨?_, ?_, ?_, ?_, ?_, ?_, ?_, ?_, ?_, ?_, ?_⟩
      · show min (max 0 R) (EngineState.getCurrentInventoryQty st z K
          InventorySource.NON_RFID) ≤ 0
        omega
      · exact tasks_upsertSnapshot _ _ _ _ _ _
      · rw [EngineState.nowCursor_upsertSnapshot]
        exact hcur
      · exact (congrArg FrameNS.epcPresence
          (EngineState.frameNSOf_upsertSnapshot _ _ _ _ _ _)).trans hpres
      · exact (congrArg FrameNS.skuSourceById
          (EngineState.frameNSOf_upsertSnapshot _ _ _ _ _ _)).trans hsku
      · exact (congrArg FrameNS.zones
          (EngineState.frameNSOf_upsertSnapshot _ _ _ _ _ _)).trans hzn
      · exact (congrArg FrameNS.rfidEvents
          (EngineState.frameNSOf_upsertSnapshot _ _ _ _ _ _)).trans hrf
      · exact (congrArg FrameNS.salesEvents
          (EngineState.frameNSOf_upsertSnapshot _ _ _ _ _ _)).trans hse
      · intro z' k' src'
        exact (dry_upsert_view st z K InventorySource.NON_RFID none _
          (by omega) hc1 hnn z' k' src').trans (hview z' k' src')
      · exact dry_upsert_count1 _ _ _ _ _ _ hc1
      · exact snapInv_upsertSnapshot _ _ _ _ _ _ hnn (by omega)

theorem dryLoop (s : EngineState) (c : Timestamp) (K : String) (R : Int)
    (taskId dz : String)
    (hzero : ∀ z, match EngineState.skuSourceOf s K with
      | InventorySource.RFID =>
          EngineState.getPresentEPCs { s with nowCursor := c } z K = []
      | InventorySource.NON_RFID =>
          EngineState.getCurrentInventoryQty s z K
            InventorySource.NON_RFID ≤ 0) :
    ∀ (zs : List String) (tr : TransferResult) (st : EngineState),
      dryFrame s c st →
      (EngineState.confirmFallbackLoop taskId dz K R zs tr st).1 = tr ∧
      (EngineState.confirmFallbackLoop taskId dz K R zs tr st).2.tasks =
        st.tasks ∧
      dryFrame s c (EngineState.confirmFallbackLoop taskId dz K R zs tr st).2 := by
  intro zs
  induction zs with
  | nil => intro tr st hW; exact ⟨rfl, rfl, hW⟩
  | cons z rest ih =>
      intro tr st hW
      obtain ⟨hm0, ht0, hW1⟩ := dryAttempt_step s c K R hzero st hW z dz
      unfold EngineState.confirmFallbackLoop
      dsimp only
      split
      next hcond =>
        obtain ⟨h1, h2, h3⟩ := ih tr _ hW1
        exact ⟨h1, h2.trans ht0, h3⟩
      next hcond => exact absurd hm0 hcond


/-- C2 counterexample: confirming the dry IN_PROGRESS task returns null, yet
the engine state is not left unchanged: the cursor moves to the confirmation
instant and the snapshot store gains a zero-quantity row written by the
failed transfer attempt. -/
theorem c2_dry_confirm_counterexample :
    (EngineState.confirmTask dryConfirmEngine "task-1" dryConfirmPayload).1 =
        none ∧
    (EngineState.confirmTask dryConfirmEngine "task-1"
        dryConfirmPayload).2.nowCursor ≠ dryConfirmEngine.nowCursor ∧
    (EngineState.confirmTask dryConfirmEngine "task-1"
        dryConfirmPayload).2.snapshots ≠ dryConfirmEngine.snapshots := by
  decide

/-- C2 (amended): when the task exists, is IN_PROGRESS, resolves a source
zone, and the chosen source as well as every fallback can move nothing (no
present EPCs for an RFID SKU, no positive NON_RFID stock anywhere), then
`confirmTask` returns null; the task list is only re-stamped with the chosen
source zone (status still IN_PROGRESS), and while the snapshot rows are
rewritten (new versions, possibly new zero rows), every per-key quantity
view is unchanged; presence, both event logs are untouched; the cursor
however is set to the confirmation instant, not left unchanged. -/
theorem c2_dry_confirm (s : EngineState) (taskId : String)
    (payload : ConfirmPayload) (task : ReplenishmentTask) (z0 : String)
    (hfind : s.tasks.find? (fun t => decide (t.id = taskId)) = some task)
    (hstat : task.status = TaskStatus.IN_PROGRESS)
    (hchoose : (match payload.sourceZoneId with
      | some z => some z
      | none => task.sourceZoneId) = some z0)
    (hzero : ∀ z, match EngineState.skuSourceOf s task.skuId with
      | InventorySource.RFID =>
          EngineState.getPresentEPCs
            { s with nowCursor := payload.confirmedAt } z task.skuId = []
      | InventorySource.NON_RFID =>
          EngineState.getCurrentInventoryQty s z task.skuId
            InventorySource.NON_RFID ≤ 0)
    (hc : snapKeyCount1 s) (hnn : snapshotsNonneg s) :
    (EngineState.confirmTask s taskId payload).1 = none ∧
    (EngineState.confirmTask s taskId payload).2.nowCursor =
      payload.confirmedAt ∧
    (EngineState.confirmTask s taskId payload).2.epcPresence =
      s.epcPresence ∧
    (EngineState.confirmTask s taskId payload).2.rfidEvents = s.rfidEvents ∧
    (EngineState.confirmTask s taskId payload).2.salesEvents =
      s.salesEvents ∧
    (EngineState.confirmTask s taskId payload).2.tasks =
      updateFirst (fun t => decide (t.id = taskId))
        (fun t => { t with sourceZoneId := some z0 }) s.tasks ∧
    (∀ z' k' src',
      EngineState.getCurrentInventoryQty
          (EngineState.confirmTask s taskId payload).2 z' k' src' =
        EngineState.getCurrentInventoryQty s z' k' src') := by
  unfold EngineState.confirmTask
  dsimp only
  rw [hfind]
  dsimp only
  split
  next hst => exact absurd hstat hst
  next hst =>
    rw [hchoose]
    unfold EngineState.confirmFirstAttempt
    dsimp only
    have hW0 : dryFrame s payload.confirmedAt
        { s with nowCursor := payload.confirmedAt } :=
      ⟨rfl, rfl, rfl, rfl, rfl, rfl, fun _ _ _ => rfl, hc, hnn⟩
    obtain ⟨hm0, ht0, hW1⟩ := dryAttempt_step s payload.confirmedAt
      task.skuId (max 0 payload.confirmedQty) hzero _ hW0 z0 task.zoneId
    generalize hA : EngineState.applyTransferFromSource
      { s with nowCursor := payload.confirmedAt } z0 task.zoneId task.skuId
      (max 0 payload.confirmedQty) = A
    rw [hA] at hm0 ht0 hW1
    rw [if_pos hm0]
    generalize hB : ({ A.2 with
      tasks := updateFirst (fun t => decide (t.id = taskId))
        (fun t => { t with sourceZoneId := some z0 }) A.2.tasks } :
      EngineState) = B
    have hBt : B.tasks = updateFirst (fun t => decide (t.id = taskId))
        (fun t => { t with sourceZoneId := some z0 }) A.2.tasks := by
      rw [← hB]
    have hW1' : dryFrame s payload.confirmedAt B :=
      hB ▸ (show dryFrame s payload.confirmedAt
        ({ A.2 with
          tasks := updateFirst (fun t => decide (t.id = taskId))
            (fun t => { t with sourceZoneId := some z0 }) A.2.tasks } :
          EngineState) from hW1)
    obtain ⟨hl1, hl2, hWL⟩ := dryLoop s payload.confirmedAt task.skuId
      (max 0 payload.confirmedQty) taskId task.zoneId hzero
      (EngineState.getFallbackSourceZoneIds B task [z0]) A.1 B hW1'
    obtain ⟨hWc, hWp, hWsku, hWz, hWr, hWse, hWv, hWc1, hWnn⟩ := hWL
    rw [hl1, if_pos hm0]
    refine ⟨rfl, hWc, hWp, hWr, hWse, ?_, hWv⟩
    rw [hl2, hBt]
    exact congrArg (updateFirst (fun t => decide (t.id = taskId))
      (fun t => { t with sourceZoneId := some z0 })) ht0

theorem c2_dry_confirm_witness :
    (EngineState.confirmTask dryConfirmEngine "task-1" dryConfirmPayload).1 =
        none ∧
      (EngineState.confirmTask dryConfirmEngine "task-1"
        dryConfirmPayload).2.nowCursor = dryConfirmPayload.confirmedAt := by
  obtain ⟨h1, h2, h3, h4, h5, h6, h7⟩ :=
    c2_dry_confirm dryConfirmEngine "task-1" dryConfirmPayload dryTask
      "zone-w" (by decide) rfl rfl
      (fun z => le_of_eq (view_eq_of_filter_nil _ _ _ _ rfl))
      (fun _ _ _ => Nat.zero_le 1)
      (by unfold snapshotsNonneg; decide)
  exact ⟨h1, h2⟩


/-! ## Claim C4 -/

theorem ruleOpenDeficitSum_eq (s : EngineState) (rid : String) :
    ruleOpenDeficitSum s rid = openDeficitSumL s.tasks rid := rfl

/-! ### Injectivity of the auto-generated task identifiers -/

theorem toDigitsCore_append :
    ∀ fuel n ds, Nat.toDigitsCore 10 fuel n ds = Nat.toDigitsCore 10 fuel n [] ++ ds := by
  intro fuel
  induction fuel with
  | zero => intro n ds; simp [Nat.toDigitsCore]
  | succ f ih =>
    intro n ds
    simp only [Nat.toDigitsCore]
    by_cases h : n / 10 = 0
    · simp [h]
    · simp only [h, if_neg h]
      rw [ih (n / 10) [Nat.digitChar (n % 10)], ih (n / 10) (Nat.digitChar (n % 10) :: ds)]
      simp

theorem valDigit_digitChar : ∀ m : Nat, m < 10 → valDigit (Nat.digitChar m) = m := by
  intro m hm
  interval_cases m <;> decide

theorem valD_append_digit (xs : List Char) (c : Char) :
    valD (xs ++ [c]) = 10 * valD xs + valDigit c := by
  unfold valD
  rw [List.foldl_append]
  rfl

theorem valD_toDigitsCore : ∀ n fuel, n < fuel → valD (Nat.toDigitsCore 10 fuel n []) = n := by
  intro n
  induction n using Nat.strong_induction_on with
  | _ n ih =>
    intro fuel hf
    match fuel, hf with
    | f + 1, hf =>
      simp only [Nat.toDigitsCore]
      by_cases h : n / 10 = 0
      · simp only [h, if_pos]
        show valD [Nat.digitChar (n % 10)] = n
        unfold valD
        simp [List.foldl]
        rw [valDigit_digitChar (n % 10) (Nat.mod_lt _ (by omega))]
        omega
      · simp only [if_neg h]
        rw [toDigitsCore_append, valD_append_digit]
        have h1 : n / 10 < n := Nat.div_lt_self (by omega) (by omega)
        have h2 : n / 10 < f := by omega
        rw [ih (n / 10) h1 f h2]
        rw [valDigit_digitChar (n % 10) (Nat.mod_lt _ (by omega))]
        omega

theorem toDigits_inj (m n : Nat) (h : Nat.toDigits 10 m = Nat.toDigits 10 n) : m = n := by
  have hm := valD_toDigitsCore m (m + 1) (Nat.lt_succ_self m)
  have hn := valD_toDigitsCore n (n + 1) (Nat.lt_succ_self n)
  unfold Nat.toDigits at h
  rw [h] at hm
  omega

theorem toString_nat_data (n : Nat) : (toString n).data = Nat.toDigits 10 n := rfl

theorem taskId_inj (m n : Nat) (h : "task-" ++ toString m = "task-" ++ toString n) : m = n := by
  have hd := congrArg String.data h
  rw [String.data_append, String.data_append] at hd
  have hd2 := List.append_cancel_left hd
  rw [toString_nat_data, toString_nat_data] at hd2
  exact toDigits_inj m n hd2

/-! ### The auto-assigner relation `taskR` and its transport lemmas -/

theorem taskR_refl (t : ReplenishmentTask) : taskR t t := ⟨rfl, rfl, rfl, rfl⟩

theorem forall2_taskR_refl (l : List ReplenishmentTask) :
    List.Forall₂ taskR l l := by
  induction l with
  | nil => exact List.Forall₂.nil
  | cons a l ih => exact List.Forall₂.cons (taskR_refl a) ih

theorem taskR_trans {a b c : ReplenishmentTask} (h1 : taskR a b)
    (h2 : taskR b c) : taskR a c :=
  ⟨h2.1.trans h1.1, h2.2.1.trans h1.2.1, h2.2.2.1.trans h1.2.2.1,
    h2.2.2.2.trans h1.2.2.2⟩

theorem forall2_taskR_trans :
    ∀ {a b c : List ReplenishmentTask}, List.Forall₂ taskR a b →
      List.Forall₂ taskR b c → List.Forall₂ taskR a c := by
  intro a b c h1
  induction h1 generalizing c with
  | nil => intro h2; cases h2; exact List.Forall₂.nil
  | cons hR hrest ih =>
      intro h2
      cases h2 with
      | cons hR2 hrest2 =>
          exact List.Forall₂.cons (taskR_trans hR hR2) (ih hrest2)

theorem forall2_mem_right :
    ∀ {l l' : List ReplenishmentTask}, List.Forall₂ taskR l l' →
      ∀ e ∈ l', ∃ x ∈ l, taskR x e := by
  intro l l' h
  induction h with
  | nil => intro e he; cases he
  | cons hR hrest ih =>
      intro e he
      rcases List.mem_cons.mp he with rfl | he
      · exact ⟨_, List.mem_cons_self _ _, hR⟩
      · obtain ⟨x, hx, hRx⟩ := ih e he
        exact ⟨x, List.mem_cons_of_mem _ hx, hRx⟩

theorem wTask_of_taskR (rid : String) {t t' : ReplenishmentTask}
    (h : taskR t t') : wTask rid t' = wTask rid t := by
  unfold wTask
  rw [h.2.1, h.2.2.1, h.2.2.2]

theorem openDeficitSumL_forall2 (rid : String)
    {l l' : List ReplenishmentTask} (h : List.Forall₂ taskR l l') :
    openDeficitSumL l' rid = openDeficitSumL l rid := by
  induction h with
  | nil => rfl
  | @cons a b as bs hR hrest ih =>
      unfold openDeficitSumL at ih ⊢
      have hpred : (decide (b.ruleId = rid) && taskIsOpen b.status) =
          (decide (a.ruleId = rid) && taskIsOpen a.status) := by
        rw [hR.2.1, hR.2.2.2]
      rw [List.filter_cons, List.filter_cons]
      rw [hpred]
      by_cases hp : (decide (a.ruleId = rid) && taskIsOpen a.status) = true
      · rw [if_pos hp, if_pos hp]
        simp only [List.map_cons, List.sum_cons]
        rw [ih, hR.2.2.1]
      · rw [if_neg hp, if_neg hp]
        exact ih

theorem openDeficitSumL_append (l : List ReplenishmentTask)
    (t : ReplenishmentTask) (rid : String) :
    openDeficitSumL (l ++ [t]) rid = openDeficitSumL l rid + wTask rid t := by
  unfold openDeficitSumL wTask
  rw [List.filter_append, List.map_append, List.sum_append]
  by_cases hp : (decide (t.ruleId = rid) && taskIsOpen t.status) = true
  · rw [if_pos hp]
    simp [List.filter_cons, hp]
  · rw [if_neg hp]
    simp [List.filter_cons, hp]

theorem updateFirst_forall2_of (p : ReplenishmentTask → Bool)
    (f : ReplenishmentTask → ReplenishmentTask)
    (l : List ReplenishmentTask)
    (hcond : ∀ e ∈ l, p e = true → taskR e (f e)) :
    List.Forall₂ taskR l (updateFirst p f l) := by
  induction l with
  | nil => exact List.Forall₂.nil
  | cons a l ih =>
      unfold updateFirst
      by_cases hpa : p a = true
      · rw [if_pos hpa]
        exact List.Forall₂.cons (hcond a (List.mem_cons_self _ _) hpa)
          (forall2_taskR_refl l)
      · rw [if_neg hpa]
        exact List.Forall₂.cons (taskR_refl a)
          (ih (fun e he hpe => hcond e (List.mem_cons_of_mem _ he) hpe))

/-! ### Generic list lemmas for the task store -/

theorem openDeficitSumL_cons (a : ReplenishmentTask) (l : List ReplenishmentTask)
    (rid : String) :
    openDeficitSumL (a :: l) rid = wTask rid a + openDeficitSumL l rid := by
  unfold openDeficitSumL wTask
  rw [List.filter_cons]
  by_cases hp : (decide (a.ruleId = rid) && taskIsOpen a.status) = true
  · rw [if_pos hp, if_pos hp]
    simp
  · rw [if_neg hp, if_neg hp]
    simp

theorem foldl_add_deficit (l : List ReplenishmentTask) :
    ∀ a : Int, l.foldl (fun sum t => sum + t.deficitQty) a =
      a + (l.map (fun t => t.deficitQty)).sum := by
  induction l with
  | nil => intro a; simp
  | cons x xs ih =>
      intro a
      simp only [List.foldl, List.map_cons, List.sum_cons]
      rw [ih (a + x.deficitQty)]
      ring

theorem foldl_max0_nonneg (l : List ReplenishmentTask) :
    ∀ a : Int, 0 ≤ a → 0 ≤ l.foldl (fun sum t => sum + max 0 t.deficitQty) a := by
  induction l with
  | nil => intro a ha; exact ha
  | cons x xs ih =>
      intro a ha
      exact ih (a + max 0 x.deficitQty) (by positivity)

theorem updateFirst_length {α : Type _} (p : α → Bool) (f : α → α) :
    ∀ l : List α, (updateFirst p f l).length = l.length := by
  intro l
  induction l with
  | nil => rfl
  | cons a l ih =>
      unfold updateFirst
      by_cases hp : p a
      · rw [if_pos hp]; rfl
      · rw [if_neg hp]
        simp only [List.length_cons, ih]

theorem updateFirst_map_id (p : ReplenishmentTask → Bool)
    (f : ReplenishmentTask → ReplenishmentTask) :
    ∀ l : List ReplenishmentTask, (∀ e ∈ l, p e = true → (f e).id = e.id) →
      (updateFirst p f l).map (fun t => t.id) = l.map (fun t => t.id) := by
  intro l
  induction l with
  | nil => intro _; rfl
  | cons a l ih =>
      intro h
      unfold updateFirst
      by_cases hp : p a
      · rw [if_pos hp]
        simp only [List.map_cons]
        rw [h a (List.mem_cons_self _ _) hp]
      · rw [if_neg hp]
        simp only [List.map_cons]
        rw [ih (fun e he hpe => h e (List.mem_cons_of_mem _ he) hpe)]

theorem updateFirst_mem_hit {α : Type _} (p : α → Bool) (f : α → α) :
    ∀ l : List α, ∀ y ∈ updateFirst p f l,
      y ∈ l ∨ ∃ x ∈ l, p x = true ∧ y = f x := by
  intro l
  induction l with
  | nil => intro y hy; cases hy
  | cons x xs ih =>
      intro y hy
      by_cases hx : p x
      · rw [updateFirst, if_pos hx] at hy
        rcases List.mem_cons.mp hy with hy | hy
        · exact Or.inr ⟨x, List.mem_cons_self _ _, hx, hy⟩
        · exact Or.inl (List.mem_cons_of_mem _ hy)
      · rw [updateFirst, if_neg hx] at hy
        rcases List.mem_cons.mp hy with hy | hy
        · exact Or.inl (hy ▸ List.mem_cons_self _ _)
        · rcases ih y hy with h | ⟨x', hx', hpx', hfx⟩
          · exact Or.inl (List.mem_cons_of_mem _ h)
          · exact Or.inr ⟨x', List.mem_cons_of_mem _ hx', hpx', hfx⟩

theorem find?_updateFirst_ne (tid tid' : String) (hne : ¬ tid' = tid)
    (f : ReplenishmentTask → ReplenishmentTask)
    (hfid : ∀ e, (f e).id = e.id) :
    ∀ l : List ReplenishmentTask,
      (updateFirst (fun t => decide (t.id = tid)) f l).find?
          (fun t => decide (t.id = tid')) =
        l.find? (fun t => decide (t.id = tid')) := by
  intro l
  induction l with
  | nil => rfl
  | cons a l ih =>
      unfold updateFirst
      by_cases hp : (decide (a.id = tid)) = true
      · rw [if_pos hp]
        have haid : a.id = tid := of_decide_eq_true hp
        have h1 : (decide ((f a).id = tid')) = false := by
          apply decide_eq_false
          rw [hfid a, haid]
          exact fun hc => hne hc.symm
        have h2 : (decide (a.id = tid')) = false := by
          apply decide_eq_false
          rw [haid]
          exact fun hc => hne hc.symm
        rw [List.find?_cons, List.find?_cons, h1, h2]
      · rw [if_neg hp]
        by_cases h3 : (decide (a.id = tid')) = true
        · rw [List.find?_cons, List.find?_cons, h3]
        · have h3' : (decide (a.id = tid')) = false :=
            Bool.eq_false_iff.mpr h3
          rw [List.find?_cons, List.find?_cons, h3']
          exact ih

theorem find?_eq_of_mem_nodup (l : List ReplenishmentTask)
    (hN : (l.map (fun t => t.id)).Nodup) (u : ReplenishmentTask) (hu : u ∈ l) :
    l.find? (fun t => decide (t.id = u.id)) = some u := by
  induction l with
  | nil => cases hu
  | cons a l ih =>
      rw [List.find?_cons]
      by_cases hp : (decide (a.id = u.id)) = true
      · have haid : a.id = u.id := of_decide_eq_true hp
        have hau : a = u := by
          rcases List.mem_cons.mp hu with rfl | hu2
          · rfl
          · exfalso
            rw [List.map_cons, List.nodup_cons] at hN
            refine hN.1 ?_
            rw [haid]
            exact List.mem_map.mpr ⟨u, hu2, rfl⟩
        rw [hp]
        show some a = some u
        rw [hau]
      · have hp' : (decide (a.id = u.id)) = false := Bool.eq_false_iff.mpr hp
        rw [hp']
        show l.find? (fun t => decide (t.id = u.id)) = some u
        have hu2 : u ∈ l := by
          rcases List.mem_cons.mp hu with rfl | hu2
          · exact absurd (decide_eq_true rfl) hp
          · exact hu2
        rw [List.map_cons, List.nodup_cons] at hN
        exact ih hN.2 hu2

theorem openDeficitSumL_updateFirst (tid : String)
    (f : ReplenishmentTask → ReplenishmentTask) (rid : String) :
    ∀ l : List ReplenishmentTask, ∀ u : ReplenishmentTask,
      l.find? (fun t => decide (t.id = tid)) = some u →
      openDeficitSumL (updateFirst (fun t => decide (t.id = tid)) f l) rid =
        openDeficitSumL l rid - wTask rid u + wTask rid (f u) := by
  intro l
  induction l with
  | nil => intro u hu; cases hu
  | cons a l ih =>
      intro u hu
      rw [List.find?_cons] at hu
      unfold updateFirst
      by_cases hp : (decide (a.id = tid)) = true
      · rw [hp] at hu
        have hau : some a = some u := hu
        injection hau with hau
        rw [if_pos hp]
        subst hau
        rw [openDeficitSumL_cons, openDeficitSumL_cons]
        ring
      · have hp' : (decide (a.id = tid)) = false := Bool.eq_false_iff.mpr hp
        rw [hp'] at hu
        have hu2 : l.find? (fun t => decide (t.id = tid)) = some u := hu
        rw [if_neg hp]
        rw [openDeficitSumL_cons, openDeficitSumL_cons, ih u hu2]
        ring

theorem optTaskR_find?_forall2 (tid : String) :
    ∀ {l l' : List ReplenishmentTask}, List.Forall₂ taskR l l' →
      optTaskR (l.find? (fun t => decide (t.id = tid)))
        (l'.find? (fun t => decide (t.id = tid))) := by
  intro l l' h
  induction h with
  | nil => exact trivial
  | @cons a b as bs hR hrest ih =>
      rw [List.find?_cons, List.find?_cons]
      have hid : (decide (b.id = tid)) = (decide (a.id = tid)) := by
        rw [hR.1]
      rw [hid]
      by_cases hp : (decide (a.id = tid)) = true
      · rw [hp]
        exact hR
      · have hp' : (decide (a.id = tid)) = false := Bool.eq_false_iff.mpr hp
        rw [hp']
        exact ih

theorem insertByKey_perm {α : Type _} (key : α → Int) (x : α) :
    ∀ l : List α, (insertByKey key x l).Perm (x :: l) := by
  intro l
  induction l with
  | nil => exact List.Perm.refl _
  | cons y ys ih =>
      unfold insertByKey
      by_cases hk : key x ≤ key y
      · rw [if_pos hk]
      · rw [if_neg hk]
        exact (List.Perm.cons y ih).trans (List.Perm.swap x y ys)

theorem sortByKey_perm {α : Type _} (key : α → Int) :
    ∀ l : List α, (sortByKey key l).Perm l := by
  intro l
  induction l with
  | nil => exact List.Perm.refl _
  | cons y ys ih =>
      unfold sortByKey
      simp only [List.foldr]
      exact (insertByKey_perm key y _).trans (List.Perm.cons y ih)

theorem nodup_ids_filter (p : ReplenishmentTask → Bool)
    (l : List ReplenishmentTask) (hN : (l.map (fun t => t.id)).Nodup) :
    ((l.filter p).map (fun t => t.id)).Nodup :=
  List.Nodup.sublist (List.Sublist.map _ (List.filter_sublist l)) hN

theorem map_id_forall2 :
    ∀ {l l' : List ReplenishmentTask}, List.Forall₂ taskR l l' →
      l'.map (fun t => t.id) = l.map (fun t => t.id) := by
  intro l l' h
  induction h with
  | nil => rfl
  | cons hR hrest ih =>
      simp only [List.map_cons]
      rw [ih, hR.1]

theorem tasksWF_forall2 {l l' : List ReplenishmentTask}
    (h : List.Forall₂ taskR l l') (hWF : tasksWF l) : tasksWF l' := by
  refine ⟨?_, ?_, ?_⟩
  · rw [map_id_forall2 h]
    exact hWF.1
  · intro t ht n hn
    obtain ⟨x, hx, hRx⟩ := forall2_mem_right h t ht
    rw [hRx.1]
    exact hWF.2.1 x hx n (by rw [h.length_eq]; exact hn)
  · intro t ht hopen
    obtain ⟨x, hx, hRx⟩ := forall2_mem_right h t ht
    rw [hRx.2.2.1]
    exact hWF.2.2 x hx (by rw [← hRx.2.2.2]; exact hopen)

theorem tasksWF_updateFirst (p : ReplenishmentTask → Bool)
    (f : ReplenishmentTask → ReplenishmentTask)
    (l : List ReplenishmentTask) (hWF : tasksWF l)
    (hfid : ∀ e ∈ l, p e = true → (f e).id = e.id)
    (hfd : ∀ e ∈ l, p e = true → taskIsOpen (f e).status = true →
      0 ≤ (f e).deficitQty) :
    tasksWF (updateFirst p f l) := by
  refine ⟨?_, ?_, ?_⟩
  · rw [updateFirst_map_id p f l hfid]
    exact hWF.1
  · intro t ht n hn
    rw [updateFirst_length] at hn
    rcases updateFirst_mem_hit p f l t ht with h1 | ⟨x, hx, hpx, rfl⟩
    · exact hWF.2.1 t h1 n hn
    · rw [hfid x hx hpx]
      exact hWF.2.1 x hx n hn
  · intro t ht hopen
    rcases updateFirst_mem_hit p f l t ht with h1 | ⟨x, hx, hpx, rfl⟩
    · exact hWF.2.2 t h1 hopen
    · exact hfd x hx hpx hopen

theorem noInProgressL_updateFirst (p : ReplenishmentTask → Bool)
    (f : ReplenishmentTask → ReplenishmentTask)
    (l : List ReplenishmentTask) (rid : String) (hN : noInProgressL l rid)
    (hf : ∀ e ∈ l, p e = true → (f e).ruleId = rid →
      ¬ (f e).status = TaskStatus.IN_PROGRESS) :
    noInProgressL (updateFirst p f l) rid := by
  intro t ht hr
  rcases updateFirst_mem_hit p f l t ht with h1 | ⟨x, hx, hpx, rfl⟩
  · exact hN t h1 hr
  · exact hf x hx hpx hr

/-! ### Task generation, auto-assignment and close: invariant preservation -/

theorem tasksWF_gen_append (st : EngineState) (rule' : ReplenishmentRule)
    (q trig : Int) (sel : Option String) (cs : List SourceCandidate)
    (hWF : tasksWF st.tasks) (hq : 0 ≤ q) :
    tasksWF (st.tasks ++ [EngineState.genTaskOf st rule' q trig sel cs]) := by
  have hid : (EngineState.genTaskOf st rule' q trig sel cs).id =
      "task-" ++ toString (st.tasks.length + 1) := rfl
  refine ⟨?_, ?_, ?_⟩
  · rw [List.map_append, List.nodup_append]
    refine ⟨hWF.1, List.nodup_singleton _, ?_⟩
    intro a ha hb
    obtain ⟨t, ht, rfl⟩ := List.mem_map.mp ha
    have hbid : t.id = (EngineState.genTaskOf st rule' q trig sel cs).id := by
      simpa using hb
    rw [hid] at hbid
    exact hWF.2.1 t ht st.tasks.length (le_refl _) hbid
  · intro t ht n hn
    rw [List.length_append, List.length_singleton] at hn
    rcases List.mem_append.mp ht with h1 | h1
    · exact hWF.2.1 t h1 n (by omega)
    · rw [List.mem_singleton.mp h1, hid]
      intro hc
      have := taskId_inj _ _ hc
      omega
  · intro t ht hopen
    rcases List.mem_append.mp ht with h1 | h1
    · exact hWF.2.2 t h1 hopen
    · rw [List.mem_singleton.mp h1]
      exact hq

theorem noInProgressL_gen_append (st : EngineState) (rule' : ReplenishmentRule)
    (q trig : Int) (sel : Option String) (cs : List SourceCandidate)
    (rid : String) (hNIP : noInProgressL st.tasks rid) :
    noInProgressL (st.tasks ++ [EngineState.genTaskOf st rule' q trig sel cs])
      rid := by
  intro t ht hr
  rcases List.mem_append.mp ht with h1 | h1
  · exact hNIP t h1 hr
  · rw [List.mem_singleton.mp h1]
    intro hc
    exact TaskStatus.noConfusion hc

theorem tasksR_autoAssign2 (st : EngineState) (at' : Timestamp)
    (hN : (st.tasks.map (fun t => t.id)).Nodup) :
    List.Forall₂ taskR st.tasks
      (EngineState.autoAssignPendingTasks st at').tasks := by
  unfold EngineState.autoAssignPendingTasks
  dsimp only
  split
  next => exact forall2_taskR_refl _
  next =>
    split
    next => exact forall2_taskR_refl _
    next =>
      refine foldl_invariant _
        (fun acc : EngineState × List (String × Int) =>
          List.Forall₂ taskR st.tasks acc.1.tasks) _ _
        (forall2_taskR_refl _) ?_
      intro acc task hmem hacc
      dsimp only
      split
      next => exact hacc
      next first restPool heq =>
        dsimp only [EngineState.pushTaskAudit]
        refine forall2_taskR_trans hacc ?_
        refine updateFirst_forall2_of _ _ _ ?_
        intro e hel hpe
        have hid : e.id = task.id := of_decide_eq_true hpe
        rw [mem_sortByKey] at hmem
        have htmem := (List.mem_filter.mp hmem).1
        have htc : task.status = TaskStatus.CREATED :=
          (of_decide_eq_true (List.mem_filter.mp hmem).2).1
        obtain ⟨x, hx, hRx⟩ := forall2_mem_right hacc e hel
        have hxt : x = task :=
          List.inj_on_of_nodup_map hN hx htmem (hRx.1.symm.trans hid)
        have hopene : taskIsOpen e.status = true := by
          rw [hRx.2.2.2, hxt, htc]
          rfl
        refine ⟨rfl, rfl, rfl, ?_⟩
        rw [hopene]
        rfl

theorem noInProgressL_autoAssign (st : EngineState) (at' : Timestamp)
    (rid : String) (hNIP : noInProgressL st.tasks rid) :
    noInProgressL (EngineState.autoAssignPendingTasks st at').tasks rid := by
  unfold EngineState.autoAssignPendingTasks
  dsimp only
  split
  next => exact hNIP
  next =>
    split
    next => exact hNIP
    next =>
      refine foldl_invariant _
        (fun acc : EngineState × List (String × Int) =>
          noInProgressL acc.1.tasks rid) _ _ hNIP ?_
      intro acc task hmem hacc
      dsimp only
      split
      next => exact hacc
      next first restPool heq =>
        dsimp only [EngineState.pushTaskAudit]
        refine noInProgressL_updateFirst _ _ _ rid hacc ?_
        intro e he hpe hr hc
        exact TaskStatus.noConfusion hc

theorem tasks_autoAssignRecvOrders (s : EngineState) (at' : Timestamp) :
    (EngineState.autoAssignPendingReceivingOrders s at').tasks = s.tasks := by
  unfold EngineState.autoAssignPendingReceivingOrders
  dsimp only
  split
  next => rfl
  next =>
    split
    next => rfl
    next =>
      refine foldl_invariant _
        (fun acc : EngineState × List (String × Int) =>
          acc.1.tasks = s.tasks) _ _ rfl ?_
      intro acc order hmem hacc
      dsimp only
      split
      next => exact hacc
      next first restPool heq => exact hacc

theorem optTaskR_refl : ∀ o : Option ReplenishmentTask, optTaskR o o := by
  intro o
  cases o with
  | none => exact trivial
  | some u => exact taskR_refl u

theorem gen_core (st : EngineState) (rule' : ReplenishmentRule)
    (q trig : Int) (SEL : Option String) (CS : List SourceCandidate)
    (S2 : EngineState) (rid : String)
    (hS2 : S2.tasks = st.tasks ++
      [EngineState.genTaskOf st rule' q trig SEL CS])
    (hWF : tasksWF st.tasks) (hq : 0 ≤ q)
    (hNIP : noInProgressL st.tasks rid) :
    openDeficitSumL
        (EngineState.autoAssignPendingTasks S2 S2.nowCursor).tasks rid =
      openDeficitSumL st.tasks rid + (if rule'.id = rid then q else 0) ∧
    tasksWF (EngineState.autoAssignPendingTasks S2 S2.nowCursor).tasks ∧
    noInProgressL (EngineState.autoAssignPendingTasks S2 S2.nowCursor).tasks
      rid := by
  have hA : tasksWF S2.tasks := by
    rw [hS2]
    exact tasksWF_gen_append st rule' q trig SEL CS hWF hq
  have hAN : noInProgressL S2.tasks rid := by
    rw [hS2]
    exact noInProgressL_gen_append st rule' q trig SEL CS rid hNIP
  have hF := tasksR_autoAssign2 S2 S2.nowCursor hA.1
  refine ⟨?_, tasksWF_forall2 hF hA, noInProgressL_autoAssign _ _ rid hAN⟩
  rw [openDeficitSumL_forall2 rid hF, hS2, openDeficitSumL_append]
  have hw : wTask rid (EngineState.genTaskOf st rule' q trig SEL CS) =
      (if rule'.id = rid then q else 0) := by
    unfold wTask EngineState.genTaskOf
    simp [taskIsOpen]
  rw [hw]

theorem gen_effects2 (st : EngineState) (rule' : ReplenishmentRule)
    (q trig : Int) (src : Option String)
    (cands : Option (List SourceCandidate)) (rid : String)
    (hWF : tasksWF st.tasks) (hq : 0 ≤ q)
    (hNIP : noInProgressL st.tasks rid) :
    openDeficitSumL
        (EngineState.generateReplenishmentTask st rule' q trig src
          cands).tasks rid =
      openDeficitSumL st.tasks rid + (if rule'.id = rid then q else 0) ∧
    tasksWF
      (EngineState.generateReplenishmentTask st rule' q trig src
        cands).tasks ∧
    noInProgressL
      (EngineState.generateReplenishmentTask st rule' q trig src cands).tasks
      rid := by
  unfold EngineState.generateReplenishmentTask
  dsimp only
  exact gen_core st rule' q trig _ _ _ rid rfl hWF hq hNIP

theorem assignChain_effects (s2 : EngineState) (rid : String)
    (hWF : tasksWF s2.tasks) (hNIP : noInProgressL s2.tasks rid) :
    tasksWF (EngineState.autoAssignPendingReceivingOrders
        (EngineState.autoAssignPendingTasks s2 s2.nowCursor)
        (EngineState.autoAssignPendingTasks s2 s2.nowCursor).nowCursor).tasks ∧
    noInProgressL (EngineState.autoAssignPendingReceivingOrders
        (EngineState.autoAssignPendingTasks s2 s2.nowCursor)
        (EngineState.autoAssignPendingTasks s2 s2.nowCursor).nowCursor).tasks
      rid ∧
    openDeficitSumL (EngineState.autoAssignPendingReceivingOrders
        (EngineState.autoAssignPendingTasks s2 s2.nowCursor)
        (EngineState.autoAssignPendingTasks s2 s2.nowCursor).nowCursor).tasks
      rid = openDeficitSumL s2.tasks rid ∧
    ∀ tid', optTaskR (s2.tasks.find? (fun t => decide (t.id = tid')))
      ((EngineState.autoAssignPendingReceivingOrders
        (EngineState.autoAssignPendingTasks s2 s2.nowCursor)
        (EngineState.autoAssignPendingTasks s2 s2.nowCursor).nowCursor).tasks.find?
        (fun t => decide (t.id = tid'))) := by
  rw [tasks_autoAssignRecvOrders]
  have hF := tasksR_autoAssign2 s2 s2.nowCursor hWF.1
  exact ⟨tasksWF_forall2 hF hWF, noInProgressL_autoAssign _ _ rid hNIP,
    openDeficitSumL_forall2 rid hF,
    fun tid' => optTaskR_find?_forall2 tid' hF⟩

theorem close_effects (st : EngineState) (tid reason : String) (rid : String)
    (u : ReplenishmentTask)
    (hfind : st.tasks.find? (fun t => decide (t.id = tid)) = some u)
    (hWF : tasksWF st.tasks) (hNIP : noInProgressL st.tasks rid) :
    tasksWF (EngineState.closeReplenishmentTask st tid reason).tasks ∧
    noInProgressL (EngineState.closeReplenishmentTask st tid reason).tasks
      rid ∧
    openDeficitSumL (EngineState.closeReplenishmentTask st tid reason).tasks
        rid =
      openDeficitSumL st.tasks rid - wTask rid u ∧
    (∀ tid', ¬ tid' = tid →
      optTaskR (st.tasks.find? (fun t => decide (t.id = tid')))
        ((EngineState.closeReplenishmentTask st tid reason).tasks.find?
          (fun t => decide (t.id = tid')))) := by
  unfold EngineState.closeReplenishmentTask
  dsimp only
  split
  next hf => rw [hfind] at hf; cases hf
  next task hf =>
    rw [hfind] at hf
    injection hf with hf
    subst hf
    split
    next hno =>
      have hcl : taskIsOpen u.status = false := Bool.eq_false_iff.mpr hno
      have hw : wTask rid u = 0 := by
        unfold wTask
        rw [hcl]
        simp
      rw [hw]
      exact ⟨hWF, hNIP, by ring, fun tid' _ => optTaskR_refl _⟩
    next hop =>
      have hopen : taskIsOpen u.status = true := of_not_not hop
      have hclosed : ∀ e : ReplenishmentTask, taskIsOpen
          (({ e with
            status := if reason.startsWith "confirmed" then
                TaskStatus.CONFIRMED
              else TaskStatus.REJECTED
            closeReason := some reason
            closedAt := some st.nowCursor
            updatedAt := st.nowCursor } : ReplenishmentTask)).status =
          false := by
        intro e
        by_cases hr : reason.startsWith "confirmed" = true
        · rw [if_pos hr]
          rfl
        · rw [if_neg hr]
          rfl
      have hW1 : tasksWF (updateFirst (fun t => decide (t.id = tid))
          (fun t =>
            { t with
              status := if reason.startsWith "confirmed" then
                  TaskStatus.CONFIRMED
                else TaskStatus.REJECTED
              closeReason := some reason
              closedAt := some st.nowCursor
              updatedAt := st.nowCursor }) st.tasks) :=
        tasksWF_updateFirst _ _ st.tasks hWF (fun e he hpe => rfl)
          (fun e he hpe hoc => absurd hoc (by rw [hclosed e]; exact
            Bool.false_ne_true))
      have hN1 : noInProgressL (updateFirst (fun t => decide (t.id = tid))
          (fun t =>
            { t with
              status := if reason.startsWith "confirmed" then
                  TaskStatus.CONFIRMED
                else TaskStatus.REJECTED
              closeReason := some reason
              closedAt := some st.nowCursor
              updatedAt := st.nowCursor }) st.tasks) rid := by
        refine noInProgressL_updateFirst _ _ st.tasks rid hNIP ?_
        intro e he hpe hr hc
        by_cases hrs : reason.startsWith "confirmed" = true
        · rw [if_pos hrs] at hc
          exact TaskStatus.noConfusion hc
        · rw [if_neg hrs] at hc
          exact TaskStatus.noConfusion hc
      have hsum1 : openDeficitSumL (updateFirst
          (fun t => decide (t.id = tid))
          (fun t =>
            { t with
              status := if reason.startsWith "confirmed" then
                  TaskStatus.CONFIRMED
                else TaskStatus.REJECTED
              closeReason := some reason
              closedAt := some st.nowCursor
              updatedAt := st.nowCursor }) st.tasks) rid =
          openDeficitSumL st.tasks rid - wTask rid u := by
        rw [openDeficitSumL_updateFirst tid _ rid st.tasks u hfind]
        have h0 : wTask rid ({ u with
            status := if reason.startsWith "confirmed" then
                TaskStatus.CONFIRMED
              else TaskStatus.REJECTED
            closeReason := some reason
            closedAt := some st.nowCursor
            updatedAt := st.nowCursor } : ReplenishmentTask) = 0 := by
          unfold wTask
          rw [hclosed u]
          simp
        rw [h0]
        ring
      obtain ⟨hc1, hc2, hc3, hc4⟩ := assignChain_effects
        (EngineState.pushTaskAudit
          { st with
            tasks :=
              updateFirst (fun t => decide (t.id = tid))
                (fun t =>
                  { t with
                    status := if reason.startsWith "confirmed" then
                        TaskStatus.CONFIRMED
                      else TaskStatus.REJECTED
                    closeReason := some reason
                    closedAt := some st.nowCursor
                    updatedAt := st.nowCursor }) st.tasks }
          tid AuditAction.CLOSED u.confirmedBy ("reason=" ++ reason))
        rid hW1 hN1
      refine ⟨hc1, hc2, ?_, ?_⟩
      · rw [hc3]
        dsimp only [EngineState.pushTaskAudit]
        exact hsum1
      · intro tid' hne
        have he3 : (updateFirst (fun t => decide (t.id = tid))
            (fun t =>
              { t with
                status := if reason.startsWith "confirmed" then
                    TaskStatus.CONFIRMED
                  else TaskStatus.REJECTED
                closeReason := some reason
                closedAt := some st.nowCursor
                updatedAt := st.nowCursor }) st.tasks).find?
              (fun t => decide (t.id = tid')) =
            st.tasks.find? (fun t => decide (t.id = tid')) :=
          find?_updateFirst_ne tid tid' hne _ (fun e => by exact rfl) st.tasks
        have hc4' := hc4 tid'
        dsimp only [EngineState.pushTaskAudit] at hc4'
        rw [he3] at hc4'
        exact hc4'

theorem optTaskR_trans :
    ∀ {a b c : Option ReplenishmentTask}, optTaskR a b → optTaskR b c →
      optTaskR a c := by
  intro a b c h1 h2
  cases a with
  | none =>
      cases b with
      | none =>
          cases c with
          | none => exact trivial
          | some w => exact (h2 : False).elim
      | some v => exact (h1 : False).elim
  | some u =>
      cases b with
      | none => exact (h1 : False).elim
      | some v =>
          cases c with
          | none => exact (h2 : False).elim
          | some w => exact taskR_trans (h1 : taskR u v) (h2 : taskR v w)

theorem closeFold_effects (reason : String) (rid : String) :
    ∀ (rem : List ReplenishmentTask) (st : EngineState),
      tasksWF st.tasks → noInProgressL st.tasks rid →
      (∀ t' ∈ rem, optTaskR (some t')
        (st.tasks.find? (fun t => decide (t.id = t'.id)))) →
      ((rem.map (fun t => t.id)).Nodup) →
      tasksWF (rem.foldl (fun st2 t =>
        EngineState.closeReplenishmentTask st2 t.id reason) st).tasks ∧
      noInProgressL (rem.foldl (fun st2 t =>
        EngineState.closeReplenishmentTask st2 t.id reason) st).tasks rid ∧
      openDeficitSumL (rem.foldl (fun st2 t =>
          EngineState.closeReplenishmentTask st2 t.id reason) st).tasks rid =
        openDeficitSumL st.tasks rid - (rem.map (wTask rid)).sum := by
  intro rem
  induction rem with
  | nil =>
      intro st hWF hNIP hT hN
      exact ⟨hWF, hNIP, by simp⟩
  | cons t' rest ih =>
      intro st hWF hNIP hT hN
      have hT0 := hT t' (List.mem_cons_self _ _)
      cases hfind : st.tasks.find? (fun t => decide (t.id = t'.id)) with
      | none =>
          rw [hfind] at hT0
          exact (hT0 : False).elim
      | some u =>
          rw [hfind] at hT0
          have hR : taskR t' u := hT0
          obtain ⟨hcW, hcN, hcS, hcT⟩ :=
            close_effects st t'.id reason rid u hfind hWF hNIP
          rw [List.map_cons, List.nodup_cons] at hN
          have hT' : ∀ t'' ∈ rest, optTaskR (some t'')
              ((EngineState.closeReplenishmentTask st t'.id
                reason).tasks.find?
                (fun t => decide (t.id = t''.id))) := by
            intro t'' ht''
            have hne : ¬ t''.id = t'.id := by
              intro hc
              exact hN.1 (hc ▸ List.mem_map.mpr ⟨t'', ht'', rfl⟩)
            exact optTaskR_trans (hT t'' (List.mem_cons_of_mem _ ht''))
              (hcT t''.id hne)
          obtain ⟨h1, h2, h3⟩ := ih
            (EngineState.closeReplenishmentTask st t'.id reason)
            hcW hcN hT' hN.2
          rw [List.foldl_cons]
          refine ⟨h1, h2, ?_⟩
          rw [h3, hcS, wTask_of_taskR rid hR, List.map_cons, List.sum_cons]
          ring

theorem triggerLoop_bound2 (rule' : ReplenishmentRule) (cur : Int)
    (all : List SourceCandidate) (rid : String) :
    ∀ (cands : List SourceCandidate) (remaining : Int) (created : Bool)
      (st : EngineState), tasksWF st.tasks → noInProgressL st.tasks rid →
      0 ≤ remaining →
      0 ≤ (EngineState.triggerLoop rule' cur all cands remaining created
        st).1 ∧
      tasksWF
        (EngineState.triggerLoop rule' cur all cands remaining created
          st).2.2.tasks ∧
      noInProgressL
        (EngineState.triggerLoop rule' cur all cands remaining created
          st).2.2.tasks rid ∧
      (rule'.id = rid →
        openDeficitSumL
            (EngineState.triggerLoop rule' cur all cands remaining created
              st).2.2.tasks rid ≤
          openDeficitSumL st.tasks rid +
            (remaining -
              (EngineState.triggerLoop rule' cur all cands remaining created
                st).1)) ∧
      (¬ rule'.id = rid →
        openDeficitSumL
            (EngineState.triggerLoop rule' cur all cands remaining created
              st).2.2.tasks rid =
          openDeficitSumL st.tasks rid) := by
  intro cands
  induction cands with
  | nil =>
      intro remaining created st hWF hNIP h0
      unfold EngineState.triggerLoop
      exact ⟨h0, hWF, hNIP, fun _ => by dsimp only; omega, fun _ => rfl⟩
  | cons c rest ih =>
      intro remaining created st hWF hNIP h0
      unfold EngineState.triggerLoop
      dsimp only
      split
      next h =>
          exact ⟨h0, hWF, hNIP, fun _ => by dsimp only; omega, fun _ => rfl⟩
      next h =>
        split
        next ha => exact ih remaining created st hWF hNIP h0
        next ha =>
          have hq : 0 ≤ min remaining c.availableQty :=
            le_of_lt (not_le.mp ha)
          obtain ⟨g1, g2, g3⟩ := gen_effects2 st rule'
            (min remaining c.availableQty) cur (some c.sourceZoneId)
            (some all) rid hWF hq hNIP
          obtain ⟨i1, i2, i3, i4, i5⟩ := ih
            (remaining - min remaining c.availableQty)
            true (EngineState.generateReplenishmentTask st rule'
              (min remaining c.availableQty) cur (some c.sourceZoneId)
              (some all)) g2 g3 (by omega)
          refine ⟨i1, i2, i3, ?_, ?_⟩
          · intro hr
            have i4' := i4 hr
            rw [if_pos hr] at g1
            rw [g1] at i4'
            omega
          · intro hr
            have i5' := i5 hr
            rw [if_neg hr] at g1
            rw [g1] at i5'
            omega

theorem foldl_taskR (rid : String) (step : EngineState → String → EngineState)
    (h : ∀ st2 tid, List.Forall₂ taskR st2.tasks (step st2 tid).tasks ∧
      (noInProgressL st2.tasks rid → noInProgressL (step st2 tid).tasks rid)) :
    ∀ (ids : List String) (st : EngineState),
      List.Forall₂ taskR st.tasks (ids.foldl step st).tasks ∧
      (noInProgressL st.tasks rid →
        noInProgressL (ids.foldl step st).tasks rid) := by
  intro ids
  induction ids with
  | nil => intro st; exact ⟨forall2_taskR_refl _, fun hh => hh⟩
  | cons tid rest ih =>
      intro st
      rw [List.foldl_cons]
      obtain ⟨h1, h2⟩ := h st tid
      obtain ⟨i1, i2⟩ := ih (step st tid)
      exact ⟨forall2_taskR_trans h1 i1, fun hh => i2 (h2 hh)⟩

theorem refresh_effects (rule' : ReplenishmentRule) (rid : String)
    (ids : List String) (st : EngineState) :
    List.Forall₂ taskR st.tasks
      (EngineState.refreshTaskSources st rule' ids).tasks ∧
    (noInProgressL st.tasks rid →
      noInProgressL (EngineState.refreshTaskSources st rule' ids).tasks
        rid) := by
  refine foldl_taskR rid _ ?_ ids st
  intro st2 tid
  dsimp only
  split
  next => exact ⟨forall2_taskR_refl _, fun hh => hh⟩
  next task hfsome =>
      refine ⟨updateFirst_forall2_of _ _ _
        (fun e he hpe => ⟨rfl, rfl, rfl, rfl⟩), ?_⟩
      intro hNIP
      refine noInProgressL_updateFirst _ _ st2.tasks rid hNIP ?_
      intro e he hpe hr hc
      exact hNIP e he hr hc

/-! ### The open-task views of a rule -/

theorem openTasks_mem (s : EngineState) (rid' : String) :
    ∀ t ∈ EngineState.openTasksOfRule s rid', t ∈ s.tasks ∧
      t.ruleId = rid' ∧ taskIsOpen t.status = true := by
  intro t ht
  unfold EngineState.openTasksOfRule at ht
  rw [mem_sortByKey] at ht
  have h1 := (List.mem_filter.mp ht).1
  have h2 := (List.mem_filter.mp ht).2
  rw [Bool.and_eq_true] at h2
  exact ⟨h1, of_decide_eq_true h2.1, h2.2⟩

theorem openTasks_nodup (s : EngineState) (rid' : String)
    (hN : (s.tasks.map (fun t => t.id)).Nodup) :
    ((EngineState.openTasksOfRule s rid').map (fun t => t.id)).Nodup := by
  unfold EngineState.openTasksOfRule
  have hp := (sortByKey_perm (fun t => toMs t.createdAt)
    (s.tasks.filter (fun t =>
      decide (t.ruleId = rid') && taskIsOpen t.status))).map (fun t => t.id)
  exact hp.nodup_iff.mpr (nodup_ids_filter _ _ hN)

theorem openTasks_sum (s : EngineState) (rid' : String) :
    ((EngineState.openTasksOfRule s rid').map (fun t => t.deficitQty)).sum =
      openDeficitSumL s.tasks rid' := by
  unfold EngineState.openTasksOfRule openDeficitSumL
  exact List.Perm.sum_eq ((sortByKey_perm _ _).map _)

theorem autoRej_eq_openTasks (s : EngineState) (rid' : String)
    (hNIP : noInProgressL s.tasks rid') :
    (EngineState.openTasksOfRule s rid').filter
      (fun t => decide (t.status ≠ TaskStatus.IN_PROGRESS)) =
      EngineState.openTasksOfRule s rid' := by
  apply List.filter_eq_self.mpr
  intro t ht
  exact decide_eq_true
    (hNIP t (openTasks_mem s rid' t ht).1 (openTasks_mem s rid' t ht).2.1)

/-! ### The merge phase (sales branch) -/

theorem merge_effects (zone : Zone) (r : ReplenishmentRule)
    (st : EngineState) (rid : String) (hWF : tasksWF st.tasks)
    (hNIP : noInProgressL st.tasks rid) :
    tasksWF (EngineState.mergeOpenTasks zone r st).tasks ∧
    noInProgressL (EngineState.mergeOpenTasks zone r st).tasks rid ∧
    (¬ r.id = rid →
      openDeficitSumL (EngineState.mergeOpenTasks zone r st).tasks rid =
        openDeficitSumL st.tasks rid) := by
  unfold EngineState.mergeOpenTasks
  dsimp only
  split
  next hlen =>
    split
    next hsingle =>
      split
      next heq => exact ⟨hWF, hNIP, fun _ => rfl⟩
      next keeper extras heq =>
        have hkRej : keeper ∈ (EngineState.openTasksOfRule st r.id).filter
            (fun t => decide (t.status ≠ TaskStatus.IN_PROGRESS)) := by
          rw [heq]
          exact List.mem_cons_self _ _
        have hkmem := openTasks_mem st r.id keeper
          (List.mem_filter.mp hkRej).1
        have hRN : (((EngineState.openTasksOfRule st r.id).filter
            (fun t => decide (t.status ≠ TaskStatus.IN_PROGRESS))).map
            (fun t => t.id)).Nodup :=
          nodup_ids_filter _ _ (openTasks_nodup st r.id hWF.1)
        rw [heq, List.map_cons, List.nodup_cons] at hRN
        have hfindk : st.tasks.find?
            (fun t => decide (t.id = keeper.id)) = some keeper :=
          find?_eq_of_mem_nodup st.tasks hWF.1 keeper hkmem.1
        have hW' : tasksWF (updateFirst
            (fun t => decide (t.id = keeper.id))
            (fun t =>
              { t with
                deficitQty := ((EngineState.openTasksOfRule st
                    r.id).filter
                    (fun t2 => decide
                      (t2.status ≠ TaskStatus.IN_PROGRESS))).foldl
                  (fun sum t2 => sum + max 0 t2.deficitQty) 0
                updatedAt := st.nowCursor }) st.tasks) :=
          tasksWF_updateFirst _ _ st.tasks hWF (fun e he hpe => rfl)
            (fun e he hpe hop => foldl_max0_nonneg _ 0 (le_refl 0))
        have hN' : noInProgressL (updateFirst
            (fun t => decide (t.id = keeper.id))
            (fun t =>
              { t with
                deficitQty := ((EngineState.openTasksOfRule st
                    r.id).filter
                    (fun t2 => decide
                      (t2.status ≠ TaskStatus.IN_PROGRESS))).foldl
                  (fun sum t2 => sum + max 0 t2.deficitQty) 0
                updatedAt := st.nowCursor }) st.tasks) rid :=
          noInProgressL_updateFirst _ _ st.tasks rid hNIP
            (fun e he hpe hr hc => hNIP e he hr hc)
        have hT' : ∀ t'' ∈ extras, optTaskR (some t'')
            ((updateFirst (fun t => decide (t.id = keeper.id))
              (fun t =>
                { t with
                  deficitQty := ((EngineState.openTasksOfRule st
                      r.id).filter
                      (fun t2 => decide
                        (t2.status ≠ TaskStatus.IN_PROGRESS))).foldl
                    (fun sum t2 => sum + max 0 t2.deficitQty) 0
                  updatedAt := st.nowCursor }) st.tasks).find?
              (fun t => decide (t.id = t''.id))) := by
          intro t'' ht''
          have hne : ¬ t''.id = keeper.id := by
            intro hc
            exact hRN.1 (hc ▸ List.mem_map.mpr ⟨t'', ht'', rfl⟩)
          have hmem0 : t'' ∈ (EngineState.openTasksOfRule st r.id).filter
              (fun t => decide (t.status ≠ TaskStatus.IN_PROGRESS)) := by
            rw [heq]
            exact List.mem_cons_of_mem _ ht''
          have hmem'' : t'' ∈ st.tasks :=
            (openTasks_mem st r.id t'' (List.mem_filter.mp hmem0).1).1
          rw [find?_updateFirst_ne keeper.id t''.id hne
            (fun t =>
              { t with
                deficitQty := ((EngineState.openTasksOfRule st
                    r.id).filter
                    (fun t2 => decide
                      (t2.status ≠ TaskStatus.IN_PROGRESS))).foldl
                  (fun sum t2 => sum + max 0 t2.deficitQty) 0
                updatedAt := st.nowCursor })
            (fun e => rfl) st.tasks]
          rw [find?_eq_of_mem_nodup st.tasks hWF.1 t'' hmem'']
          exact taskR_refl t''
        obtain ⟨hf1, hf2, hf3⟩ := closeFold_effects "merged_plan" rid extras
          ({ st with
            tasks := updateFirst (fun t => decide (t.id = keeper.id))
              (fun t =>
                { t with
                  deficitQty := ((EngineState.openTasksOfRule st
                      r.id).filter
                      (fun t2 => decide
                        (t2.status ≠ TaskStatus.IN_PROGRESS))).foldl
                    (fun sum t2 => sum + max 0 t2.deficitQty) 0
                  updatedAt := st.nowCursor }) st.tasks })
          hW' hN' hT' hRN.2
        refine ⟨hf1, hf2, ?_⟩
        intro hother
        rw [hf3]
        have hz : (extras.map (wTask rid)).sum = 0 := by
          apply List.sum_eq_zero
          intro x hx
          obtain ⟨t'', ht'', rfl⟩ := List.mem_map.mp hx
          have hmem'' : t'' ∈ (EngineState.openTasksOfRule st r.id).filter
              (fun t => decide (t.status ≠ TaskStatus.IN_PROGRESS)) := by
            rw [heq]
            exact List.mem_cons_of_mem _ ht''
          have hr'' := (openTasks_mem st r.id t''
            (List.mem_filter.mp hmem'').1).2.1
          unfold wTask
          rw [hr'']
          rw [decide_eq_false hother]
          simp
        rw [hz]
        have hsU : openDeficitSumL (updateFirst
            (fun t => decide (t.id = keeper.id))
            (fun t =>
              { t with
                deficitQty := ((EngineState.openTasksOfRule st
                    r.id).filter
                    (fun t2 => decide
                      (t2.status ≠ TaskStatus.IN_PROGRESS))).foldl
                  (fun sum t2 => sum + max 0 t2.deficitQty) 0
                updatedAt := st.nowCursor }) st.tasks) rid =
            openDeficitSumL st.tasks rid := by
          rw [openDeficitSumL_updateFirst keeper.id _ rid st.tasks keeper
            hfindk]
          have hk0 : (decide (keeper.ruleId = rid)) = false :=
            decide_eq_false (fun hc => hother (hkmem.2.1.symm.trans hc))
          have hw1 : wTask rid keeper = 0 := by
            unfold wTask
            rw [hk0]
            simp
          have hw2 : wTask rid ({ keeper with
              deficitQty := ((EngineState.openTasksOfRule st
                  r.id).filter
                  (fun t2 => decide
                    (t2.status ≠ TaskStatus.IN_PROGRESS))).foldl
                (fun sum t2 => sum + max 0 t2.deficitQty) 0
              updatedAt := st.nowCursor } : ReplenishmentTask) = 0 := by
            unfold wTask
            rw [show ({ keeper with
              deficitQty := ((EngineState.openTasksOfRule st
                  r.id).filter
                  (fun t2 => decide
                    (t2.status ≠ TaskStatus.IN_PROGRESS))).foldl
                (fun sum t2 => sum + max 0 t2.deficitQty) 0
              updatedAt := st.nowCursor } : ReplenishmentTask).ruleId =
              keeper.ruleId from rfl, hk0]
            simp
          rw [hw1, hw2]
          ring
        rw [hsU]
        ring
    next => exact ⟨hWF, hNIP, fun _ => rfl⟩
  next => exact ⟨hWF, hNIP, fun _ => rfl⟩

/-! ### The trim walk -/

theorem sum_deficits_nonneg (l : List ReplenishmentTask)
    (h : ∀ t ∈ l, 0 ≤ t.deficitQty) :
    0 ≤ (l.map (fun t => t.deficitQty)).sum := by
  induction l with
  | nil => simp
  | cons a l ih =>
      rw [List.map_cons, List.sum_cons]
      have h1 := h a (List.mem_cons_self _ _)
      have h2 := ih (fun t ht => h t (List.mem_cons_of_mem _ ht))
      omega

theorem trimLoop_bound (rid : String) (desired : Int) :
    ∀ (rem : List ReplenishmentTask) (ov : Int) (st : EngineState),
      tasksWF st.tasks → noInProgressL st.tasks rid →
      (∀ t' ∈ rem, t'.ruleId = rid ∧ taskIsOpen t'.status = true ∧
        0 ≤ t'.deficitQty) →
      (∀ t' ∈ rem, optTaskR (some t')
        (st.tasks.find? (fun t => decide (t.id = t'.id)))) →
      ((rem.map (fun t => t.id)).Nodup) →
      0 ≤ desired →
      openDeficitSumL st.tasks rid = desired + ov →
      ov ≤ (rem.map (fun t => t.deficitQty)).sum →
      tasksWF (EngineState.trimLoop st (rem.map (fun t => t.id)) ov).tasks ∧
      noInProgressL (EngineState.trimLoop st (rem.map (fun t => t.id))
        ov).tasks rid ∧
      openDeficitSumL (EngineState.trimLoop st (rem.map (fun t => t.id))
        ov).tasks rid ≤ desired := by
  intro rem
  induction rem with
  | nil =>
      intro ov st hWF hNIP hprops hT hN hdes hsum hR
      rw [List.map_nil] at hR ⊢
      rw [List.sum_nil] at hR
      unfold EngineState.trimLoop
      exact ⟨hWF, hNIP, by omega⟩
  | cons t' rest ih =>
      intro ov st hWF hNIP hprops hT hN hdes hsum hR
      rw [List.map_cons] at hN hR ⊢
      rw [List.nodup_cons] at hN
      rw [List.sum_cons] at hR
      have hprops0 := hprops t' (List.mem_cons_self _ _)
      have hMS : ∀ t'' ∈ rest, ¬ t''.id = t'.id := fun t'' ht'' hc =>
        hN.1 (hc ▸ List.mem_map.mpr ⟨t'', ht'', rfl⟩)
      unfold EngineState.trimLoop
      dsimp only
      split
      next hov =>
        split
        next hfnone =>
            have hT0 := hT t' (List.mem_cons_self _ _)
            rw [hfnone] at hT0
            exact (hT0 : False).elim
        next u hfind =>
            have hT0 := hT t' (List.mem_cons_self _ _)
            rw [hfind] at hT0
            have hRtu : taskR t' u := hT0
            split
            next hle =>
              obtain ⟨hcW, hcN, hcS, hcT⟩ :=
                close_effects st t'.id "plan_adjusted" rid u hfind hWF hNIP
              have hwu : wTask rid u = t'.deficitQty := by
                unfold wTask
                rw [hRtu.2.1, hprops0.1, hRtu.2.2.2, hprops0.2.1,
                  hRtu.2.2.1]
                simp
              have hT' : ∀ t'' ∈ rest, optTaskR (some t'')
                  ((EngineState.closeReplenishmentTask st t'.id
                    "plan_adjusted").tasks.find?
                    (fun t => decide (t.id = t''.id))) :=
                fun t'' ht'' =>
                  optTaskR_trans (hT t'' (List.mem_cons_of_mem _ ht''))
                    (hcT t''.id (hMS t'' ht''))
              have hud : u.deficitQty = t'.deficitQty := hRtu.2.2.1
              refine ih (ov - u.deficitQty)
                (EngineState.closeReplenishmentTask st t'.id
                  "plan_adjusted") hcW hcN
                (fun t'' ht'' => hprops t'' (List.mem_cons_of_mem _ ht''))
                hT' hN.2 hdes ?_ ?_
              · rw [hcS, hwu, hsum]
                omega
              · omega
            next hgt =>
              have hfu : u ∈ st.tasks := List.mem_of_find?_eq_some hfind
              have hup := List.find?_some hfind
              have huid : u.id = t'.id := of_decide_eq_true hup
              have hW' : tasksWF (updateFirst
                  (fun t => decide (t.id = t'.id))
                  (fun t =>
                    { t with
                      deficitQty := t.deficitQty - ov
                      updatedAt := st.nowCursor }) st.tasks) := by
                refine tasksWF_updateFirst _ _ st.tasks hWF
                  (fun e he hpe => rfl) ?_
                intro e he hpe hop
                have heid : e.id = t'.id := of_decide_eq_true hpe
                have heu : e = u :=
                  List.inj_on_of_nodup_map hWF.1 he hfu
                    (heid.trans huid.symm)
                rw [heu]
                show 0 ≤ u.deficitQty - ov
                omega
              have hN' : noInProgressL (updateFirst
                  (fun t => decide (t.id = t'.id))
                  (fun t =>
                    { t with
                      deficitQty := t.deficitQty - ov
                      updatedAt := st.nowCursor }) st.tasks) rid :=
                noInProgressL_updateFirst _ _ st.tasks rid hNIP
                  (fun e he hpe hr hc => hNIP e he hr hc)
              have hsumU : openDeficitSumL (updateFirst
                  (fun t => decide (t.id = t'.id))
                  (fun t =>
                    { t with
                      deficitQty := t.deficitQty - ov
                      updatedAt := st.nowCursor }) st.tasks) rid =
                  desired := by
                rw [openDeficitSumL_updateFirst t'.id _ rid st.tasks u
                  hfind]
                have hwu : wTask rid u = u.deficitQty := by
                  unfold wTask
                  rw [hRtu.2.1, hprops0.1, hRtu.2.2.2, hprops0.2.1]
                  simp
                have hwu2 : wTask rid ({ u with
                    deficitQty := u.deficitQty - ov
                    updatedAt := st.nowCursor } : ReplenishmentTask) =
                    u.deficitQty - ov := by
                  unfold wTask
                  rw [show ({ u with
                    deficitQty := u.deficitQty - ov
                    updatedAt := st.nowCursor } :
                    ReplenishmentTask).ruleId = u.ruleId from rfl]
                  rw [show taskIsOpen ({ u with
                    deficitQty := u.deficitQty - ov
                    updatedAt := st.nowCursor } :
                    ReplenishmentTask).status = taskIsOpen u.status from
                    rfl]
                  rw [hRtu.2.1, hprops0.1, hRtu.2.2.2, hprops0.2.1]
                  simp
                rw [hwu, hwu2, hsum]
                ring
              have hT'' : ∀ t'' ∈ rest, optTaskR (some t'')
                  ((updateFirst (fun t => decide (t.id = t'.id))
                    (fun t =>
                      { t with
                        deficitQty := t.deficitQty - ov
                        updatedAt := st.nowCursor }) st.tasks).find?
                    (fun t => decide (t.id = t''.id))) := by
                intro t'' ht''
                rw [find?_updateFirst_ne t'.id t''.id (hMS t'' ht'')
                  (fun t =>
                    { t with
                      deficitQty := t.deficitQty - ov
                      updatedAt := st.nowCursor })
                  (fun e => rfl) st.tasks]
                exact hT t'' (List.mem_cons_of_mem _ ht'')
              refine ih 0
                ({ st with
                  tasks :=
                    updateFirst (fun t => decide (t.id = t'.id))
                      (fun t =>
                        { t with
                          deficitQty := t.deficitQty - ov
                          updatedAt := st.nowCursor }) st.tasks }) hW' hN'
                (fun t'' ht'' => hprops t'' (List.mem_cons_of_mem _ ht''))
                hT'' hN.2 hdes ?_ ?_
              · rw [hsumU]
                ring
              · refine sum_deficits_nonneg rest ?_
                intro t'' ht''
                exact (hprops t'' (List.mem_cons_of_mem _ ht'')).2.2
      next hov =>
        exact ⟨hWF, hNIP, by omega⟩

theorem trimLoop_other (rid : String) :
    ∀ (rem : List ReplenishmentTask) (ov : Int) (st : EngineState),
      tasksWF st.tasks → noInProgressL st.tasks rid →
      (∀ t' ∈ rem, ¬ t'.ruleId = rid) →
      (∀ t' ∈ rem, optTaskR (some t')
        (st.tasks.find? (fun t => decide (t.id = t'.id)))) →
      ((rem.map (fun t => t.id)).Nodup) →
      tasksWF (EngineState.trimLoop st (rem.map (fun t => t.id)) ov).tasks ∧
      noInProgressL (EngineState.trimLoop st (rem.map (fun t => t.id))
        ov).tasks rid ∧
      openDeficitSumL (EngineState.trimLoop st (rem.map (fun t => t.id))
        ov).tasks rid = openDeficitSumL st.tasks rid := by
  intro rem
  induction rem with
  | nil =>
      intro ov st hWF hNIP hother hT hN
      rw [List.map_nil]
      unfold EngineState.trimLoop
      exact ⟨hWF, hNIP, rfl⟩
  | cons t' rest ih =>
      intro ov st hWF hNIP hother hT hN
      rw [List.map_cons] at hN ⊢
      rw [List.nodup_cons] at hN
      have hother0 := hother t' (List.mem_cons_self _ _)
      have hMS : ∀ t'' ∈ rest, ¬ t''.id = t'.id := fun t'' ht'' hc =>
        hN.1 (hc ▸ List.mem_map.mpr ⟨t'', ht'', rfl⟩)
      unfold EngineState.trimLoop
      dsimp only
      split
      next hov =>
        split
        next hfnone =>
            have hT0 := hT t' (List.mem_cons_self _ _)
            rw [hfnone] at hT0
            exact (hT0 : False).elim
        next u hfind =>
            have hT0 := hT t' (List.mem_cons_self _ _)
            rw [hfind] at hT0
            have hRtu : taskR t' u := hT0
            have hu0 : (decide (u.ruleId = rid)) = false :=
              decide_eq_false (fun hc =>
                hother0 (hRtu.2.1.symm.trans hc))
            split
            next hle =>
              obtain ⟨hcW, hcN, hcS, hcT⟩ :=
                close_effects st t'.id "plan_adjusted" rid u hfind hWF hNIP
              have hwu : wTask rid u = 0 := by
                unfold wTask
                rw [hu0]
                simp
              have hT' : ∀ t'' ∈ rest, optTaskR (some t'')
                  ((EngineState.closeReplenishmentTask st t'.id
                    "plan_adjusted").tasks.find?
                    (fun t => decide (t.id = t''.id))) :=
                fun t'' ht'' =>
                  optTaskR_trans (hT t'' (List.mem_cons_of_mem _ ht''))
                    (hcT t''.id (hMS t'' ht''))
              obtain ⟨i1, i2, i3⟩ := ih (ov - u.deficitQty)
                (EngineState.closeReplenishmentTask st t'.id
                  "plan_adjusted") hcW hcN
                (fun t'' ht'' => hother t'' (List.mem_cons_of_mem _ ht''))
                hT' hN.2
              refine ⟨i1, i2, ?_⟩
              rw [i3, hcS, hwu]
              ring
            next hgt =>
              have hfu : u ∈ st.tasks := List.mem_of_find?_eq_some hfind
              have hup := List.find?_some hfind
              have huid : u.id = t'.id := of_decide_eq_true hup
              have hW' : tasksWF (updateFirst
                  (fun t => decide (t.id = t'.id))
                  (fun t =>
                    { t with
                      deficitQty := t.deficitQty - ov
                      updatedAt := st.nowCursor }) st.tasks) := by
                refine tasksWF_updateFirst _ _ st.tasks hWF
                  (fun e he hpe => rfl) ?_
                intro e he hpe hop
                have heid : e.id = t'.id := of_decide_eq_true hpe
                have heu : e = u :=
                  List.inj_on_of_nodup_map hWF.1 he hfu
                    (heid.trans huid.symm)
                rw [heu]
                show 0 ≤ u.deficitQty - ov
                omega
              have hN' : noInProgressL (updateFirst
                  (fun t => decide (t.id = t'.id))
                  (fun t =>
                    { t with
                      deficitQty := t.deficitQty - ov
                      updatedAt := st.nowCursor }) st.tasks) rid :=
                noInProgressL_updateFirst _ _ st.tasks rid hNIP
                  (fun e he hpe hr hc => hNIP e he hr hc)
              have hsumU : openDeficitSumL (updateFirst
                  (fun t => decide (t.id = t'.id))
                  (fun t =>
                    { t with
                      deficitQty := t.deficitQty - ov
                      updatedAt := st.nowCursor }) st.tasks) rid =
                  openDeficitSumL st.tasks rid := by
                rw [openDeficitSumL_updateFirst t'.id _ rid st.tasks u
                  hfind]
                have hwu : wTask rid u = 0 := by
                  unfold wTask
                  rw [hu0]
                  simp
                have hwu2 : wTask rid ({ u with
                    deficitQty := u.deficitQty - ov
                    updatedAt := st.nowCursor } : ReplenishmentTask) =
                    0 := by
                  unfold wTask
                  rw [show ({ u with
                    deficitQty := u.deficitQty - ov
                    updatedAt := st.nowCursor } :
                    ReplenishmentTask).ruleId = u.ruleId from rfl]
                  rw [hu0]
                  simp
                rw [hwu, hwu2]
                ring
              have hT'' : ∀ t'' ∈ rest, optTaskR (some t'')
                  ((updateFirst (fun t => decide (t.id = t'.id))
                    (fun t =>
                      { t with
                        deficitQty := t.deficitQty - ov
                        updatedAt := st.nowCursor }) st.tasks).find?
                    (fun t => decide (t.id = t''.id))) := by
                intro t'' ht''
                rw [find?_updateFirst_ne t'.id t''.id (hMS t'' ht'')
                  (fun t =>
                    { t with
                      deficitQty := t.deficitQty - ov
                      updatedAt := st.nowCursor })
                  (fun e => rfl) st.tasks]
                exact hT t'' (List.mem_cons_of_mem _ ht'')
              obtain ⟨i1, i2, i3⟩ := ih 0
                ({ st with
                  tasks :=
                    updateFirst (fun t => decide (t.id = t'.id))
                      (fun t =>
                        { t with
                          deficitQty := t.deficitQty - ov
                          updatedAt := st.nowCursor }) st.tasks }) hW' hN'
                (fun t'' ht'' => hother t'' (List.mem_cons_of_mem _ ht''))
                hT'' hN.2
              refine ⟨i1, i2, ?_⟩
              rw [i3]
              exact hsumU
      next hov =>
        exact ⟨hWF, hNIP, rfl⟩

/-! ### The trigger phase and the two kinds of rule pass -/

theorem getCurrentInventoryQty_congr (a b : EngineState)
    (h : a.snapshots = b.snapshots) (z k : String)
    (src : InventorySource) :
    EngineState.getCurrentInventoryQty a z k src =
      EngineState.getCurrentInventoryQty b z k src := by
  unfold EngineState.getCurrentInventoryQty
  rw [h]

theorem wTask_open (rid : String) (t : ReplenishmentTask)
    (h1 : t.ruleId = rid) (h2 : taskIsOpen t.status = true) :
    wTask rid t = t.deficitQty := by
  unfold wTask
  rw [h1, h2]
  simp

theorem map_wTask_eq (rid : String) (l : List ReplenishmentTask)
    (h : ∀ t ∈ l, t.ruleId = rid ∧ taskIsOpen t.status = true) :
    l.map (wTask rid) = l.map (fun t => t.deficitQty) := by
  induction l with
  | nil => rfl
  | cons a l ih =>
      rw [List.map_cons, List.map_cons]
      rw [wTask_open rid a (h a (List.mem_cons_self _ _)).1
        (h a (List.mem_cons_self _ _)).2]
      rw [ih (fun t ht => h t (List.mem_cons_of_mem _ ht))]

theorem triggerPhase_bound (rule : ReplenishmentRule) (cur rem' : Int)
    (s3 : EngineState) (hWF : tasksWF s3.tasks)
    (hNIP : noInProgressL s3.tasks rule.id) (h0 : 0 ≤ rem') :
    tasksWF (EngineState.triggerPhase rule cur rem' s3).tasks ∧
    noInProgressL (EngineState.triggerPhase rule cur rem' s3).tasks
      rule.id ∧
    openDeficitSumL (EngineState.triggerPhase rule cur rem' s3).tasks
        rule.id ≤ openDeficitSumL s3.tasks rule.id + rem' := by
  unfold EngineState.triggerPhase
  dsimp only
  obtain ⟨i1, i2, i3, i4, i5⟩ := triggerLoop_bound2 rule cur
    (EngineState.buildSourceCandidates s3 rule none) rule.id
    (EngineState.buildSourceCandidates s3 rule none) rem' false s3 hWF hNIP
    h0
  have i4' := i4 rfl
  split
  next hcr =>
    obtain ⟨g1, g2, g3⟩ := gen_effects2
      (EngineState.triggerLoop rule cur
        (EngineState.buildSourceCandidates s3 rule none)
        (EngineState.buildSourceCandidates s3 rule none) rem' false s3).2.2
      rule
      (EngineState.triggerLoop rule cur
        (EngineState.buildSourceCandidates s3 rule none)
        (EngineState.buildSourceCandidates s3 rule none) rem' false s3).1
      cur
      (((EngineState.buildSourceCandidates s3 rule none).head?).map
        (fun c => c.sourceZoneId))
      (some (EngineState.buildSourceCandidates s3 rule none)) rule.id
      i2 (le_of_lt hcr.2) i3
    rw [if_pos rfl] at g1
    refine ⟨g2, g3, ?_⟩
    rw [g1]
    omega
  next hcr =>
    exact ⟨i2, i3, by omega⟩

theorem triggerPhase_other (rule : ReplenishmentRule) (cur rem' : Int)
    (s3 : EngineState) (rid : String) (hne : ¬ rule.id = rid)
    (hWF : tasksWF s3.tasks) (hNIP : noInProgressL s3.tasks rid)
    (h0 : 0 ≤ rem') :
    tasksWF (EngineState.triggerPhase rule cur rem' s3).tasks ∧
    noInProgressL (EngineState.triggerPhase rule cur rem' s3).tasks rid ∧
    openDeficitSumL (EngineState.triggerPhase rule cur rem' s3).tasks rid =
      openDeficitSumL s3.tasks rid := by
  unfold EngineState.triggerPhase
  dsimp only
  obtain ⟨i1, i2, i3, i4, i5⟩ := triggerLoop_bound2 rule cur
    (EngineState.buildSourceCandidates s3 rule none) rid
    (EngineState.buildSourceCandidates s3 rule none) rem' false s3 hWF hNIP
    h0
  have i5' := i5 hne
  split
  next hcr =>
    obtain ⟨g1, g2, g3⟩ := gen_effects2
      (EngineState.triggerLoop rule cur
        (EngineState.buildSourceCandidates s3 rule none)
        (EngineState.buildSourceCandidates s3 rule none) rem' false s3).2.2
      rule
      (EngineState.triggerLoop rule cur
        (EngineState.buildSourceCandidates s3 rule none)
        (EngineState.buildSourceCandidates s3 rule none) rem' false s3).1
      cur
      (((EngineState.buildSourceCandidates s3 rule none).head?).map
        (fun c => c.sourceZoneId))
      (some (EngineState.buildSourceCandidates s3 rule none)) rid
      i2 (le_of_lt hcr.2) i3
    rw [if_neg hne] at g1
    refine ⟨g2, g3, ?_⟩
    rw [g1, i5']
    ring
  next hcr =>
    exact ⟨i2, i3, i5'⟩

theorem salesPass_bound (rule : ReplenishmentRule) (cur : Int)
    (s1 : EngineState) (hWF : tasksWF s1.tasks)
    (hNIP : noInProgressL s1.tasks rule.id)
    (hminmax : rule.minQty ≤ rule.maxQty) (hmin : cur ≤ rule.minQty) :
    tasksWF (EngineState.salesRulePass rule cur s1).tasks ∧
    noInProgressL (EngineState.salesRulePass rule cur s1).tasks rule.id ∧
    openDeficitSumL (EngineState.salesRulePass rule cur s1).tasks rule.id ≤
      rule.maxQty - cur := by
  have hOT := openTasks_mem s1 rule.id
  have hOTN := openTasks_nodup s1 rule.id hWF.1
  have hTfold : ∀ t' ∈ EngineState.openTasksOfRule s1 rule.id,
      optTaskR (some t')
        (s1.tasks.find? (fun t => decide (t.id = t'.id))) := by
    intro t' ht'
    rw [find?_eq_of_mem_nodup s1.tasks hWF.1 t' (hOT t' ht').1]
    exact taskR_refl t'
  have hplanned : (EngineState.openTasksOfRule s1 rule.id).foldl
      (fun sum t => sum + t.deficitQty) 0 =
      openDeficitSumL s1.tasks rule.id := by
    rw [foldl_add_deficit, openTasks_sum]
    ring
  unfold EngineState.salesRulePass
  dsimp only
  rw [autoRej_eq_openTasks s1 rule.id hNIP]
  split
  next hge =>
    obtain ⟨f1, f2, f3⟩ := closeFold_effects "stock_recovered" rule.id
      (EngineState.openTasksOfRule s1 rule.id) s1 hWF hNIP hTfold hOTN
    refine ⟨f1, f2, ?_⟩
    rw [f3]
    have hmw : ((EngineState.openTasksOfRule s1 rule.id).map
        (wTask rule.id)).sum = openDeficitSumL s1.tasks rule.id := by
      rw [map_wTask_eq rule.id _
        (fun t ht => ⟨(hOT t ht).2.1, (hOT t ht).2.2⟩)]
      exact openTasks_sum s1 rule.id
    rw [hmw]
    omega
  next hge =>
    have hlt : cur < rule.maxQty := lt_of_not_ge hge
    have hdes0 : (0 : Int) ≤ max 0 (rule.maxQty - cur) := le_max_left _ _
    have hdesval : max 0 (rule.maxQty - cur) = rule.maxQty - cur :=
      max_eq_right (by omega)
    rw [hplanned]
    split
    next htrim =>
      rw [show ((EngineState.openTasksOfRule s1 rule.id).map
          (fun t => t.id)).reverse =
          ((EngineState.openTasksOfRule s1 rule.id).reverse).map
            (fun t => t.id) from (List.map_reverse _ _).symm]
      obtain ⟨t1, t2, t3⟩ := trimLoop_bound rule.id
        (max 0 (rule.maxQty - cur))
        ((EngineState.openTasksOfRule s1 rule.id).reverse)
        (openDeficitSumL s1.tasks rule.id - max 0 (rule.maxQty - cur)) s1
        hWF hNIP
        (fun t' ht' => by
          have hm := hOT t' (List.mem_reverse.mp ht')
          exact ⟨hm.2.1, hm.2.2, hWF.2.2 t' hm.1 hm.2.2⟩)
        (fun t' ht' => hTfold t' (List.mem_reverse.mp ht'))
        (by
          rw [show ((EngineState.openTasksOfRule s1
              rule.id).reverse).map (fun t => t.id) =
              ((EngineState.openTasksOfRule s1 rule.id).map
                (fun t => t.id)).reverse from List.map_reverse _ _]
          exact List.nodup_reverse.mpr hOTN)
        hdes0 (by ring)
        (by
          rw [show ((EngineState.openTasksOfRule s1
              rule.id).reverse).map (fun t => t.deficitQty) =
              ((EngineState.openTasksOfRule s1 rule.id).map
                (fun t => t.deficitQty)).reverse from List.map_reverse _ _]
          rw [List.sum_reverse, openTasks_sum]
          omega)
      obtain ⟨r1, r2⟩ := refresh_effects rule rule.id
        ((EngineState.openTasksOfRule s1 rule.id).map (fun t => t.id))
        (EngineState.trimLoop s1
          (((EngineState.openTasksOfRule s1 rule.id).reverse).map
            (fun t => t.id))
          (openDeficitSumL s1.tasks rule.id - max 0 (rule.maxQty - cur)))
      rw [if_pos (show max 0 (max 0 (rule.maxQty - cur) -
          max 0 (rule.maxQty - cur)) ≤ 0 from by omega)]
      refine ⟨tasksWF_forall2 r1 t1, r2 t2, ?_⟩
      rw [openDeficitSumL_forall2 rule.id r1]
      omega
    next htrim =>
      obtain ⟨r1, r2⟩ := refresh_effects rule rule.id
        ((EngineState.openTasksOfRule s1 rule.id).map (fun t => t.id)) s1
      have hsum3 : openDeficitSumL
          (EngineState.refreshTaskSources s1 rule
            ((EngineState.openTasksOfRule s1 rule.id).map
              (fun t => t.id))).tasks rule.id =
          openDeficitSumL s1.tasks rule.id :=
        openDeficitSumL_forall2 rule.id r1
      have hW3 := tasksWF_forall2 r1 hWF
      have hN3 := r2 hNIP
      split
      next hrem =>
        refine ⟨hW3, hN3, ?_⟩
        rw [hsum3]
        omega
      next hrem =>
        obtain ⟨p1, p2, p3⟩ := triggerPhase_bound rule cur
          (max 0 (max 0 (rule.maxQty - cur) -
            openDeficitSumL s1.tasks rule.id))
          (EngineState.refreshTaskSources s1 rule
            ((EngineState.openTasksOfRule s1 rule.id).map
              (fun t => t.id)))
          hW3 hN3 (le_max_left _ _)
        refine ⟨p1, p2, ?_⟩
        have hp3 := p3
        rw [hsum3] at hp3
        refine le_trans hp3 ?_
        omega

theorem salesPass_other (rule : ReplenishmentRule) (cur : Int)
    (s1 : EngineState) (rid : String) (hne : ¬ rule.id = rid)
    (hWF : tasksWF s1.tasks) (hNIP : noInProgressL s1.tasks rid) :
    tasksWF (EngineState.salesRulePass rule cur s1).tasks ∧
    noInProgressL (EngineState.salesRulePass rule cur s1).tasks rid ∧
    openDeficitSumL (EngineState.salesRulePass rule cur s1).tasks rid =
      openDeficitSumL s1.tasks rid := by
  have hOT := openTasks_mem s1 rule.id
  have hARm : ∀ t' ∈ (EngineState.openTasksOfRule s1 rule.id).filter
      (fun t => decide (t.status ≠ TaskStatus.IN_PROGRESS)),
      t' ∈ s1.tasks ∧ t'.ruleId = rule.id := by
    intro t' ht'
    have hm := hOT t' (List.mem_filter.mp ht').1
    exact ⟨hm.1, hm.2.1⟩
  have hARN : (((EngineState.openTasksOfRule s1 rule.id).filter
      (fun t => decide (t.status ≠ TaskStatus.IN_PROGRESS))).map
      (fun t => t.id)).Nodup :=
    nodup_ids_filter _ _ (openTasks_nodup s1 rule.id hWF.1)
  have hTfold : ∀ t' ∈ (EngineState.openTasksOfRule s1 rule.id).filter
      (fun t => decide (t.status ≠ TaskStatus.IN_PROGRESS)),
      optTaskR (some t')
        (s1.tasks.find? (fun t => decide (t.id = t'.id))) := by
    intro t' ht'
    rw [find?_eq_of_mem_nodup s1.tasks hWF.1 t' (hARm t' ht').1]
    exact taskR_refl t'
  have hARz : (((EngineState.openTasksOfRule s1 rule.id).filter
      (fun t => decide (t.status ≠ TaskStatus.IN_PROGRESS))).map
      (wTask rid)).sum = 0 := by
    apply List.sum_eq_zero
    intro x hx
    obtain ⟨t', ht', rfl⟩ := List.mem_map.mp hx
    unfold wTask
    rw [(hARm t' ht').2]
    rw [decide_eq_false hne]
    simp
  unfold EngineState.salesRulePass
  dsimp only
  split
  next hge =>
    obtain ⟨f1, f2, f3⟩ := closeFold_effects "stock_recovered" rid
      ((EngineState.openTasksOfRule s1 rule.id).filter
        (fun t => decide (t.status ≠ TaskStatus.IN_PROGRESS))) s1 hWF hNIP
      hTfold hARN
    refine ⟨f1, f2, ?_⟩
    rw [f3, hARz]
    ring
  next hge =>
    by_cases hA : (EngineState.openTasksOfRule s1 rule.id).foldl
        (fun sum t => sum + t.deficitQty) 0 > max 0 (rule.maxQty - cur)
    · rw [if_pos hA, if_pos hA]
      rw [show (((EngineState.openTasksOfRule s1 rule.id).filter
          (fun t => decide
            (t.status ≠ TaskStatus.IN_PROGRESS))).map
          (fun t => t.id)).reverse =
          (((EngineState.openTasksOfRule s1 rule.id).filter
            (fun t => decide
              (t.status ≠ TaskStatus.IN_PROGRESS))).reverse).map
            (fun t => t.id) from (List.map_reverse _ _).symm]
      obtain ⟨w2, n2, e2⟩ := trimLoop_other rid
        (((EngineState.openTasksOfRule s1 rule.id).filter
          (fun t => decide
            (t.status ≠ TaskStatus.IN_PROGRESS))).reverse)
        ((EngineState.openTasksOfRule s1 rule.id).foldl
          (fun sum t => sum + t.deficitQty) 0 -
          max 0 (rule.maxQty - cur)) s1 hWF hNIP
        (fun t' ht' => fun hc =>
          hne (((hARm t' (List.mem_reverse.mp ht')).2).symm.trans hc))
        (fun t' ht' => hTfold t' (List.mem_reverse.mp ht'))
        (by
          rw [show (((EngineState.openTasksOfRule s1 rule.id).filter
              (fun t => decide
                (t.status ≠ TaskStatus.IN_PROGRESS))).reverse).map
              (fun t => t.id) =
              ((((EngineState.openTasksOfRule s1 rule.id).filter
                (fun t => decide
                  (t.status ≠ TaskStatus.IN_PROGRESS)))).map
                (fun t => t.id)).reverse from List.map_reverse _ _]
          exact List.nodup_reverse.mpr hARN)
      obtain ⟨r1, r2⟩ := refresh_effects rule rid
        ((EngineState.openTasksOfRule s1 rule.id).map (fun t => t.id))
        (EngineState.trimLoop s1
          ((((EngineState.openTasksOfRule s1 rule.id).filter
            (fun t => decide
              (t.status ≠ TaskStatus.IN_PROGRESS))).reverse).map
            (fun t => t.id))
          ((EngineState.openTasksOfRule s1 rule.id).foldl
            (fun sum t => sum + t.deficitQty) 0 -
            max 0 (rule.maxQty - cur)))
      have hW3 := tasksWF_forall2 r1 w2
      have hN3 := r2 n2
      have hsum3 := (openDeficitSumL_forall2 rid r1).trans e2
      by_cases hB : cur ≤ rule.minQty
      · rw [if_pos hB]
        rw [if_pos (show max 0 (max 0 (rule.maxQty - cur) -
            max 0 (rule.maxQty - cur)) ≤ 0 from by omega)]
        exact ⟨hW3, hN3, hsum3⟩
      · rw [if_neg hB]
        exact ⟨hW3, hN3, hsum3⟩
    · rw [if_neg hA, if_neg hA]
      obtain ⟨r1, r2⟩ := refresh_effects rule rid
        ((EngineState.openTasksOfRule s1 rule.id).map (fun t => t.id)) s1
      have hW3 := tasksWF_forall2 r1 hWF
      have hN3 := r2 hNIP
      have hsum3 := openDeficitSumL_forall2 rid r1
      by_cases hB : cur ≤ rule.minQty
      · rw [if_pos hB]
        by_cases hC : max 0 (max 0 (rule.maxQty - cur) -
            (EngineState.openTasksOfRule s1 rule.id).foldl
              (fun sum t => sum + t.deficitQty) 0) ≤ 0
        · rw [if_pos hC]
          exact ⟨hW3, hN3, hsum3⟩
        · rw [if_neg hC]
          obtain ⟨p1, p2, p3⟩ := triggerPhase_other rule cur _ _ rid hne
            hW3 hN3 (le_max_left _ _)
          exact ⟨p1, p2, p3.trans hsum3⟩
      · rw [if_neg hB]
        exact ⟨hW3, hN3, hsum3⟩

/-! ### The rule loop of `evaluateMinMax` -/

theorem ourPass_bound (zone : Zone) (rule : ReplenishmentRule)
    (s st : EngineState) (hsales : zone.isSalesLocation = true)
    (hframe : frameOf st = frameOf s)
    (hWF : tasksWF st.tasks) (hNIP : noInProgressL st.tasks rule.id)
    (hminmax : rule.minQty ≤ rule.maxQty)
    (hmin : EngineState.getCurrentInventoryQty s zone.id rule.skuId
      rule.source ≤ rule.minQty) :
    frameOf (EngineState.evaluateRuleForZone zone st rule) = frameOf s ∧
    tasksWF (EngineState.evaluateRuleForZone zone st rule).tasks ∧
    noInProgressL (EngineState.evaluateRuleForZone zone st rule).tasks
      rule.id ∧
    openDeficitSumL (EngineState.evaluateRuleForZone zone st rule).tasks
        rule.id ≤
      rule.maxQty - EngineState.getCurrentInventoryQty s zone.id rule.skuId
        rule.source := by
  have hcur : EngineState.getCurrentInventoryQty st zone.id rule.skuId
      rule.source =
      EngineState.getCurrentInventoryQty s zone.id rule.skuId rule.source :=
    getCurrentInventoryQty_congr st s (congrArg Frame.snapshots hframe) _ _ _
  obtain ⟨mW, mN, _⟩ := merge_effects zone rule st rule.id hWF hNIP
  obtain ⟨pW, pN, pS⟩ := salesPass_bound rule
    (EngineState.getCurrentInventoryQty st zone.id rule.skuId rule.source)
    (EngineState.mergeOpenTasks zone rule st) mW mN hminmax
    (by rw [hcur]; exact hmin)
  have hstep : EngineState.evaluateRuleForZone zone st rule =
      EngineState.salesRulePass rule
        (EngineState.getCurrentInventoryQty st zone.id rule.skuId
          rule.source)
        (EngineState.mergeOpenTasks zone rule st) := by
    unfold EngineState.evaluateRuleForZone
    dsimp only
    rw [if_neg (not_not_intro hsales)]
  rw [hstep]
  refine ⟨?_, pW, pN, ?_⟩
  · rw [EngineState.frameOf_salesRulePass, EngineState.frameOf_mergeOpenTasks]
    exact hframe
  · exact le_of_le_of_eq pS (by rw [hcur])

theorem otherPass_effects (zone : Zone) (r : ReplenishmentRule)
    (s st : EngineState) (rid : String) (hne : ¬ r.id = rid)
    (hsales : zone.isSalesLocation = true)
    (hframe : frameOf st = frameOf s) (hWF : tasksWF st.tasks)
    (hNIP : noInProgressL st.tasks rid) :
    frameOf (EngineState.evaluateRuleForZone zone st r) = frameOf s ∧
    tasksWF (EngineState.evaluateRuleForZone zone st r).tasks ∧
    noInProgressL (EngineState.evaluateRuleForZone zone st r).tasks rid ∧
    openDeficitSumL (EngineState.evaluateRuleForZone zone st r).tasks rid =
      openDeficitSumL st.tasks rid := by
  obtain ⟨mW, mN, mS⟩ := merge_effects zone r st rid hWF hNIP
  obtain ⟨pW, pN, pS⟩ := salesPass_other r
    (EngineState.getCurrentInventoryQty st zone.id r.skuId r.source)
    (EngineState.mergeOpenTasks zone r st) rid hne mW mN
  have hstep : EngineState.evaluateRuleForZone zone st r =
      EngineState.salesRulePass r
        (EngineState.getCurrentInventoryQty st zone.id r.skuId r.source)
        (EngineState.mergeOpenTasks zone r st) := by
    unfold EngineState.evaluateRuleForZone
    dsimp only
    rw [if_neg (not_not_intro hsales)]
  rw [hstep]
  refine ⟨?_, pW, pN, ?_⟩
  · rw [EngineState.frameOf_salesRulePass, EngineState.frameOf_mergeOpenTasks]
    exact hframe
  · rw [pS]
    exact mS hne

theorem evalFold_bound (zone : Zone) (rule : ReplenishmentRule)
    (s : EngineState) (hsales : zone.isSalesLocation = true)
    (hminmax : rule.minQty ≤ rule.maxQty)
    (hmin : EngineState.getCurrentInventoryQty s zone.id rule.skuId
      rule.source ≤ rule.minQty) :
    ∀ (L : List ReplenishmentRule) (st : EngineState),
      (∀ r ∈ L, r.id = rule.id → r = rule) →
      frameOf st = frameOf s → tasksWF st.tasks →
      noInProgressL st.tasks rule.id →
      (rule ∈ L ∨ openDeficitSumL st.tasks rule.id ≤
        rule.maxQty - EngineState.getCurrentInventoryQty s zone.id
          rule.skuId rule.source) →
      openDeficitSumL
          (L.foldl (EngineState.evaluateRuleForZone zone) st).tasks
          rule.id ≤
        rule.maxQty - EngineState.getCurrentInventoryQty s zone.id
          rule.skuId rule.source := by
  intro L
  induction L with
  | nil =>
      intro st huniq hframe hWF hNIP hdisj
      rcases hdisj with hmem | hbound
      · exact absurd hmem (List.not_mem_nil rule)
      · exact hbound
  | cons r L' ih =>
      intro st huniq hframe hWF hNIP hdisj
      rw [List.foldl_cons]
      by_cases hr : r = rule
      · subst hr
        obtain ⟨o1, o2, o3, o4⟩ := ourPass_bound zone r s st hsales hframe
          hWF hNIP hminmax hmin
        exact ih _ (fun r2 h2 => huniq r2 (List.mem_cons_of_mem _ h2))
          o1 o2 o3 (Or.inr o4)
      · have hrid : ¬ r.id = rule.id := fun hc =>
          hr (huniq r (List.mem_cons_self _ _) hc)
        obtain ⟨o1, o2, o3, o4⟩ := otherPass_effects zone r s st rule.id
          hrid hsales hframe hWF hNIP
        refine ih _ (fun r2 h2 => huniq r2 (List.mem_cons_of_mem _ h2))
          o1 o2 o3 ?_
        rcases hdisj with hmem | hbound
        · rcases List.mem_cons.mp hmem with heq | hmem2
          · exact absurd heq.symm hr
          · exact Or.inl hmem2
        · refine Or.inr ?_
          rw [o4]
          exact hbound

/-- C4 (corrected): after min/max evaluation of a sales location, for an
active rule of the location whose current quantity is at most `rule.min`,
the sum of `deficitQty` over the rule's open tasks is at most
`rule.max − current`, provided no open task of the rule is IN_PROGRESS
(the counterexample shows an IN_PROGRESS task's deficit survives the trim
walk untouched), the rule is consistent (`min ≤ max`, and no other active
rule of the zone shares its identifier), and the task store satisfies the
engine's own integrity invariants (`tasksWF`: pairwise-distinct task
identifiers, auto-generated identifiers still fresh, non-negative open
deficits).  Open CREATED/ASSIGNED tasks of the rule are allowed: the merge,
trim and trigger phases are what enforce the bound. -/
theorem c4_deficit_bound (s : EngineState) (zoneId : String) (zone : Zone)
    (rule : ReplenishmentRule)
    (hzone : s.zones.find? (fun z => decide (z.id = zoneId)) = some zone)
    (hsales : zone.isSalesLocation = true)
    (hactive : rule ∈ s.rules.filter
      (fun r => decide (r.zoneId = zoneId) && r.isActive))
    (huniq : ∀ r ∈ s.rules.filter
      (fun r => decide (r.zoneId = zoneId) && r.isActive),
      r.id = rule.id → r = rule)
    (hnip : ruleHasNoInProgress s rule.id)
    (hWF : tasksWF s.tasks)
    (hminmax : rule.minQty ≤ rule.maxQty)
    (hmin : EngineState.getCurrentInventoryQty s zone.id rule.skuId
      rule.source ≤ rule.minQty) :
    ruleOpenDeficitSum (EngineState.evaluateMinMax s zoneId) rule.id ≤
      rule.maxQty -
        EngineState.getCurrentInventoryQty s zone.id rule.skuId
          rule.source := by
  unfold EngineState.evaluateMinMax
  dsimp only
  split
  next h => rw [hzone] at h; cases h
  next z hz =>
    rw [hzone] at hz
    injection hz with hz
    subst hz
    exact evalFold_bound zone rule s hsales hminmax hmin
      (s.rules.filter (fun r => decide (r.zoneId = zoneId) && r.isActive))
      s huniq rfl hWF hnip (Or.inl hactive)

/-- C4 counterexample: in `inProgressOverplanEngine` the zone's single active
rule has current 3 ≤ min 5, yet after evaluation the open deficit sum is 20,
above the claimed bound max − current = 7: the trim walk only visits
auto-adjustable (non-IN_PROGRESS) tasks, so an IN_PROGRESS task's deficit
survives untouched. -/
theorem c4_overplan_counterexample :
    minMaxRule ∈ inProgressOverplanEngine.rules ∧
    minMaxRule.isActive = true ∧
    EngineState.getCurrentInventoryQty inProgressOverplanEngine "zone-a"
        minMaxRule.skuId minMaxRule.source ≤ minMaxRule.minQty ∧
    ¬ (ruleOpenDeficitSum
        (EngineState.evaluateMinMax inProgressOverplanEngine "zone-a")
        minMaxRule.id ≤
      minMaxRule.maxQty -
        EngineState.getCurrentInventoryQty inProgressOverplanEngine "zone-a"
          minMaxRule.skuId minMaxRule.source) := by
  decide

/-- C4 witness: the corrected bound at `createdOverplanEngine`, whose single
CREATED task over-plans (deficit 20 against desired 7) so the evaluation's
trim walk has to shrink it down to the bound. -/
theorem c4_deficit_bound_witness :
    ruleOpenDeficitSum
        (EngineState.evaluateMinMax createdOverplanEngine "zone-a")
        minMaxRule.id ≤
      minMaxRule.maxQty -
        EngineState.getCurrentInventoryQty createdOverplanEngine
          zoneSalesA.id minMaxRule.skuId minMaxRule.source :=
  c4_deficit_bound createdOverplanEngine "zone-a" zoneSalesA minMaxRule
    (by decide) rfl (by decide) (by decide)
    (by unfold ruleHasNoInProgress; decide)
    ⟨by decide,
      by
        intro t ht n hn hc
        have ht1 : t = { dryTask with
            status := TaskStatus.CREATED
            deficitQty := 20 } := List.mem_singleton.mp ht
        have hid : t.id = "task-1" := by rw [ht1]; rfl
        rw [hid] at hc
        have h1 : "task-1" = "task-" ++ toString (1 : Nat) := by decide
        have h2 := taskId_inj 1 (n + 1) (h1.symm.trans hc)
        have hn' : 1 ≤ n := hn
        omega,
      by decide⟩
    (by decide) (by decide)

end RetailSim
